import Mathlib

/-!
ARM GICv2 interrupt controller model (`src/vcml/models/arm/gicv2.cpp`).

A shallow embedding of the interrupt state machine of the VCML GICv2 model:
the distributor state, the physical CPU interface with its preemption chain,
the list registers of the virtualization extension and the arbitration
routine `gicv2::update`.

Registers are total maps from their index (bank = processor, array index) to
the stored value.  Machine integers are natural numbers; truncation to the
storage width is written out where the source relies on it.  The header
`gicv2.h` (constants, the `irq_state` accessors, the list-register accessors)
is not part of the sources at hand; what is taken from it is marked.
-/

namespace vcml.arm

/-! ## Constants of `gicv2.h` -/

/-- Modelled from the spec: macro `VCML_ARM_GICv2_NCPU` of the missing header
`gicv2.h`; the banked views and processor bitmasks are eight wide. -/
abbrev VCML_ARM_GICv2_NCPU : Nat := 8

/-- Modelled from the spec: macro `VCML_ARM_GICv2_NSGI` of the missing header;
software-generated lines are the ids 0..15. -/
abbrev VCML_ARM_GICv2_NSGI : Nat := 16

/-- Modelled from the spec: macro `VCML_ARM_GICv2_NPPI` of the missing header;
private peripheral lines are the ids 16..31. -/
abbrev VCML_ARM_GICv2_NPPI : Nat := 16

/-- Modelled from the spec: macro `VCML_ARM_GICv2_PRIV` of the missing header;
shared peripheral lines start at id 32. -/
abbrev VCML_ARM_GICv2_PRIV : Nat := VCML_ARM_GICv2_NSGI + VCML_ARM_GICv2_NPPI

/-- Modelled from the spec: macro `VCML_ARM_GICv2_NIRQ` of the missing header,
the capacity of the per-line tables; the architecture has the line ids
0..1019, the ids 1020..1023 are reserved (1023 is the spurious id). -/
abbrev VCML_ARM_GICv2_NIRQ : Nat := 1020

/-- Modelled from the spec: macro `VCML_ARM_GICv2_NLR` of the missing header,
the number of list-register slots per processor. -/
abbrev VCML_ARM_GICv2_NLR : Nat := 64

/-- Modelled from the spec: macro `VCML_ARM_GICv2_IDLE_PRIO` of the missing
header, the idle priority 0xFF. -/
abbrev VCML_ARM_GICv2_IDLE_PRIO : Nat := 0xFF

/-- Modelled from the spec: macro `VCML_ARM_GICv2_SPURIOUS_IRQ` of the missing
header, the spurious sentinel 1023. -/
abbrev VCML_ARM_GICv2_SPURIOUS_IRQ : Nat := 1023

/-- Modelled from the spec: macro `VCML_ARM_GICv2_VIRT_MIN_BPR` of the missing
header, the minimum binary point of the virtual interface. -/
abbrev VCML_ARM_GICv2_VIRT_MIN_BPR : Nat := 2

/-- Modelled from the spec: macro `VCML_ARM_GICv2_LR_PENDING_MASK` of the
missing header, the pending state bit (bit 28) of a list register. -/
abbrev VCML_ARM_GICv2_LR_PENDING_MASK : Nat := 1 <<< 28

/-- Modelled from the spec: macro `VCML_ARM_GICv2_LR_ACTIVE_MASK` of the
missing header, the active state bit (bit 29) of a list register. -/
abbrev VCML_ARM_GICv2_LR_ACTIVE_MASK : Nat := 1 <<< 29

/-- Modelled from the spec: enumerator `gicv2::ALL_CPU` of the missing header,
the bitmask naming every processor. -/
abbrev gicv2.ALL_CPU : Nat := (1 <<< VCML_ARM_GICv2_NCPU) - 1

/-! ## Bit helpers for the 8-bit per-line masks -/

/-- The C expression `field |= mask` on a `u8` field. -/
def u8_set_bits (field mask : Nat) : Nat := (field ||| mask) % 256

/-- The C expression `field &= ~mask` on a `u8` field (`mask` promoted to a
32-bit unsigned before the complement). -/
def u8_clear_bits (field mask : Nat) : Nat := (field &&& (0xFFFFFFFF ^^^ mask)) % 256

/-! ## `ctz32` -/

/-- Function `ctz32` of `gicv2.cpp`: binary search for the lowest set bit. -/
def ctz32 (value : Nat) : Nat :=
  if value &&& 0x00000001 ≠ 0 then 0
  else
    let count := 1
    let (count, value) :=
      if value &&& 0x0000FFFF = 0 then (count + 16, value >>> 16) else (count, value)
    let (count, value) :=
      if value &&& 0x000000FF = 0 then (count + 8, value >>> 8) else (count, value)
    let (count, value) :=
      if value &&& 0x0000000F = 0 then (count + 4, value >>> 4) else (count, value)
    let (count, value) :=
      if value &&& 0x00000003 = 0 then (count + 2, value >>> 2) else (count, value)
    count - (value &&& 0x00000001)

/-- Function `is_software_interrupt` of `gicv2.cpp`. -/
def is_software_interrupt (irq : Nat) : Bool := decide (irq < VCML_ARM_GICv2_NSGI)

/-! ## State -/

/-- Enumeration `gicv2::handling_model` (named in `irq_state::irq_state` and
`cpuif::read_IACK`). -/
inductive gicv2.handling_model where
  | N_N
  | N_1
  deriving DecidableEq, Repr

/-- Enumeration `gicv2::trigger_mode` (named in `irq_state::irq_state` and the
trigger configuration handlers). -/
inductive gicv2.trigger_mode where
  | LEVEL
  | EDGE
  deriving DecidableEq, Repr

/-- Structure `gicv2::irq_state`; the fields are those initialised by its
constructor, the five masks are `u8` bitmasks over processors. -/
structure gicv2.irq_state where
  enabled : Nat
  pending : Nat
  active : Nat
  level : Nat
  signaled : Nat
  model : gicv2.handling_model
  trigger : gicv2.trigger_mode

/-- Constructor `gicv2::irq_state::irq_state`. -/
def gicv2.irq_state.init : gicv2.irq_state :=
  { enabled := 0, pending := 0, active := 0, level := 0, signaled := 0,
    model := gicv2.handling_model.N_N, trigger := gicv2.trigger_mode.EDGE }

/-- Structure `gicv2::lr`, one list-register slot; the fields are those
initialised by its constructor. -/
structure gicv2.lr where
  pending : Bool
  active : Bool
  hw : Nat
  prio : Nat
  virtual_id : Nat
  physical_id : Nat
  cpu_id : Nat

/-- Constructor `gicv2::lr::lr`. -/
def gicv2.lr.init : gicv2.lr :=
  { pending := false, active := false, hw := 0, prio := 0, virtual_id := 0,
    physical_id := 0, cpu_id := 0 }

/-- Registers of `gicv2::distif` that carry interrupt state.  Banked registers
take the processor first. -/
structure gicv2.distif where
  CTLR : Nat
  SGIP : Nat → Nat → Nat
  PPIP : Nat → Nat → Nat
  SPIP : Nat → Nat
  SPIT : Nat → Nat
  CPPI : Nat
  CSPI : Nat → Nat
  SGIS : Nat → Nat → Nat
  SGIC : Nat → Nat → Nat

/-- Registers and members of `gicv2::cpuif`; every register is banked per
processor, `m_prev_irq` is indexed `[irq][cpu]`. -/
structure gicv2.cpuif where
  CTLR : Nat → Nat
  IPMR : Nat → Nat
  BIPR : Nat → Nat
  IACK : Nat → Nat
  PRIO : Nat → Nat
  PEND : Nat → Nat
  ABPR : Nat → Nat
  m_curr_irq : Nat → Nat
  m_prev_irq : Nat → Nat → Nat

/-- Registers and members of `gicv2::vifctrl`; `m_lr_state` is indexed
`[cpu][slot]`, `LR` is banked. -/
structure gicv2.vifctrl where
  m_lr_state : Nat → Nat → gicv2.lr
  HCR : Nat → Nat
  APR : Nat → Nat
  LR : Nat → Nat → Nat

/-- Registers of `gicv2::vcpuif`, banked per processor. -/
structure gicv2.vcpuif where
  CTLR : Nat → Nat
  PMR : Nat → Nat
  BPR : Nat → Nat
  RPR : Nat → Nat
  HPPIR : Nat → Nat

/-- Class `gicv2`: the four register blocks, the line table, the configured
sizes and the last value written to each output line. -/
structure gicv2 where
  DISTIF : gicv2.distif
  CPUIF : gicv2.cpuif
  VIFCTRL : gicv2.vifctrl
  VCPUIF : gicv2.vcpuif
  IRQ_OUT : Nat → Bool
  VIRQ_OUT : Nat → Bool
  m_irq_num : Nat
  m_cpu_num : Nat
  m_irq_state : Nat → gicv2.irq_state

/-! ## Accessors of the line table (bodies in the missing header) -/

/-- Modelled from the spec: `gicv2::get_irq_num` of the missing header, the
configured line count `m_irq_num`. -/
def gicv2.get_irq_num (s : gicv2) : Nat := s.m_irq_num

/-- Modelled from the spec: `gicv2::enable_irq` of the missing header; sets the
enable bits of `irq` named by `mask`. -/
def gicv2.enable_irq (s : gicv2) (irq mask : Nat) : gicv2 :=
  { s with m_irq_state := (Function.update s.m_irq_state irq
      { s.m_irq_state irq with enabled := u8_set_bits (s.m_irq_state irq).enabled mask }) }

/-- Modelled from the spec: `gicv2::disable_irq` of the missing header; clears
the enable bits of `irq` named by `mask`. -/
def gicv2.disable_irq (s : gicv2) (irq mask : Nat) : gicv2 :=
  { s with m_irq_state := (Function.update s.m_irq_state irq
      { s.m_irq_state irq with enabled := u8_clear_bits (s.m_irq_state irq).enabled mask }) }

/-- Modelled from the spec: `gicv2::is_irq_enabled` of the missing header;
`enabled` is the bitmask of processors for which the line is enabled. -/
def gicv2.is_irq_enabled (s : gicv2) (irq mask : Nat) : Bool :=
  (s.m_irq_state irq).enabled &&& mask != 0

/-- Modelled from the spec: `gicv2::set_irq_pending` of the missing header; a
straightforward set or clear of the pending bits named by `mask`. -/
def gicv2.set_irq_pending (s : gicv2) (irq : Nat) (pending : Bool) (mask : Nat) : gicv2 :=
  { s with m_irq_state := (Function.update s.m_irq_state irq
      { s.m_irq_state irq with
        pending := if pending then u8_set_bits (s.m_irq_state irq).pending mask
                   else u8_clear_bits (s.m_irq_state irq).pending mask }) }

/-- Modelled from the spec: `gicv2::is_irq_pending` of the missing header;
`pending` is the bitmask of processors for which the line requests service. -/
def gicv2.is_irq_pending (s : gicv2) (irq mask : Nat) : Bool :=
  (s.m_irq_state irq).pending &&& mask != 0

/-- Modelled from the spec: `gicv2::set_irq_active` of the missing header; sets
or clears the active bits named by `mask`. -/
def gicv2.set_irq_active (s : gicv2) (irq : Nat) (active : Bool) (mask : Nat) : gicv2 :=
  { s with m_irq_state := (Function.update s.m_irq_state irq
      { s.m_irq_state irq with
        active := if active then u8_set_bits (s.m_irq_state irq).active mask
                  else u8_clear_bits (s.m_irq_state irq).active mask }) }

/-- Modelled from the spec: `gicv2::is_irq_active` of the missing header;
`active` is the bitmask of processors servicing the line. -/
def gicv2.is_irq_active (s : gicv2) (irq mask : Nat) : Bool :=
  (s.m_irq_state irq).active &&& mask != 0

/-- Modelled from the spec: `gicv2::set_irq_level` of the missing header; stores
the sampled wire state in the bits named by `mask`. -/
def gicv2.set_irq_level (s : gicv2) (irq : Nat) (level : Bool) (mask : Nat) : gicv2 :=
  { s with m_irq_state := (Function.update s.m_irq_state irq
      { s.m_irq_state irq with
        level := if level then u8_set_bits (s.m_irq_state irq).level mask
                 else u8_clear_bits (s.m_irq_state irq).level mask }) }

/-- Modelled from the spec: `gicv2::get_irq_level` of the missing header. -/
def gicv2.get_irq_level (s : gicv2) (irq mask : Nat) : Bool :=
  (s.m_irq_state irq).level &&& mask != 0

/-- Modelled from the spec: `gicv2::set_irq_signaled` of the missing header; the
"signaled" bookkeeping set by an acknowledge and cleared by a transition. -/
def gicv2.set_irq_signaled (s : gicv2) (irq : Nat) (signaled : Bool) (mask : Nat) : gicv2 :=
  { s with m_irq_state := (Function.update s.m_irq_state irq
      { s.m_irq_state irq with
        signaled := if signaled then u8_set_bits (s.m_irq_state irq).signaled mask
                    else u8_clear_bits (s.m_irq_state irq).signaled mask }) }

/-- Modelled from the spec: `gicv2::irq_signaled` of the missing header. -/
def gicv2.irq_signaled (s : gicv2) (irq mask : Nat) : Bool :=
  (s.m_irq_state irq).signaled &&& mask != 0

/-- Modelled from the spec: `gicv2::get_irq_model` of the missing header. -/
def gicv2.get_irq_model (s : gicv2) (irq : Nat) : gicv2.handling_model :=
  (s.m_irq_state irq).model

/-- Modelled from the spec: `gicv2::get_irq_trigger` of the missing header. -/
def gicv2.get_irq_trigger (s : gicv2) (irq : Nat) : gicv2.trigger_mode :=
  (s.m_irq_state irq).trigger

/-- Modelled from the spec: `gicv2::set_irq_trigger` of the missing header. -/
def gicv2.set_irq_trigger (s : gicv2) (irq : Nat) (trigger : gicv2.trigger_mode) : gicv2 :=
  { s with m_irq_state := (Function.update s.m_irq_state irq
      { s.m_irq_state irq with trigger := trigger }) }

/-- Modelled from the spec: `gicv2::test_pending` of the missing header; a line
tests pending when its pending bit is latched, or when it is level-triggered,
its sampled level is asserted and it has not been acknowledged since. -/
def gicv2.test_pending (s : gicv2) (irq mask : Nat) : Bool :=
  s.is_irq_pending irq mask ||
    (decide (s.get_irq_trigger irq = gicv2.trigger_mode.LEVEL) &&
      s.get_irq_level irq mask && !s.irq_signaled irq mask)

/-! ## Accessors of the list registers (bodies in the missing header) -/

/-- Modelled from the spec: `vifctrl::is_lr_pending` of the missing header. -/
def gicv2.vifctrl.is_lr_pending (s : gicv2) (lr core_id : Nat) : Bool :=
  (s.VIFCTRL.m_lr_state core_id lr).pending

/-- Modelled from the spec: `vifctrl::is_lr_active` of the missing header. -/
def gicv2.vifctrl.is_lr_active (s : gicv2) (lr core_id : Nat) : Bool :=
  (s.VIFCTRL.m_lr_state core_id lr).active

/-- Modelled from the spec: `vifctrl::is_lr_hw` of the missing header. -/
def gicv2.vifctrl.is_lr_hw (s : gicv2) (lr core_id : Nat) : Bool :=
  (s.VIFCTRL.m_lr_state core_id lr).hw != 0

/-- Modelled from the spec: `vifctrl::get_lr_physid` of the missing header. -/
def gicv2.vifctrl.get_lr_physid (s : gicv2) (lr core_id : Nat) : Nat :=
  (s.VIFCTRL.m_lr_state core_id lr).physical_id

/-- Modelled from the spec: `vifctrl::get_lr_cpuid` of the missing header. -/
def gicv2.vifctrl.get_lr_cpuid (s : gicv2) (lr core_id : Nat) : Nat :=
  (s.VIFCTRL.m_lr_state core_id lr).cpu_id

/-- Write one slot of `m_lr_state[core_id][lr]`. -/
def gicv2.vifctrl.set_lr_state (s : gicv2) (lr core_id : Nat) (v : gicv2.lr) : gicv2 :=
  { s with VIFCTRL := { s.VIFCTRL with
      m_lr_state := (Function.update s.VIFCTRL.m_lr_state core_id
        (Function.update (s.VIFCTRL.m_lr_state core_id) lr v)) } }

/-- Modelled from the spec: `vifctrl::set_lr_pending` of the missing header. -/
def gicv2.vifctrl.set_lr_pending (s : gicv2) (lr core_id : Nat) (p : Bool) : gicv2 :=
  gicv2.vifctrl.set_lr_state s lr core_id { s.VIFCTRL.m_lr_state core_id lr with pending := p }

/-- Modelled from the spec: `vifctrl::set_lr_active` of the missing header. -/
def gicv2.vifctrl.set_lr_active (s : gicv2) (lr core_id : Nat) (a : Bool) : gicv2 :=
  gicv2.vifctrl.set_lr_state s lr core_id { s.VIFCTRL.m_lr_state core_id lr with active := a }

/-- Modelled from the spec: `vifctrl::set_lr_cpuid` of the missing header. -/
def gicv2.vifctrl.set_lr_cpuid (s : gicv2) (lr core_id : Nat) (cpu_id : Nat) : gicv2 :=
  gicv2.vifctrl.set_lr_state s lr core_id { s.VIFCTRL.m_lr_state core_id lr with cpu_id := cpu_id }

/-- Modelled from the spec: `vifctrl::set_lr_hw` of the missing header. -/
def gicv2.vifctrl.set_lr_hw (s : gicv2) (lr core_id : Nat) (p : Bool) : gicv2 :=
  gicv2.vifctrl.set_lr_state s lr core_id
    { s.VIFCTRL.m_lr_state core_id lr with hw := if p then 1 else 0 }

/-- Modelled from the spec: `vifctrl::set_lr_physid` of the missing header. -/
def gicv2.vifctrl.set_lr_physid (s : gicv2) (lr core_id : Nat) (physid : Nat) : gicv2 :=
  gicv2.vifctrl.set_lr_state s lr core_id
    { s.VIFCTRL.m_lr_state core_id lr with physical_id := physid }

/-- Modelled from the spec: `vifctrl::set_lr_prio` of the missing header. -/
def gicv2.vifctrl.set_lr_prio (s : gicv2) (lr core_id : Nat) (prio : Nat) : gicv2 :=
  gicv2.vifctrl.set_lr_state s lr core_id { s.VIFCTRL.m_lr_state core_id lr with prio := prio }

/-- Modelled from the spec: `vifctrl::set_lr_vid` of the missing header. -/
def gicv2.vifctrl.set_lr_vid (s : gicv2) (lr core_id : Nat) (irq : Nat) : gicv2 :=
  gicv2.vifctrl.set_lr_state s lr core_id
    { s.VIFCTRL.m_lr_state core_id lr with virtual_id := irq }

/-- Function `vifctrl::get_lr`: the first slot whose virtual id is `irq` and
that is active or pending, slot 0 when there is none. -/
def gicv2.vifctrl.get_lr (s : gicv2) (irq core_id : Nat) : Nat :=
  match (List.range VCML_ARM_GICv2_NLR).find? (fun i =>
      decide ((s.VIFCTRL.m_lr_state core_id i).virtual_id = irq) &&
        ((s.VIFCTRL.m_lr_state core_id i).active || (s.VIFCTRL.m_lr_state core_id i).pending)) with
  | some i => i
  | none => 0

/-! ## Arbitration: `gicv2::update` -/

/-- Function `gicv2::get_irq_priority`. -/
def gicv2.get_irq_priority (s : gicv2) (cpu irq : Nat) : Nat :=
  if irq < VCML_ARM_GICv2_NSGI then s.DISTIF.SGIP cpu irq
  else if irq < VCML_ARM_GICv2_PRIV then s.DISTIF.PPIP cpu (irq - VCML_ARM_GICv2_NSGI)
  else if irq < VCML_ARM_GICv2_NIRQ then s.DISTIF.SPIP (irq - VCML_ARM_GICv2_PRIV)
  else 0

/-- A C loop `for (irq = lo; irq < hi; irq++) body` over a loop-carried value. -/
def for_range {α : Type} (lo hi : Nat) (body : Nat → α → α) (init : α) : α :=
  (List.range' lo (hi - lo)).foldl (fun acc irq => body irq acc) init

/-- Body of the loop "check SGIs" of `gicv2::update`; `best` is the pair
`(best_prio, best_irq)`. -/
def gicv2.update_sgi_body (s : gicv2) (cpu : Nat) (irq : Nat) (best : Nat × Nat) : Nat × Nat :=
  let mask := 1 <<< cpu
  if s.is_irq_enabled irq mask && s.test_pending irq mask && !s.is_irq_active irq mask then
    if s.DISTIF.SGIP cpu irq < best.1 then (s.DISTIF.SGIP cpu irq, irq) else best
  else best

/-- Body of the loop "check PPIs" of `gicv2::update`. -/
def gicv2.update_ppi_body (s : gicv2) (cpu : Nat) (irq : Nat) (best : Nat × Nat) : Nat × Nat :=
  let mask := 1 <<< cpu
  if s.is_irq_enabled irq mask && s.test_pending irq mask && !s.is_irq_active irq mask then
    let idx := irq - VCML_ARM_GICv2_NSGI
    if s.DISTIF.PPIP cpu idx < best.1 then (s.DISTIF.PPIP cpu idx, irq) else best
  else best

/-- Body of the loop "check SPIs" of `gicv2::update`. -/
def gicv2.update_spi_body (s : gicv2) (cpu : Nat) (irq : Nat) (best : Nat × Nat) : Nat × Nat :=
  let mask := 1 <<< cpu
  let idx := irq - VCML_ARM_GICv2_PRIV
  if s.is_irq_enabled irq mask && s.test_pending irq mask &&
      (s.DISTIF.SPIT idx &&& mask != 0) && !s.is_irq_active irq mask then
    if s.DISTIF.SPIP idx < best.1 then (s.DISTIF.SPIP idx, irq) else best
  else best

/-- Body of the list-register loop of `gicv2::update`. -/
def gicv2.update_lr_body (s : gicv2) (cpu : Nat) (lr_idx : Nat) (best : Nat × Nat) : Nat × Nat :=
  if gicv2.vifctrl.is_lr_pending s lr_idx cpu then
    let prio := ((s.VIFCTRL.LR cpu lr_idx &&& (0x1F <<< 23)) >>> 23) % 256
    if prio < best.1 then (prio, s.VIFCTRL.LR cpu lr_idx &&& 0x1FF) else best
  else best

/-- Body of the processor loop of `gicv2::update`, one iteration. -/
def gicv2.update_cpu (s : gicv2) (virt : Bool) (cpu : Nat) : gicv2 :=
  let best0 : Nat × Nat := ( VCML_ARM_GICv2_IDLE_PRIO, VCML_ARM_GICv2_SPURIOUS_IRQ)
  let s1 : gicv2 :=
    if !virt then
      { s with CPUIF := { s.CPUIF with
          PEND := Function.update s.CPUIF.PEND cpu VCML_ARM_GICv2_SPURIOUS_IRQ } }
    else
      { s with VCPUIF := { s.VCPUIF with
          HPPIR := Function.update s.VCPUIF.HPPIR cpu VCML_ARM_GICv2_SPURIOUS_IRQ } }
  if !virt && (s1.DISTIF.CTLR == 0 || s1.CPUIF.CTLR cpu == 0) then
    { s1 with IRQ_OUT := Function.update s1.IRQ_OUT cpu false }
  else if virt && s1.VIFCTRL.HCR cpu == 0 then
    { s1 with VIRQ_OUT := Function.update s1.VIRQ_OUT cpu false }
  else
    let best : Nat × Nat :=
      if !virt then
        for_range VCML_ARM_GICv2_PRIV s1.m_irq_num (s1.update_spi_body cpu)
          (for_range VCML_ARM_GICv2_NSGI VCML_ARM_GICv2_PRIV (s1.update_ppi_body cpu)
            (for_range 0 VCML_ARM_GICv2_NSGI (s1.update_sgi_body cpu) best0))
      else
        for_range 0 VCML_ARM_GICv2_NLR (s1.update_lr_body cpu) best0
    let best_prio := best.1
    let best_irq := best.2
    if !virt then
      let s2 : gicv2 :=
        if best_prio < s1.CPUIF.IPMR cpu then
          { s1 with CPUIF := { s1.CPUIF with PEND := Function.update s1.CPUIF.PEND cpu best_irq } }
        else s1
      let level : Bool :=
        decide (best_prio < s1.CPUIF.IPMR cpu) && decide (best_prio < s1.CPUIF.PRIO cpu)
      { s2 with IRQ_OUT := Function.update s2.IRQ_OUT cpu level }
    else
      let s2 : gicv2 :=
        if best_prio < s1.VCPUIF.PMR cpu then
          { s1 with VCPUIF := { s1.VCPUIF with HPPIR := Function.update s1.VCPUIF.HPPIR cpu best_irq } }
        else s1
      let level : Bool :=
        decide (best_prio < s1.VCPUIF.PMR cpu) && decide (best_prio < s1.VCPUIF.RPR cpu)
      { s2 with VIRQ_OUT := Function.update s2.VIRQ_OUT cpu level }

/-- Function `gicv2::update`: the loop body for every processor below
`m_cpu_num`, in ascending order. -/
def gicv2.update (s : gicv2) (virt : Bool) : gicv2 :=
  for_range 0 s.m_cpu_num (fun cpu st => st.update_cpu virt cpu) s

/-! ## Physical CPU interface -/

/-- The normalisation `if (cpu < 0) cpu = 0` applied by the distributor and CPU
interface handlers to the result of `current_cpu()`. -/
def cpu_or_zero (current_cpu : Int) : Nat :=
  if current_cpu < 0 then 0 else current_cpu.toNat

/-- Function `distif::set_sgi_pending`; `value` is a `u8` mask of source
processors, `SGIS` and `SGIC` are `u8` registers. -/
def gicv2.distif.set_sgi_pending (s : gicv2) (value sgi cpu : Nat) (set : Bool) : gicv2 :=
  if set then
    { s with DISTIF := { s.DISTIF with
        SGIS := (Function.update s.DISTIF.SGIS cpu
          (Function.update (s.DISTIF.SGIS cpu) sgi (u8_set_bits (s.DISTIF.SGIS cpu sgi) value))),
        SGIC := (Function.update s.DISTIF.SGIC cpu
          (Function.update (s.DISTIF.SGIC cpu) sgi (u8_set_bits (s.DISTIF.SGIC cpu sgi) value))) } }
  else
    { s with DISTIF := { s.DISTIF with
        SGIS := (Function.update s.DISTIF.SGIS cpu
          (Function.update (s.DISTIF.SGIS cpu) sgi (u8_clear_bits (s.DISTIF.SGIS cpu sgi) value))),
        SGIC := (Function.update s.DISTIF.SGIC cpu
          (Function.update (s.DISTIF.SGIC cpu) sgi (u8_clear_bits (s.DISTIF.SGIC cpu sgi) value))) } }

/-- Function `cpuif::set_current_irq`. -/
def gicv2.cpuif.set_current_irq (s : gicv2) (cpu irq : Nat) : gicv2 :=
  let s1 : gicv2 := { s with CPUIF := { s.CPUIF with
    m_curr_irq := (Function.update s.CPUIF.m_curr_irq cpu irq) } }
  let s2 : gicv2 := { s1 with CPUIF := { s1.CPUIF with
    PRIO := (Function.update s1.CPUIF.PRIO cpu
      (if irq = VCML_ARM_GICv2_SPURIOUS_IRQ then 0x100 else s1.get_irq_priority cpu irq)) } }
  s2.update false

/-- The `while` loop of `cpuif::write_EOIR` that walks the resume chain from
`iter`, on the table `prev = m_prev_irq`.  Each evaluation of the loop
condition costs one unit of `fuel`; `none` means the fuel ran out. -/
def gicv2.cpuif.eoi_walk (cpu irq : Nat) : Nat → (Nat → Nat → Nat) → Nat → Option (Nat → Nat → Nat)
  | 0, _, _ => none
  | fuel + 1, prev, iter =>
    if prev iter cpu ≠ VCML_ARM_GICv2_SPURIOUS_IRQ then
      if prev iter cpu = irq then
        some (Function.update prev iter (Function.update (prev iter) cpu (prev irq cpu)))
      else gicv2.cpuif.eoi_walk cpu irq fuel prev (prev iter cpu)
    else some prev

/-- Function `cpuif::write_EOIR`, executed by processor `current_cpu` with the
written value `val`.  The C function returns 0 on every path; the result here
is the state after the call, `none` when the chain walk exceeds `fuel`. -/
def gicv2.cpuif.write_EOIR (s : gicv2) (fuel : Nat) (current_cpu : Int) (val : Nat) :
    Option gicv2 :=
  let cpu := cpu_or_zero current_cpu
  if s.CPUIF.m_curr_irq cpu = VCML_ARM_GICv2_SPURIOUS_IRQ then some s
  else
    let irq := val &&& 0x3FF
    if irq ≥ s.get_irq_num then some s
    else if irq = s.CPUIF.m_curr_irq cpu then
      let s1 := gicv2.cpuif.set_current_irq s cpu (s.CPUIF.m_prev_irq irq cpu)
      some (s1.set_irq_active irq false (1 <<< cpu))
    else
      (gicv2.cpuif.eoi_walk cpu irq fuel s.CPUIF.m_prev_irq (s.CPUIF.m_curr_irq cpu)).map
        (fun prev => { s with CPUIF := { s.CPUIF with m_prev_irq := prev } })

/-- The processor mask `cpu_mask` computed by `cpuif::read_IACK`. -/
def gicv2.cpuif.ack_mask (s : gicv2) (cpu irq : Nat) : Nat :=
  if s.get_irq_model irq = gicv2.handling_model.N_1 then gicv2.ALL_CPU else 1 <<< cpu

/-- The block `if (is_software_interrupt(irq)) ... else ...` of
`cpuif::read_IACK`: clears the pending state of the acknowledged line and
yields the value assigned to `IACK` with the state after the block. -/
def gicv2.cpuif.ack_pending (s : gicv2) (cpu irq cpu_mask : Nat) : Nat × gicv2 :=
  if is_software_interrupt irq then
    let pending := s.DISTIF.SGIS cpu irq
    let src_cpu := ctz32 pending
    let s1 := gicv2.distif.set_sgi_pending s ((1 <<< src_cpu) % 256) irq cpu false
    let s2 := if s1.DISTIF.SGIS cpu irq = 0 then s1.set_irq_pending irq false cpu_mask else s1
    (((src_cpu &&& 0x7) <<< 10) ||| irq, s2)
  else
    (irq, s.set_irq_pending irq false cpu_mask)

/-- Function `cpuif::read_IACK`, executed by processor `current_cpu`: the value
read and the state after the call. -/
def gicv2.cpuif.read_IACK (s : gicv2) (current_cpu : Int) : Nat × gicv2 :=
  let cpu := cpu_or_zero current_cpu
  let irq := s.CPUIF.PEND cpu
  let cpu_mask := gicv2.cpuif.ack_mask s cpu irq
  if irq = VCML_ARM_GICv2_SPURIOUS_IRQ ∨ s.get_irq_priority cpu irq ≥ s.CPUIF.PRIO cpu then
    (VCML_ARM_GICv2_SPURIOUS_IRQ, s)
  else
    let r := gicv2.cpuif.ack_pending s cpu irq cpu_mask
    let iack := r.1
    let s3 : gicv2 := { r.2 with CPUIF := { r.2.CPUIF with
      IACK := (Function.update r.2.CPUIF.IACK cpu iack) } }
    let s4 : gicv2 := { s3 with CPUIF := { s3.CPUIF with
      m_prev_irq := (Function.update s3.CPUIF.m_prev_irq irq
        (Function.update (s3.CPUIF.m_prev_irq irq) cpu (s3.CPUIF.m_curr_irq cpu))) } }
    let s5 := gicv2.cpuif.set_current_irq s4 cpu irq
    let s6 := s5.set_irq_active irq true cpu_mask
    let s7 := s6.set_irq_signaled irq true cpu_mask
    (iack, s7)

/-! ## Virtual interface control -/

/-- Modelled from the spec: the element `LR[idx]` the handlers of `vifctrl`
read and assign is element `idx` of the bank of the accessing processor (the
subscript operator belongs to the register framework, which is not part of
the sources at hand). -/
def gicv2.vifctrl.lr_bank (current_cpu : Int) : Nat := current_cpu.toNat

/-- Function `vifctrl::write_HCR`, executed by processor `current_cpu`: the
value returned and the state after the call. -/
def gicv2.vifctrl.write_HCR (s : gicv2) (current_cpu : Int) (val : Nat) : Nat × gicv2 :=
  let core_id := (current_cpu % 256).toNat
  let s1 : gicv2 := { s with VIFCTRL := { s.VIFCTRL with
    HCR := (Function.update s.VIFCTRL.HCR core_id val) } }
  (val, s1.update true)

/-- The hardware and source fields of `vifctrl::write_LR`: the two branches on
the hardware-backed flag. -/
def gicv2.vifctrl.write_LR_source (s : gicv2) (core_id val idx : Nat) : gicv2 :=
  let hw := ((val >>> 31) &&& 0b1) % 256
  if hw = 0 then
    let cpu_id := ((val >>> 10) &&& 0b111) % 256
    let s1 := gicv2.vifctrl.set_lr_cpuid s idx core_id cpu_id
    let s2 := gicv2.vifctrl.set_lr_hw s1 idx core_id false
    gicv2.vifctrl.set_lr_physid s2 idx core_id 0
  else
    let s1 := gicv2.vifctrl.set_lr_cpuid s idx core_id 0
    let s2 := gicv2.vifctrl.set_lr_hw s1 idx core_id true
    let physid := ((val >>> 10) &&& 0x1ff) % 2 ^ 16
    gicv2.vifctrl.set_lr_physid s2 idx core_id physid

/-- The state flags of `vifctrl::write_LR`: the three tests on the state
field. -/
def gicv2.vifctrl.write_LR_flags (s : gicv2) (core_id val idx : Nat) : gicv2 :=
  let state := ((val >>> 28) &&& 0b11) % 256
  let s1 := if state &&& 1 ≠ 0 then gicv2.vifctrl.set_lr_pending s idx core_id true else s
  let s2 := if state &&& 2 ≠ 0 then gicv2.vifctrl.set_lr_active s1 idx core_id true else s1
  if state = 0 then
    gicv2.vifctrl.set_lr_active (gicv2.vifctrl.set_lr_pending s2 idx core_id false) idx core_id false
  else s2

/-- Function `vifctrl::write_LR`, executed by processor `current_cpu` for list
register `idx`: the value returned and the state after the call. -/
def gicv2.vifctrl.write_LR (s : gicv2) (current_cpu : Int) (val idx : Nat) : Nat × gicv2 :=
  let core_id := (current_cpu % 256).toNat
  let s1 := gicv2.vifctrl.write_LR_source s core_id val idx
  let s2 := gicv2.vifctrl.write_LR_flags s1 core_id val idx
  let prio := (val >>> 23) &&& 0x1f
  let s3 := gicv2.vifctrl.set_lr_prio s2 idx core_id prio
  let irq := val &&& 0x1ff
  let s4 := gicv2.vifctrl.set_lr_vid s3 idx core_id irq
  let bank := gicv2.vifctrl.lr_bank current_cpu
  let s5 : gicv2 := { s4 with VIFCTRL := { s4.VIFCTRL with
    LR := (Function.update s4.VIFCTRL.LR bank (Function.update (s4.VIFCTRL.LR bank) idx val)) } }
  (val, s5.update true)

/-- Function `vifctrl::read_LR`, executed by processor `current_cpu` for list
register `idx`: the value returned and the state after the call. -/
def gicv2.vifctrl.read_LR (s : gicv2) (current_cpu : Int) (idx : Nat) : Nat × gicv2 :=
  let core_id := (current_cpu % 256).toNat
  let bank := gicv2.vifctrl.lr_bank current_cpu
  let v0 := s.VIFCTRL.LR bank idx
  let v1 :=
    if gicv2.vifctrl.is_lr_pending s idx core_id then v0 ||| VCML_ARM_GICv2_LR_PENDING_MASK
    else v0 &&& (0xFFFFFFFF ^^^ VCML_ARM_GICv2_LR_PENDING_MASK)
  let v2 :=
    if gicv2.vifctrl.is_lr_active s idx core_id then v1 ||| VCML_ARM_GICv2_LR_ACTIVE_MASK
    else v1 &&& (0xFFFFFFFF ^^^ VCML_ARM_GICv2_LR_ACTIVE_MASK)
  let s1 : gicv2 := { s with VIFCTRL := { s.VIFCTRL with
    LR := (Function.update s.VIFCTRL.LR bank (Function.update (s.VIFCTRL.LR bank) idx v2)) } }
  (v2, s1)

/-- Function `vifctrl::get_irq_priority`: the priority of the first slot whose
virtual id is `irq` and that is active or pending, 0 when there is none. -/
def gicv2.vifctrl.get_irq_priority (s : gicv2) (core_id irq : Nat) : Nat :=
  match (List.range VCML_ARM_GICv2_NLR).find? (fun i =>
      decide ((s.VIFCTRL.m_lr_state core_id i).virtual_id = irq) &&
        ((s.VIFCTRL.m_lr_state core_id i).active || (s.VIFCTRL.m_lr_state core_id i).pending)) with
  | some i => (s.VIFCTRL.m_lr_state core_id i).prio % 256
  | none => 0

/-- Function `vifctrl::write_VMCR`, executed by processor `current_cpu`: the
value returned and the state after the call.  `core_id` is an `int` here; the
banks written are those of the accessing processor. -/
def gicv2.vifctrl.write_VMCR (s : gicv2) (current_cpu : Int) (val : Nat) : Nat × gicv2 :=
  let core_id := current_cpu.toNat
  let prio_mask := ((val >>> 27) &&& 0x1f) % 256
  let bpr := ((val >>> 21) &&& 0x03) % 256
  let ctlr := val &&& 0x1ff
  let s1 : gicv2 := { s with VCPUIF := { s.VCPUIF with
    PMR := (Function.update s.VCPUIF.PMR core_id ((prio_mask <<< 3) % 2 ^ 32)) } }
  let s2 : gicv2 := { s1 with VCPUIF := { s1.VCPUIF with
    BPR := (Function.update s1.VCPUIF.BPR core_id bpr) } }
  let s3 : gicv2 := { s2 with VCPUIF := { s2.VCPUIF with
    CTLR := (Function.update s2.VCPUIF.CTLR core_id ctlr) } }
  (val, s3)

/-- Function `vifctrl::read_VMCR`, executed by processor `current_cpu`. -/
def gicv2.vifctrl.read_VMCR (s : gicv2) (current_cpu : Int) : Nat :=
  let core_id := current_cpu.toNat
  let prio_mask := ((s.VCPUIF.PMR core_id >>> 3) &&& 0x1f) % 256
  let bpr := (s.VCPUIF.BPR core_id &&& 0x03) % 256
  let ctlr := s.VCPUIF.CTLR core_id &&& 0x1ff
  ((prio_mask <<< 27) ||| (bpr <<< 21) ||| ctlr) % 2 ^ 32

/-! ## Virtual CPU interface -/

/-- Function `vcpuif::write_BPR`: the value the handler returns for the written
value `val`. -/
def gicv2.vcpuif.write_BPR (val : Nat) : Nat :=
  max (val &&& 0x07) VCML_ARM_GICv2_VIRT_MIN_BPR

/-- Function `vcpuif::write_EOIR`, executed by processor `current_cpu` with the
written value `val`: the value returned and the state after the call.  The
floating-point expression `(u32)(pow(2, log2(apr)))` is the parameter
`pow2_log2`. -/
def gicv2.vcpuif.write_EOIR (pow2_log2 : Nat → Nat) (s : gicv2) (current_cpu : Int) (val : Nat) :
    Nat × gicv2 :=
  let core_id := (current_cpu % 256).toNat
  let irq := val &&& 0x1FF
  if irq ≥ s.get_irq_num then (0, s)
  else
    let lr := gicv2.vifctrl.get_lr s irq core_id
    let apr := s.VIFCTRL.APR core_id &&& ((s.VIFCTRL.APR core_id + (2 ^ 32 - 1)) % 2 ^ 32)
    let s1 : gicv2 := { s with VIFCTRL := { s.VIFCTRL with
      APR := (Function.update s.VIFCTRL.APR core_id apr) } }
    let rpr :=
      if apr ≠ 0 then (pow2_log2 apr <<< (VCML_ARM_GICv2_VIRT_MIN_BPR + 1)) % 2 ^ 32
      else VCML_ARM_GICv2_IDLE_PRIO
    let s2 : gicv2 := { s1 with VCPUIF := { s1.VCPUIF with
      RPR := (Function.update s1.VCPUIF.RPR core_id rpr) } }
    let s3 := gicv2.vifctrl.set_lr_active s2 lr core_id false
    let s4 :=
      if gicv2.vifctrl.is_lr_hw s3 lr core_id then
        let physid := gicv2.vifctrl.get_lr_physid s3 lr core_id
        if ¬ (physid < VCML_ARM_GICv2_NSGI ∨ physid > VCML_ARM_GICv2_NIRQ) then
          s3.set_irq_active physid false (1 <<< core_id)
        else s3
      else s3
    (val, s4.update true)

/-- The register updates of `vcpuif::read_IAR` on a successful acknowledge of
the virtual id `irq`: the running priority `RPR.bank(core_id)` and the
active-priority bit in `APR.bank(core_id)`. -/
def gicv2.vcpuif.ack_registers (s : gicv2) (core_id irq : Nat) : gicv2 :=
  let prio := (gicv2.vifctrl.get_irq_priority s core_id irq <<< 3) % 2 ^ 32
  let mask := ((0xFFFFFFFFFFFFFFFF <<< ((s.VCPUIF.BPR core_id &&& 0x07) + 1)) % 2 ^ 64) % 2 ^ 32
  let s1 : gicv2 := { s with VCPUIF := { s.VCPUIF with
    RPR := (Function.update s.VCPUIF.RPR core_id (prio &&& mask)) } }
  let preemption_level := prio >>> (VCML_ARM_GICv2_VIRT_MIN_BPR + 1)
  let bitno := preemption_level % 32
  { s1 with VIFCTRL := { s1.VIFCTRL with
    APR := (Function.update s1.VIFCTRL.APR core_id
      ((s1.VIFCTRL.APR core_id ||| (1 <<< bitno)) % 2 ^ 32)) } }

/-- The bookkeeping of `vcpuif::read_IAR` on a successful acknowledge of the
virtual id `irq`, before arbitration runs: the register updates, then the
flags of the slot found by `get_lr`.  The result is the slot `lr` and the
state. -/
def gicv2.vcpuif.ack_virtual (s : gicv2) (core_id irq : Nat) : Nat × gicv2 :=
  let s2 := gicv2.vcpuif.ack_registers s core_id irq
  let lr := gicv2.vifctrl.get_lr s2 irq core_id % 256
  let s3 := gicv2.vifctrl.set_lr_active s2 lr core_id true
  (lr, gicv2.vifctrl.set_lr_pending s3 lr core_id false)

/-- Function `vcpuif::read_IAR`, executed by processor `current_cpu`: the value
read and the state after the call. -/
def gicv2.vcpuif.read_IAR (s : gicv2) (current_cpu : Int) : Nat × gicv2 :=
  let core_id := (current_cpu % 256).toNat
  let irq := s.VCPUIF.HPPIR core_id
  if irq = VCML_ARM_GICv2_SPURIOUS_IRQ ∨
      gicv2.vifctrl.get_irq_priority s core_id irq ≥ s.VCPUIF.RPR core_id then
    (VCML_ARM_GICv2_SPURIOUS_IRQ, s)
  else
    let r := gicv2.vcpuif.ack_virtual s core_id irq
    let s2 := r.2.update true
    let cpu_id := gicv2.vifctrl.get_lr_cpuid s2 r.1 core_id % 256
    (((cpu_id &&& 0x111) <<< 10) ||| irq, s2)

/-! ## Distributor handlers

The handlers return a register object (`return ISER;` and the like) whose
conversion belongs to the register framework, which is not part of the sources
at hand; the definitions give the state after the handler body.  The index
`idx` of a tagged handler is an `unsigned int`; line ids computed from it wrap
at 32 bits. -/

/-- Function `distif::ppi_enabled_mask`; the result is a `u16`. -/
def gicv2.distif.ppi_enabled_mask (s : gicv2) (cpu : Nat) : Nat :=
  for_range 0 VCML_ARM_GICv2_NPPI (fun irq value =>
    if s.is_irq_enabled (irq + VCML_ARM_GICv2_NSGI) (1 <<< cpu) then
      (value ||| (1 <<< irq)) % 2 ^ 16
    else value) 0

/-- Function `distif::read_ISER`, executed by processor `current_cpu`. -/
def gicv2.distif.read_ISER (s : gicv2) (current_cpu : Int) : Nat :=
  let cpu := cpu_or_zero current_cpu
  let mask := gicv2.distif.ppi_enabled_mask s cpu
  ((mask <<< 16) ||| 0xFFFF) % 2 ^ 32

/-- Function `distif::read_ICER`, executed by processor `current_cpu`. -/
def gicv2.distif.read_ICER (s : gicv2) (current_cpu : Int) : Nat :=
  let cpu := cpu_or_zero current_cpu
  let mask := gicv2.distif.ppi_enabled_mask s cpu
  ((mask <<< 16) ||| 0xFFFF) % 2 ^ 32

/-- Body of the loop of `distif::write_ISER` for line `irq`. -/
def gicv2.distif.write_ISER_body (val mask : Nat) (irq : Nat) (s : gicv2) : gicv2 :=
  if val &&& (1 <<< irq) ≠ 0 then
    let s1 := s.enable_irq irq mask
    if s1.get_irq_level irq mask &&
        decide (s1.get_irq_trigger irq = gicv2.trigger_mode.LEVEL) then
      s1.set_irq_pending irq true mask
    else s1
  else s

/-- Function `distif::write_ISER`, executed by processor `current_cpu`. -/
def gicv2.distif.write_ISER (s : gicv2) (current_cpu : Int) (val : Nat) : gicv2 :=
  let cpu := cpu_or_zero current_cpu
  let mask := 1 <<< cpu
  let s1 := for_range VCML_ARM_GICv2_NSGI VCML_ARM_GICv2_PRIV
    (gicv2.distif.write_ISER_body val mask) s
  s1.update false

/-- Body of the loop of `distif::write_SSER` for bit `i`; `irq` is the first
line of the register. -/
def gicv2.distif.write_SSER_body (val irq : Nat) (i : Nat) (s : gicv2) : gicv2 :=
  if val &&& (1 <<< i) ≠ 0 then
    let line := (irq + i) % 2 ^ 32
    let s1 := s.enable_irq line gicv2.ALL_CPU
    if s1.get_irq_level line gicv2.ALL_CPU &&
        decide (s1.get_irq_trigger line = gicv2.trigger_mode.LEVEL) then
      s1.set_irq_pending line true gicv2.ALL_CPU
    else s1
  else s

/-- Function `distif::write_SSER`. -/
def gicv2.distif.write_SSER (s : gicv2) (val idx : Nat) : gicv2 :=
  let irq := (VCML_ARM_GICv2_PRIV + idx * 32) % 2 ^ 32
  let s1 := for_range 0 32 (gicv2.distif.write_SSER_body val irq) s
  s1.update false

/-- Body of the loop of `distif::write_ICER` for line `irq`. -/
def gicv2.distif.write_ICER_body (val mask : Nat) (irq : Nat) (s : gicv2) : gicv2 :=
  if val &&& (1 <<< irq) ≠ 0 then s.disable_irq irq mask else s

/-- Function `distif::write_ICER`, executed by processor `current_cpu`. -/
def gicv2.distif.write_ICER (s : gicv2) (current_cpu : Int) (val : Nat) : gicv2 :=
  let cpu := cpu_or_zero current_cpu
  let mask := 1 <<< cpu
  let s1 := for_range VCML_ARM_GICv2_NSGI VCML_ARM_GICv2_PRIV
    (gicv2.distif.write_ICER_body val mask) s
  s1.update false

/-- Body of the loop of `distif::write_SCER` for bit `i`; `irq` is the first
line of the register. -/
def gicv2.distif.write_SCER_body (val irq : Nat) (i : Nat) (s : gicv2) : gicv2 :=
  if val &&& (1 <<< i) ≠ 0 then s.disable_irq ((irq + i) % 2 ^ 32) gicv2.ALL_CPU else s

/-- Function `distif::write_SCER`. -/
def gicv2.distif.write_SCER (s : gicv2) (val idx : Nat) : gicv2 :=
  let irq := (VCML_ARM_GICv2_PRIV + idx * 32) % 2 ^ 32
  let s1 := for_range 0 32 (gicv2.distif.write_SCER_body val irq) s
  s1.update false

/-- Body of the loop of `distif::write_SSPR` for bit `i`; `irq` is the first
line of the register. -/
def gicv2.distif.write_SSPR_body (value irq : Nat) (i : Nat) (s : gicv2) : gicv2 :=
  if value &&& (1 <<< i) ≠ 0 then
    s.set_irq_pending ((irq + i) % 2 ^ 32) true (s.DISTIF.SPIT i)
  else s

/-- Function `distif::write_SSPR`. -/
def gicv2.distif.write_SSPR (s : gicv2) (value idx : Nat) : gicv2 :=
  let irq := (VCML_ARM_GICv2_PRIV + idx * 32) % 2 ^ 32
  let s1 := for_range 0 32 (gicv2.distif.write_SSPR_body value irq) s
  s1.update false

/-- Body of the loop of `distif::write_ICAR` for line `irq`. -/
def gicv2.distif.write_ICAR_body (val mask : Nat) (irq : Nat) (s : gicv2) : gicv2 :=
  if val &&& (1 <<< irq) ≠ 0 then s.set_irq_active irq false mask else s

/-- Function `distif::write_ICAR`, executed by processor `current_cpu`. -/
def gicv2.distif.write_ICAR (s : gicv2) (current_cpu : Int) (val : Nat) : gicv2 :=
  let cpu := cpu_or_zero current_cpu
  let mask := 1 <<< cpu
  for_range 0 32 (gicv2.distif.write_ICAR_body val mask) s

/-- Body of the loop of `distif::write_SCAR` for bit `i`; `irq` is the first
line of the register. -/
def gicv2.distif.write_SCAR_body (val irq : Nat) (i : Nat) (s : gicv2) : gicv2 :=
  if val &&& (1 <<< i) ≠ 0 then s.set_irq_active ((irq + i) % 2 ^ 32) false gicv2.ALL_CPU else s

/-- Function `distif::write_SCAR`. -/
def gicv2.distif.write_SCAR (s : gicv2) (val idx : Nat) : gicv2 :=
  let irq := (VCML_ARM_GICv2_PRIV + idx * 32) % 2 ^ 32
  for_range 0 32 (gicv2.distif.write_SCAR_body val irq) s

/-- Body of the loops of `distif::write_CPPI` and `distif::write_CSPI` for the
bit pair `i`; `irq` is the first line of the register. -/
def gicv2.distif.write_cfg_body (value irq : Nat) (i : Nat) (s : gicv2) : gicv2 :=
  if value &&& (2 <<< (i * 2)) ≠ 0 then
    s.set_irq_trigger ((irq + i) % 2 ^ 32) gicv2.trigger_mode.EDGE
  else
    s.set_irq_trigger ((irq + i) % 2 ^ 32) gicv2.trigger_mode.LEVEL

/-- Function `distif::write_CPPI`. -/
def gicv2.distif.write_CPPI (s : gicv2) (value : Nat) : gicv2 :=
  let s0 : gicv2 := { s with DISTIF := { s.DISTIF with CPPI := value &&& 0xAAAAAAAA } }
  let irq := VCML_ARM_GICv2_NSGI
  let s1 := for_range 0 VCML_ARM_GICv2_NPPI (gicv2.distif.write_cfg_body value irq) s0
  s1.update false

/-- Function `distif::write_CSPI`. -/
def gicv2.distif.write_CSPI (s : gicv2) (value idx : Nat) : gicv2 :=
  let s0 : gicv2 := { s with DISTIF := { s.DISTIF with
    CSPI := (Function.update s.DISTIF.CSPI idx (value &&& 0xAAAAAAAA)) } }
  let irq := (VCML_ARM_GICv2_PRIV + idx * 16) % 2 ^ 32
  let s1 := for_range 0 16 (gicv2.distif.write_cfg_body value irq) s0
  s1.update false

/-- The `switch (filters)` of `distif::write_SCTL`: the target mask of the
written value for the writing processor `cpu`. -/
def gicv2.distif.sctl_targets (cpu value : Nat) : Nat :=
  let src_cpu := 1 <<< cpu
  let targets := (value >>> 16) &&& 0xFF
  let filters := (value >>> 24) &&& 0x03
  if filters = 0 then targets
  else if filters = 1 then gicv2.ALL_CPU ^^^ src_cpu
  else if filters = 2 then 1 <<< cpu
  else targets

/-- Body of the loop over targets of `distif::write_SCTL`. -/
def gicv2.distif.write_SCTL_body (cpu sgi_num targets : Nat) (target : Nat) (s : gicv2) : gicv2 :=
  if targets &&& (1 <<< target) ≠ 0 then
    gicv2.distif.set_sgi_pending s ((1 <<< cpu) % 256) sgi_num target true
  else s

/-- Function `distif::write_SCTL`, executed by processor `current_cpu`. -/
def gicv2.distif.write_SCTL (s : gicv2) (current_cpu : Int) (value : Nat) : gicv2 :=
  let cpu := cpu_or_zero current_cpu
  let sgi_num := (value >>> 0) &&& 0x0F
  let targets := gicv2.distif.sctl_targets cpu value
  let s1 := s.set_irq_pending sgi_num true targets
  let s2 := for_range 0 VCML_ARM_GICv2_NCPU
    (gicv2.distif.write_SCTL_body cpu sgi_num targets) s1
  let s3 := s2.set_irq_signaled sgi_num false targets
  s3.update false

/-- Function `distif::write_SGIS`, executed by processor `current_cpu`; `value`
is a `u8`. -/
def gicv2.distif.write_SGIS (s : gicv2) (current_cpu : Int) (value idx : Nat) : gicv2 :=
  let cpu := cpu_or_zero current_cpu
  let mask := 1 <<< cpu
  let irq := idx
  let s1 := gicv2.distif.set_sgi_pending s value irq cpu true
  let s2 := s1.set_irq_pending irq true mask
  let s3 := s2.set_irq_signaled irq false mask
  s3.update false

/-- Function `distif::write_SGIC`, executed by processor `current_cpu`; `value`
is a `u8`. -/
def gicv2.distif.write_SGIC (s : gicv2) (current_cpu : Int) (value idx : Nat) : gicv2 :=
  let cpu := cpu_or_zero current_cpu
  let mask := 1 <<< cpu
  let irq := idx
  let s1 := gicv2.distif.set_sgi_pending s value irq cpu false
  let s2 := if s1.DISTIF.SGIC cpu idx = 0 then s1.set_irq_pending irq false mask else s1
  s2.update false

/-- Function `distif::end_of_elaboration`. -/
def gicv2.distif.end_of_elaboration (s : gicv2) : gicv2 :=
  for_range 0 VCML_ARM_GICv2_NSGI (fun irq st => st.enable_irq irq gicv2.ALL_CPU) s

/-! ## Input-line handlers -/

/-- Function `gicv2::ppi_handler` for line `irq` of processor `cpu`;
`irq_level` is the value read from the input port. -/
def gicv2.ppi_handler (s : gicv2) (cpu irq : Nat) (irq_level : Bool) : gicv2 :=
  let mask := 1 <<< cpu
  let s1 := s.set_irq_level irq irq_level mask
  let s2 := s1.set_irq_signaled irq false gicv2.ALL_CPU
  let s3 :=
    if decide (s2.get_irq_trigger irq = gicv2.trigger_mode.EDGE) && irq_level then
      s2.set_irq_pending irq true mask
    else s2
  s3.update false

/-- Function `gicv2::spi_handler` for line `irq`; `irq_level` is the value read
from the input port. -/
def gicv2.spi_handler (s : gicv2) (irq : Nat) (irq_level : Bool) : gicv2 :=
  let idx := irq - VCML_ARM_GICv2_PRIV
  let target_cpu := s.DISTIF.SPIT idx
  let s1 := s.set_irq_level irq irq_level gicv2.ALL_CPU
  let s2 := s1.set_irq_signaled irq false gicv2.ALL_CPU
  let s3 :=
    if decide (s2.get_irq_trigger irq = gicv2.trigger_mode.EDGE) && irq_level then
      s2.set_irq_pending irq true target_cpu
    else s2
  s3.update false

/-- One step of a minimum search: `irq` replaces `best = (best_prio, best_irq)`
when it is a candidate of strictly lower priority. -/
def scan_step (cand : Nat → Bool) (prio : Nat → Nat) (irq : Nat) (best : Nat × Nat) : Nat × Nat :=
  if cand irq then (if prio irq < best.1 then (prio irq, irq) else best) else best

/-! ## Specification-side notions for arbitration -/

/-- A candidate line of processor `cpu`: an existing line that is enabled for
`cpu`, tests pending for `cpu`, is not active for `cpu` and, for ids from 32
on, is targeted at `cpu` by `SPIT`. -/
def gicv2.is_candidate (s : gicv2) (cpu irq : Nat) : Bool :=
  decide (irq < s.m_irq_num) && s.is_irq_enabled irq (1 <<< cpu) &&
    s.test_pending irq (1 <<< cpu) && !s.is_irq_active irq (1 <<< cpu) &&
    (decide (irq < VCML_ARM_GICv2_PRIV) ||
      (s.DISTIF.SPIT (irq - VCML_ARM_GICv2_PRIV) &&& (1 <<< cpu) != 0))

/-- The three scans "check SGIs", "check PPIs", "check SPIs" of the physical
path of `gicv2::update`, in sequence, as a function of the state. -/
def gicv2.best_candidate (s : gicv2) (cpu : Nat) : Nat × Nat :=
  for_range VCML_ARM_GICv2_PRIV s.m_irq_num (s.update_spi_body cpu)
    (for_range VCML_ARM_GICv2_NSGI VCML_ARM_GICv2_PRIV (s.update_ppi_body cpu)
      (for_range 0 VCML_ARM_GICv2_NSGI (s.update_sgi_body cpu)
        ( VCML_ARM_GICv2_IDLE_PRIO, VCML_ARM_GICv2_SPURIOUS_IRQ)))

/-- The value the physical path of `gicv2::update` leaves in `PEND.bank(cpu)`. -/
def gicv2.pend_value (s : gicv2) (cpu : Nat) : Nat :=
  if s.DISTIF.CTLR = 0 ∨ s.CPUIF.CTLR cpu = 0 then VCML_ARM_GICv2_SPURIOUS_IRQ
  else if (s.best_candidate cpu).1 < s.CPUIF.IPMR cpu then (s.best_candidate cpu).2
  else VCML_ARM_GICv2_SPURIOUS_IRQ

/-- The level the physical path of `gicv2::update` writes to `IRQ_OUT[cpu]`. -/
def gicv2.out_value (s : gicv2) (cpu : Nat) : Bool :=
  if s.DISTIF.CTLR = 0 ∨ s.CPUIF.CTLR cpu = 0 then false
  else decide ((s.best_candidate cpu).1 < s.CPUIF.IPMR cpu) &&
    decide ((s.best_candidate cpu).1 < s.CPUIF.PRIO cpu)

/-- The state `s` with the pending-readback registers and the output lines
replaced. -/
def gicv2.with_arbitration (s : gicv2) (pend : Nat → Nat) (out : Nat → Bool) : gicv2 :=
  { s with CPUIF := { s.CPUIF with PEND := pend }, IRQ_OUT := out }

/-! ## Specification-side notions for the preemption chain -/

/-- Relation between a state `s` and a later state `t` in which the
acknowledge/EOI bookkeeping of processor `cpu` is as in `s`: the running line,
the resume-to entries of `cpu`, the running priority, the line count, the
priorities seen by `cpu` and the active bits for `cpu`.  Pending bits, levels,
the pending readback and the outputs may differ. -/
def gicv2.chain_frame (cpu : Nat) (s t : gicv2) : Prop :=
  t.CPUIF.m_curr_irq cpu = s.CPUIF.m_curr_irq cpu ∧
  (∀ j, t.CPUIF.m_prev_irq j cpu = s.CPUIF.m_prev_irq j cpu) ∧
  gicv2.cpuif.PRIO t.CPUIF cpu = s.CPUIF.PRIO cpu ∧
  t.m_irq_num = s.m_irq_num ∧
  (∀ j, t.get_irq_priority cpu j = s.get_irq_priority cpu j) ∧
  (∀ j, t.is_irq_active j (1 <<< cpu) = s.is_irq_active j (1 <<< cpu))

/-- The `k`-th line of the resume chain of processor `cpu`: `m_curr_irq[cpu]`
followed `k` times through `m_prev_irq[.][cpu]`. -/
def gicv2.cpuif.chain_at (s : gicv2) (cpu k : Nat) : Nat :=
  (fun i => s.CPUIF.m_prev_irq i cpu)^[k] (s.CPUIF.m_curr_irq cpu)

/-! ## Specification-side notions for software-generated interrupts -/

/-- The delivery set of an SGI write as the target-filter policies state it:
processor `t` is addressed by the value `v` written by processor `cpu` when the
filter is 0 and `t` is in the target list, when the filter is 1 and `t` is a
processor other than the writer, or when the filter is 2 and `t` is the
writer. -/
def gicv2.distif.sctl_delivers (cpu v t : Nat) : Bool :=
  (decide ((v >>> 24) &&& 0x03 = 0) && ((v >>> 16) &&& 0xFF).testBit t) ||
  (decide ((v >>> 24) &&& 0x03 = 1) && decide (t ≠ cpu) && decide (t < VCML_ARM_GICv2_NCPU)) ||
  (decide ((v >>> 24) &&& 0x03 = 2) && decide (t = cpu))

/-! ## Specification-side notions for the enable and configuration registers -/

/-- States reached from `s0` by enable-clear writes: `distif::write_ICER` by any
processor with any value, and `distif::write_SCER` with any value and index
except the writes that name one of the lines 0..15: those whose first line
`32 + 32*idx` wraps to 0 at 32 bits while one of the low 16 bits of the value
is set. -/
inductive gicv2.enable_clear_reachable (s0 : gicv2) : gicv2 → Prop where
  | start : gicv2.enable_clear_reachable s0 s0
  | icer (s : gicv2) (current_cpu : Int) (val : Nat) :
      gicv2.enable_clear_reachable s0 s →
      gicv2.enable_clear_reachable s0 (gicv2.distif.write_ICER s current_cpu val)
  | scer (s : gicv2) (val idx : Nat) :
      (VCML_ARM_GICv2_PRIV + idx * 32) % 2 ^ 32 ≠ 0 ∨ val &&& 0xFFFF = 0 →
      gicv2.enable_clear_reachable s0 s →
      gicv2.enable_clear_reachable s0 (gicv2.distif.write_SCER s val idx)

/-- The trigger mode the configuration word `value` encodes for its bit pair
`i`: edge when bit `2i+1` is set, level otherwise. -/
def gicv2.distif.cfg_trigger (value i : Nat) : gicv2.trigger_mode :=
  if value.testBit (2 * i + 1) then gicv2.trigger_mode.EDGE else gicv2.trigger_mode.LEVEL

/-! ## Specification-side notions for the virtual path -/

/-- The list-register scan of the virtual path of `gicv2::update`, as a
function of the state: the pair `(best_prio, best_irq)` it ends with. -/
def gicv2.best_virtual (s : gicv2) (cpu : Nat) : Nat × Nat :=
  for_range 0 VCML_ARM_GICv2_NLR (s.update_lr_body cpu)
    ( VCML_ARM_GICv2_IDLE_PRIO, VCML_ARM_GICv2_SPURIOUS_IRQ)

/-- The value the virtual path of `gicv2::update` leaves in `HPPIR.bank(cpu)`. -/
def gicv2.hppir_value (s : gicv2) (cpu : Nat) : Nat :=
  if s.VIFCTRL.HCR cpu = 0 then VCML_ARM_GICv2_SPURIOUS_IRQ
  else if (s.best_virtual cpu).1 < s.VCPUIF.PMR cpu then (s.best_virtual cpu).2
  else VCML_ARM_GICv2_SPURIOUS_IRQ

/-- The level the virtual path of `gicv2::update` writes to `VIRQ_OUT[cpu]`. -/
def gicv2.virq_value (s : gicv2) (cpu : Nat) : Bool :=
  if s.VIFCTRL.HCR cpu = 0 then false
  else decide ((s.best_virtual cpu).1 < s.VCPUIF.PMR cpu) &&
    decide ((s.best_virtual cpu).1 < s.VCPUIF.RPR cpu)

/-- The state `s` with the highest-pending registers of the virtual interface
and the virtual output lines replaced. -/
def gicv2.with_virtual_arbitration (s : gicv2) (hppir : Nat → Nat) (out : Nat → Bool) : gicv2 :=
  { s with VCPUIF := { s.VCPUIF with HPPIR := hppir }, VIRQ_OUT := out }

/-- The priority field, bits 27:23, of list register `i` of processor `cpu`. -/
def gicv2.vifctrl.lr_prio (s : gicv2) (cpu i : Nat) : Nat := (s.VIFCTRL.LR cpu i >>> 23) &&& 0x1F

/-- The virtual-id field, bits 8:0, of list register `i` of processor `cpu`. -/
def gicv2.vifctrl.lr_vid (s : gicv2) (cpu i : Nat) : Nat := s.VIFCTRL.LR cpu i &&& 0x1FF

/-- The test of `vifctrl::get_lr` and `vifctrl::get_irq_priority` on slot `i`:
its virtual id is `irq` and it is active or pending. -/
def gicv2.vifctrl.lr_carries (s : gicv2) (core_id irq i : Nat) : Bool :=
  decide ((s.VIFCTRL.m_lr_state core_id i).virtual_id = irq) &&
    ((s.VIFCTRL.m_lr_state core_id i).active || (s.VIFCTRL.m_lr_state core_id i).pending)

/-! ## Specification-side notions for the termination of the EOI walk -/

/-- `is_chain prev head l`: the list `l` holds the lines `head`, `prev head`,
`prev (prev head)`, ... in order, up to and not including the spurious id. -/
def gicv2.cpuif.is_chain (prev : Nat → Nat) : Nat → List Nat → Prop
  | head, [] => head = VCML_ARM_GICv2_SPURIOUS_IRQ
  | head, c :: l =>
    head = c ∧ c ≠ VCML_ARM_GICv2_SPURIOUS_IRQ ∧ gicv2.cpuif.is_chain prev (prev c) l

/-- The states reached from `s0` by calls of `cpuif::read_IACK` and
`cpuif::write_EOIR` of any processor with any written value, interleaved with
any other event that leaves the acknowledge bookkeeping (`m_curr_irq`,
`m_prev_irq`, the running priority `PRIO`) and the line priorities as they
are: a line being raised or lowered, a write to an enable, pending or target
register, an arbitration pass. -/
inductive gicv2.cpuif.reachable (s0 : gicv2) : gicv2 → Prop where
  | start : gicv2.cpuif.reachable s0 s0
  | ack (s : gicv2) (current_cpu : Int) :
    gicv2.cpuif.reachable s0 s → gicv2.cpuif.reachable s0 (gicv2.cpuif.read_IACK s current_cpu).2
  | eoi (s t : gicv2) (fuel : Nat) (current_cpu : Int) (val : Nat) :
    gicv2.cpuif.reachable s0 s → gicv2.cpuif.write_EOIR s fuel current_cpu val = some t →
    gicv2.cpuif.reachable s0 t
  | other (s t : gicv2) :
    gicv2.cpuif.reachable s0 s →
    t.CPUIF.m_curr_irq = s.CPUIF.m_curr_irq → t.CPUIF.m_prev_irq = s.CPUIF.m_prev_irq →
    gicv2.cpuif.PRIO t.CPUIF = s.CPUIF.PRIO →
    (∀ c j, t.get_irq_priority c j = s.get_irq_priority c j) →
    gicv2.cpuif.reachable s0 t

/-- The invariant of the acknowledge bookkeeping relative to the priorities
`prio` (processor first): the line priorities of `s` are `prio`, and for every
processor the resume chain is a finite list of lines with strictly increasing
priority values, none of them below the running priority. -/
def gicv2.cpuif.chain_inv (prio : Nat → Nat → Nat) (s : gicv2) : Prop :=
  (∀ c j, s.get_irq_priority c j = prio c j) ∧
  ∀ cpu, ∃ l : List Nat,
    gicv2.cpuif.is_chain (fun i => s.CPUIF.m_prev_irq i cpu) (s.CPUIF.m_curr_irq cpu) l ∧
    l.Pairwise (fun a b => prio cpu a < prio cpu b) ∧
    ∀ c ∈ l, s.CPUIF.PRIO cpu ≤ prio cpu c

/-! ## Concrete states -/

/-- The state after construction, reset and elaboration of a controller wired
to `num_cpu` processors with line count `num_irq`: the register defaults of
the four constructors, `cpuif::reset`, `vcpuif::reset`, and the SGIs enabled
for every processor by `distif::end_of_elaboration`. -/
def gicv2.elaborated (num_cpu num_irq : Nat) : gicv2 :=
  { DISTIF := { CTLR := 0, SGIP := fun _ _ => 0, PPIP := fun _ _ => 0, SPIP := fun _ => 0,
                SPIT := fun _ => 0, CPPI := 0xAAAAAAAA, CSPI := fun _ => 0,
                SGIS := fun _ _ => 0, SGIC := fun _ _ => 0 },
    CPUIF := { CTLR := fun _ => 0, IPMR := fun _ => 0, BIPR := fun _ => 0, IACK := fun _ => 0,
               PRIO := fun _ => VCML_ARM_GICv2_IDLE_PRIO,
               PEND := fun _ => VCML_ARM_GICv2_SPURIOUS_IRQ, ABPR := fun _ => 0,
               m_curr_irq := fun _ => VCML_ARM_GICv2_SPURIOUS_IRQ,
               m_prev_irq := fun _ _ => VCML_ARM_GICv2_SPURIOUS_IRQ },
    VIFCTRL := { m_lr_state := fun _ _ => gicv2.lr.init, HCR := fun _ => 0, APR := fun _ => 0,
                 LR := fun _ _ => 0 },
    VCPUIF := { CTLR := fun _ => 0, PMR := fun _ => 0, BPR := fun _ => 2,
                RPR := fun _ => VCML_ARM_GICv2_IDLE_PRIO,
                HPPIR := fun _ => VCML_ARM_GICv2_SPURIOUS_IRQ },
    IRQ_OUT := fun _ => false, VIRQ_OUT := fun _ => false,
    m_irq_num := num_irq, m_cpu_num := num_cpu,
    m_irq_state := fun irq =>
      if irq < VCML_ARM_GICv2_NSGI then { gicv2.irq_state.init with enabled := gicv2.ALL_CPU }
      else gicv2.irq_state.init }

/-- A single-processor controller with the shared lines 32, 33 and 34
(priorities 0x30, 0x20, 0x10), all enabled for and targeted at processor 0,
distributor and CPU interface enabled, priority mask 0xFF; nothing pending. -/
def scenario_base : gicv2 :=
  let s := gicv2.elaborated 1 35
  let d0 : gicv2.distif := { s.DISTIF with CTLR := 1 }
  let d1 : gicv2.distif := { d0 with SPIT := fun _ => 1 }
  let d2 : gicv2.distif :=
    { d1 with SPIP := fun idx => if idx = 0 then 0x30 else if idx = 1 then 0x20 else 0x10 }
  let c0 : gicv2.cpuif := { s.CPUIF with CTLR := fun _ => 1 }
  let c1 : gicv2.cpuif := { c0 with IPMR := fun _ => 0xFF }
  let s1 : gicv2 := { s with DISTIF := d2 }
  let s2 : gicv2 := { s1 with CPUIF := c1 }
  { s2 with m_irq_state := fun irq =>
      if 32 ≤ irq then { gicv2.irq_state.init with enabled := 1 } else s.m_irq_state irq }

/-- Line `irq` becomes pending for processor 0 and arbitration runs, as after a
set-pending write or an edge on the input. -/
def scenario_raise (s : gicv2) (irq : Nat) : gicv2 := (s.set_irq_pending irq true 1).update false

/-- Line 32 pending, nothing acknowledged. -/
def scenario_A : gicv2 := scenario_raise scenario_base 32

/-- Line 32 acknowledged and running. -/
def scenario_A_ack : gicv2 := (gicv2.cpuif.read_IACK scenario_A 0).2

/-- Line 32 running, line 33 pending. -/
def scenario_B : gicv2 := scenario_raise scenario_A_ack 33

/-- Line 33 acknowledged, preempting line 32. -/
def scenario_B_ack : gicv2 := (gicv2.cpuif.read_IACK scenario_B 0).2

/-- Lines 32 and 33 nested, line 34 pending. -/
def scenario_C : gicv2 := scenario_raise scenario_B_ack 34

/-- Line 32, acknowledged and running, has become pending again. -/
def scenario_A_again : gicv2 := scenario_raise scenario_A_ack 32

/-- Lines 32 and 33 both pending, none acknowledged. -/
def scenario_AB : gicv2 := scenario_raise scenario_A 33

/-- A two-processor controller after elaboration with the distributor and both
CPU interfaces enabled and priority mask 0xFF; nothing pending, all priorities
zero. -/
def scenario_two_cpu : gicv2 :=
  let s := gicv2.elaborated 2 35
  let d0 : gicv2.distif := { s.DISTIF with CTLR := 1 }
  let c0 : gicv2.cpuif := { s.CPUIF with CTLR := fun _ => 1 }
  let c1 : gicv2.cpuif := { c0 with IPMR := fun _ => 0xFF }
  let s1 : gicv2 := { s with DISTIF := d0 }
  { s1 with CPUIF := c1 }

/-- Processors 0 and 1 have each sent SGI 3 to processor 1 (filter 0, target
list 0x02). -/
def scenario_sgi_sent : gicv2 :=
  gicv2.distif.write_SCTL (gicv2.distif.write_SCTL scenario_two_cpu 0 0x00020003) 1 0x00020003

/-- Private line 16 of processor 0 configured level-triggered, sampled high,
then enabled through `write_ISER`. -/
def scenario_level_enabled : gicv2 :=
  gicv2.distif.write_ISER
    ((gicv2.distif.write_CPPI scenario_two_cpu 0).ppi_handler 0 16 true) 0 (1 <<< 16)

/-- The two-processor controller with the virtual priority mask of every
processor at 0xF8 and the virtual interface of processor 0 enabled through
`vifctrl::write_HCR(1)`; no list register in use. -/
def scenario_virt : gicv2 :=
  let s := scenario_two_cpu
  let v0 : gicv2.vcpuif := { s.VCPUIF with PMR := fun _ => 0xF8 }
  let s1 : gicv2 := { s with VCPUIF := v0 }
  (gicv2.vifctrl.write_HCR s1 0 1).2

/-- Processor 0 has written list register 0 with 0x11800005: state pending,
priority 3, virtual id 5, no hardware link, source processor 0. -/
def scenario_virt_pending : gicv2 := (gicv2.vifctrl.write_LR scenario_virt 0 0x11800005 0).2

/-- The virtual interrupt of list register 0 acknowledged by processor 0. -/
def scenario_virt_ack : gicv2 := (gicv2.vcpuif.read_IAR scenario_virt_pending 0).2

/-- Processor 0 has written list register 0 with 0x11800064 (state pending,
priority 3, virtual id 100) and acknowledged it; the controller has 35
lines. -/
def scenario_virt_ack_100 : gicv2 :=
  (gicv2.vcpuif.read_IAR (gicv2.vifctrl.write_LR scenario_virt 0 0x11800064 0).2 0).2

/-- The single-processor controller with the shared lines 33 (priority 0x20)
and 34 (priority 0x10) pending for processor 0, before arbitration. -/
def scenario_two_pending : gicv2 :=
  (scenario_base.set_irq_pending 33 true 1).set_irq_pending 34 true 1

/-- Virtual interrupt A (list register 0, priority 3, virtual id 5) is
acknowledged by processor 0, and list register 1 has been written with
0x10800006: B, state pending, priority 1, virtual id 6. -/
def scenario_virt_B_pending : gicv2 :=
  (gicv2.vifctrl.write_LR scenario_virt_ack 0 0x10800006 1).2

/-- B acknowledged on top of A. -/
def scenario_virt_nested : gicv2 := (gicv2.vcpuif.read_IAR scenario_virt_B_pending 0).2

/-- Processor 0 has written list register 0 with 0x10800005 (state pending,
priority 1, virtual id 5) and acknowledged it. -/
def scenario_virt_ack_p1 : gicv2 :=
  (gicv2.vcpuif.read_IAR (gicv2.vifctrl.write_LR scenario_virt 0 0x10800005 0).2 0).2

/-- A two-processor controller with 96 lines after elaboration; the shared
line 64 (target entry 32) is targeted at processor 1, every other shared line
at processor 0. -/
def scenario_wide : gicv2 :=
  let s := gicv2.elaborated 2 96
  let d0 : gicv2.distif := { s.DISTIF with SPIT := fun idx => if idx = 32 then 2 else 1 }
  { s with DISTIF := d0 }

/-- Processor 0 has written three list registers, all pending: register 0 with
0x11800005 (priority 3, virtual id 5), register 1 with 0x10800006 (priority 1,
virtual id 6) and register 2 with 0x10800007 (priority 1, virtual id 7). -/
def scenario_virt_three_pending : gicv2 :=
  (gicv2.vifctrl.write_LR
    (gicv2.vifctrl.write_LR (gicv2.vifctrl.write_LR scenario_virt 0 0x11800005 0).2
      0 0x10800006 1).2 0 0x10800007 2).2

/-- The two-processor controller with the virtual priority mask of every
processor written as 0x1FF (`PMR` of the virtual CPU interface has no write
handler) and virtualization enabled for processor 0, after processor 0 has
written list register 0 with 0x12800005 (pending, priority 5, virtual id 5)
and acknowledged it, written list register 1 with 0x10800006 (pending,
priority 1, virtual id 6) and acknowledged it, and ended the virtual id 6. -/
def scenario_virt_wide_mask : gicv2 :=
  let s := scenario_two_cpu
  let v0 : gicv2.vcpuif := { s.VCPUIF with PMR := fun _ => 0x1FF }
  let s1 : gicv2 := { s with VCPUIF := v0 }
  let s2 := (gicv2.vifctrl.write_HCR s1 0 1).2
  let s3 := (gicv2.vcpuif.read_IAR (gicv2.vifctrl.write_LR s2 0 0x12800005 0).2 0).2
  let s4 := (gicv2.vcpuif.read_IAR (gicv2.vifctrl.write_LR s3 0 0x10800006 1).2 0).2
  (gicv2.vcpuif.write_EOIR (fun apr => apr) s4 0 6).2

/-- Processor 0 has written list register 1 with 0x11800005 (state pending,
priority 3, virtual id 5) and acknowledged it; list register 0 is unused. -/
def scenario_virt_ack_slot_1 : gicv2 :=
  (gicv2.vcpuif.read_IAR (gicv2.vifctrl.write_LR scenario_virt 0 0x11800005 1).2 0).2

/-- The lines 33 and 34 are active for processor 0; processor 0 has written
list register 1 with 0x91808405 (hardware-backed, pending, priority 3,
physical id 33, virtual id 5) and acknowledged it, and then written list
register 0 with 0x91808805 (hardware-backed, pending, priority 3, physical id
34, the same virtual id 5). -/
def scenario_virt_duplicate : gicv2 :=
  (gicv2.vifctrl.write_LR
    (gicv2.vcpuif.read_IAR
      (gicv2.vifctrl.write_LR
        ((scenario_virt.set_irq_active 33 true 1).set_irq_active 34 true 1) 0 0x91808405 1).2
      0).2 0 0x91808805 0).2

/-! ## Arbitration lemmas -/

theorem update_cpu_false (s : gicv2) (cpu : Nat) :
    s.update_cpu false cpu =
      if (s.DISTIF.CTLR == 0 || s.CPUIF.CTLR cpu == 0) = true then
        s.with_arbitration (Function.update s.CPUIF.PEND cpu VCML_ARM_GICv2_SPURIOUS_IRQ)
          (Function.update s.IRQ_OUT cpu false)
      else
        s.with_arbitration
          (if (s.best_candidate cpu).1 < s.CPUIF.IPMR cpu then
            Function.update (Function.update s.CPUIF.PEND cpu VCML_ARM_GICv2_SPURIOUS_IRQ) cpu
              (s.best_candidate cpu).2
           else Function.update s.CPUIF.PEND cpu VCML_ARM_GICv2_SPURIOUS_IRQ)
          (Function.update s.IRQ_OUT cpu
            (decide ((s.best_candidate cpu).1 < s.CPUIF.IPMR cpu) &&
              decide ((s.best_candidate cpu).1 < s.CPUIF.PRIO cpu))) := by
  unfold gicv2.update_cpu
  simp only [Bool.not_false, Bool.true_and, Bool.false_and, Bool.false_eq_true, ↓reduceIte]
  split
  · rfl
  · split <;> split <;> rename_i h1 h2 <;>
      first | rfl | exact absurd h1 h2 | exact absurd h2 h1

theorem update_cpu_phys (s : gicv2) (pend : Nat → Nat) (out : Nat → Bool) (cpu : Nat) :
    (s.with_arbitration pend out).update_cpu false cpu =
      s.with_arbitration (Function.update pend cpu (s.pend_value cpu))
        (Function.update out cpu (s.out_value cpu)) := by
  have hb : ∀ p : Nat → Nat, ∀ o : Nat → Bool,
      (s.with_arbitration p o).best_candidate cpu = s.best_candidate cpu := fun _ _ => rfl
  rw [update_cpu_false, hb]
  unfold gicv2.pend_value gicv2.out_value
  by_cases hd : s.DISTIF.CTLR = 0 ∨ s.CPUIF.CTLR cpu = 0
  · have : ((s.with_arbitration pend out).DISTIF.CTLR == 0 || (s.with_arbitration pend out).CPUIF.CTLR cpu == 0) = true := by
      simpa [gicv2.with_arbitration] using hd
    rw [if_pos this, if_pos hd, if_pos hd]; rfl
  · have : ¬ ((s.with_arbitration pend out).DISTIF.CTLR == 0 || (s.with_arbitration pend out).CPUIF.CTLR cpu == 0) = true := by
      simpa [gicv2.with_arbitration] using hd
    rw [if_neg this, if_neg hd, if_neg hd]
    by_cases hm : (s.best_candidate cpu).1 < s.CPUIF.IPMR cpu
    · have hm' : (s.best_candidate cpu).1 < (s.with_arbitration pend out).CPUIF.IPMR cpu := hm
      rw [if_pos hm, if_pos hm']
      simp [gicv2.with_arbitration]
    · have hm' : ¬ (s.best_candidate cpu).1 < (s.with_arbitration pend out).CPUIF.IPMR cpu := hm
      rw [if_neg hm, if_neg hm']
      simp [gicv2.with_arbitration, hm]

theorem with_arbitration_self (s : gicv2) : s.with_arbitration s.CPUIF.PEND s.IRQ_OUT = s := rfl

theorem update_phys_fold (s : gicv2) (n : Nat) (pend : Nat → Nat) (out : Nat → Bool) :
    (List.range' 0 n).foldl (fun acc cpu => gicv2.update_cpu acc false cpu)
        (s.with_arbitration pend out) =
      s.with_arbitration (fun c => if c < n then s.pend_value c else pend c)
        (fun c => if c < n then s.out_value c else out c) := by
  induction n with
  | zero => simp
  | succ n ih =>
    rw [List.range'_1_concat, List.foldl_append, ih]
    simp only [List.foldl_cons, List.foldl_nil, update_cpu_phys, Nat.zero_add]
    congr 1
    · funext c
      by_cases hc : c = n
      · subst hc; simp
      · rw [Function.update_noteq hc]
        by_cases h1 : c < n
        · simp [h1, Nat.lt_succ_of_lt h1]
        · have : ¬ c < n + 1 := by omega
          simp [h1, this]
    · funext c
      by_cases hc : c = n
      · subst hc; simp
      · rw [Function.update_noteq hc]
        by_cases h1 : c < n
        · simp [h1, Nat.lt_succ_of_lt h1]
        · have : ¬ c < n + 1 := by omega
          simp [h1, this]

theorem update_false_eq (s : gicv2) :
    s.update false =
      s.with_arbitration (fun c => if c < s.m_cpu_num then s.pend_value c else s.CPUIF.PEND c)
        (fun c => if c < s.m_cpu_num then s.out_value c else s.IRQ_OUT c) := by
  have h := update_phys_fold s s.m_cpu_num s.CPUIF.PEND s.IRQ_OUT
  rw [with_arbitration_self] at h
  exact h

theorem for_range_congr {α : Type} (lo hi : Nat) (f g : Nat → α → α) (init : α)
    (h : ∀ irq, lo ≤ irq → irq < hi → ∀ a, f irq a = g irq a) :
    for_range lo hi f init = for_range lo hi g init := by
  unfold for_range
  apply List.foldl_ext
  intro a b hb
  rw [List.mem_range'_1] at hb
  exact h b hb.1 (by omega) a

theorem for_range_append {α : Type} (lo mid hi : Nat) (f : Nat → α → α) (init : α)
    (h1 : lo ≤ mid) (h2 : mid ≤ hi) :
    for_range mid hi f (for_range lo mid f init) = for_range lo hi f init := by
  unfold for_range
  rw [← List.foldl_append]
  have h := List.range'_append_1 lo (mid - lo) (hi - mid)
  have e1 : lo + (mid - lo) = mid := by omega
  have e2 : hi - mid + (mid - lo) = hi - lo := by omega
  rw [e1, e2] at h
  rw [h]

theorem scan_range_spec (cand : Nat → Bool) (prio : Nat → Nat) (n : Nat) :
    ((∀ j, j < n → cand j = true → VCML_ARM_GICv2_IDLE_PRIO ≤ prio j) ∧
      for_range 0 n (scan_step cand prio)
        ( VCML_ARM_GICv2_IDLE_PRIO, VCML_ARM_GICv2_SPURIOUS_IRQ) =
          ( VCML_ARM_GICv2_IDLE_PRIO, VCML_ARM_GICv2_SPURIOUS_IRQ)) ∨
    ((for_range 0 n (scan_step cand prio)
        ( VCML_ARM_GICv2_IDLE_PRIO, VCML_ARM_GICv2_SPURIOUS_IRQ)).2 < n ∧
      cand (for_range 0 n (scan_step cand prio)
        ( VCML_ARM_GICv2_IDLE_PRIO, VCML_ARM_GICv2_SPURIOUS_IRQ)).2 = true ∧
      prio (for_range 0 n (scan_step cand prio)
        ( VCML_ARM_GICv2_IDLE_PRIO, VCML_ARM_GICv2_SPURIOUS_IRQ)).2 =
        (for_range 0 n (scan_step cand prio)
          ( VCML_ARM_GICv2_IDLE_PRIO, VCML_ARM_GICv2_SPURIOUS_IRQ)).1 ∧
      (for_range 0 n (scan_step cand prio)
        ( VCML_ARM_GICv2_IDLE_PRIO, VCML_ARM_GICv2_SPURIOUS_IRQ)).1 < VCML_ARM_GICv2_IDLE_PRIO ∧
      (∀ j, j < n → cand j = true →
        (for_range 0 n (scan_step cand prio)
          ( VCML_ARM_GICv2_IDLE_PRIO, VCML_ARM_GICv2_SPURIOUS_IRQ)).1 ≤ prio j) ∧
      (∀ j, j < n → cand j = true →
        prio j = (for_range 0 n (scan_step cand prio)
          ( VCML_ARM_GICv2_IDLE_PRIO, VCML_ARM_GICv2_SPURIOUS_IRQ)).1 →
        (for_range 0 n (scan_step cand prio)
          ( VCML_ARM_GICv2_IDLE_PRIO, VCML_ARM_GICv2_SPURIOUS_IRQ)).2 ≤ j)) := by
  induction n with
  | zero =>
    left
    exact ⟨fun j hj => absurd hj (Nat.not_lt_zero j), rfl⟩
  | succ n ih =>
    have hstep : for_range 0 (n + 1) (scan_step cand prio)
        ( VCML_ARM_GICv2_IDLE_PRIO, VCML_ARM_GICv2_SPURIOUS_IRQ) =
        scan_step cand prio n (for_range 0 n (scan_step cand prio)
          ( VCML_ARM_GICv2_IDLE_PRIO, VCML_ARM_GICv2_SPURIOUS_IRQ)) := by
      unfold for_range
      simp only [Nat.sub_zero]
      rw [List.range'_1_concat, List.foldl_append]
      simp
    rw [hstep]
    generalize for_range 0 n (scan_step cand prio)
      ( VCML_ARM_GICv2_IDLE_PRIO, VCML_ARM_GICv2_SPURIOUS_IRQ) = r at ih ⊢
    obtain ⟨bp, bi⟩ := r
    by_cases hc : cand n = true
    · by_cases hp : prio n < bp
      · have e : scan_step cand prio n (bp, bi) = (prio n, n) := by simp [scan_step, hc, hp]
        rw [e]
        right
        rcases ih with ⟨hall, heq⟩ | ⟨hlt, hcand, hprio, hidle, hmin, hfirst⟩
        · simp only [Prod.mk.injEq] at heq
          obtain ⟨rfl, rfl⟩ := heq
          refine ⟨Nat.lt_succ_self n, hc, rfl, hp, ?_, ?_⟩
          · intro j hj hcj
            rcases Nat.lt_succ_iff_lt_or_eq.mp hj with h | h
            · have := hall j h hcj; omega
            · subst h; exact Nat.le_refl _
          · intro j hj hcj hpj
            rcases Nat.lt_succ_iff_lt_or_eq.mp hj with h | h
            · have := hall j h hcj; omega
            · subst h; exact Nat.le_refl _
        · simp only at hlt hcand hprio hidle hmin hfirst
          refine ⟨Nat.lt_succ_self n, hc, rfl, by simp only; omega, ?_, ?_⟩
          · intro j hj hcj
            rcases Nat.lt_succ_iff_lt_or_eq.mp hj with h | h
            · have := hmin j h hcj; simp only; omega
            · subst h; exact Nat.le_refl _
          · intro j hj hcj hpj
            rcases Nat.lt_succ_iff_lt_or_eq.mp hj with h | h
            · have := hmin j h hcj; simp only at hpj; omega
            · subst h; exact Nat.le_refl _
      · have e : scan_step cand prio n (bp, bi) = (bp, bi) := by simp [scan_step, hc, hp]
        rw [e]
        rcases ih with ⟨hall, heq⟩ | ⟨hlt, hcand, hprio, hidle, hmin, hfirst⟩
        · left
          simp only [Prod.mk.injEq] at heq
          obtain ⟨rfl, rfl⟩ := heq
          refine ⟨?_, rfl⟩
          intro j hj hcj
          rcases Nat.lt_succ_iff_lt_or_eq.mp hj with h | h
          · exact hall j h hcj
          · subst h; omega
        · right
          simp only at hlt hcand hprio hidle hmin hfirst ⊢
          refine ⟨Nat.lt_succ_of_lt hlt, hcand, hprio, hidle, ?_, ?_⟩
          · intro j hj hcj
            rcases Nat.lt_succ_iff_lt_or_eq.mp hj with h | h
            · exact hmin j h hcj
            · subst h; omega
          · intro j hj hcj hpj
            rcases Nat.lt_succ_iff_lt_or_eq.mp hj with h | h
            · exact hfirst j h hcj hpj
            · subst h; omega
    · have e : scan_step cand prio n (bp, bi) = (bp, bi) := by simp [scan_step, hc]
      rw [e]
      rcases ih with ⟨hall, heq⟩ | ⟨hlt, hcand, hprio, hidle, hmin, hfirst⟩
      · left
        refine ⟨?_, heq⟩
        intro j hj hcj
        rcases Nat.lt_succ_iff_lt_or_eq.mp hj with h | h
        · exact hall j h hcj
        · subst h; exact absurd hcj hc
      · right
        refine ⟨Nat.lt_succ_of_lt hlt, hcand, hprio, hidle, ?_, ?_⟩
        · intro j hj hcj
          rcases Nat.lt_succ_iff_lt_or_eq.mp hj with h | h
          · exact hmin j h hcj
          · subst h; exact absurd hcj hc
        · intro j hj hcj hpj
          rcases Nat.lt_succ_iff_lt_or_eq.mp hj with h | h
          · exact hfirst j h hcj hpj
          · subst h; exact absurd hcj hc

theorem update_sgi_body_eq (s : gicv2) (cpu irq : Nat) (a : Nat × Nat)
    (h : irq < VCML_ARM_GICv2_NSGI) (hlo : VCML_ARM_GICv2_PRIV ≤ s.m_irq_num) :
    s.update_sgi_body cpu irq a =
      scan_step (s.is_candidate cpu) (s.get_irq_priority cpu) irq a := by
  have h1 : irq < s.m_irq_num := by
    simp only [VCML_ARM_GICv2_PRIV, VCML_ARM_GICv2_NSGI, VCML_ARM_GICv2_NPPI] at h hlo; omega
  have h2 : irq < VCML_ARM_GICv2_PRIV := by
    simp only [VCML_ARM_GICv2_PRIV, VCML_ARM_GICv2_NSGI, VCML_ARM_GICv2_NPPI] at h ⊢; omega
  simp [gicv2.update_sgi_body, scan_step, gicv2.is_candidate, gicv2.get_irq_priority, h, h1, h2]

theorem update_ppi_body_eq (s : gicv2) (cpu irq : Nat) (a : Nat × Nat)
    (h : VCML_ARM_GICv2_NSGI ≤ irq) (h2 : irq < VCML_ARM_GICv2_PRIV)
    (hlo : VCML_ARM_GICv2_PRIV ≤ s.m_irq_num) :
    s.update_ppi_body cpu irq a =
      scan_step (s.is_candidate cpu) (s.get_irq_priority cpu) irq a := by
  have h1 : irq < s.m_irq_num := by omega
  have h3 : ¬ irq < VCML_ARM_GICv2_NSGI := by omega
  simp [gicv2.update_ppi_body, scan_step, gicv2.is_candidate, gicv2.get_irq_priority, h1, h2, h3]

theorem update_spi_body_eq (s : gicv2) (cpu irq : Nat) (a : Nat × Nat)
    (h : VCML_ARM_GICv2_PRIV ≤ irq) (h1 : irq < s.m_irq_num)
    (hhi : s.m_irq_num ≤ VCML_ARM_GICv2_NIRQ) :
    s.update_spi_body cpu irq a =
      scan_step (s.is_candidate cpu) (s.get_irq_priority cpu) irq a := by
  have h2 : ¬ irq < VCML_ARM_GICv2_PRIV := by omega
  have h3 : ¬ irq < VCML_ARM_GICv2_NSGI := by
    simp only [VCML_ARM_GICv2_PRIV, VCML_ARM_GICv2_NSGI, VCML_ARM_GICv2_NPPI] at h ⊢; omega
  have h4 : irq < VCML_ARM_GICv2_NIRQ := by omega
  simp only [gicv2.update_spi_body, scan_step, gicv2.is_candidate, gicv2.get_irq_priority,
    h1, h2, h3, h4, decide_True, decide_False, Bool.true_and, Bool.false_or, if_true, if_false]
  cases s.is_irq_enabled irq (1 <<< cpu) <;> cases s.test_pending irq (1 <<< cpu) <;>
    cases s.is_irq_active irq (1 <<< cpu) <;>
    cases (s.DISTIF.SPIT (irq - VCML_ARM_GICv2_PRIV) &&& 1 <<< cpu != 0) <;> rfl

theorem best_candidate_eq_scan (s : gicv2) (cpu : Nat)
    (hlo : VCML_ARM_GICv2_PRIV ≤ s.m_irq_num) (hhi : s.m_irq_num ≤ VCML_ARM_GICv2_NIRQ) :
    s.best_candidate cpu =
      for_range 0 s.m_irq_num (scan_step (s.is_candidate cpu) (s.get_irq_priority cpu))
        ( VCML_ARM_GICv2_IDLE_PRIO, VCML_ARM_GICv2_SPURIOUS_IRQ) := by
  unfold gicv2.best_candidate
  rw [for_range_congr 0 VCML_ARM_GICv2_NSGI _ _ _
        (fun irq _ h a => update_sgi_body_eq s cpu irq a h hlo),
      for_range_congr VCML_ARM_GICv2_NSGI VCML_ARM_GICv2_PRIV _ _ _
        (fun irq h h2 a => update_ppi_body_eq s cpu irq a h h2 hlo),
      for_range_congr VCML_ARM_GICv2_PRIV s.m_irq_num _ _ _
        (fun irq h h1 a => update_spi_body_eq s cpu irq a h h1 hhi),
      for_range_append 0 VCML_ARM_GICv2_NSGI VCML_ARM_GICv2_PRIV _ _ (Nat.zero_le _) (by decide),
      for_range_append 0 VCML_ARM_GICv2_PRIV s.m_irq_num _ _ (Nat.zero_le _) hlo]

theorem is_candidate_lt (s : gicv2) (cpu j : Nat) (h : s.is_candidate cpu j = true) :
    j < s.m_irq_num := by
  unfold gicv2.is_candidate at h
  simp only [Bool.and_eq_true, decide_eq_true_eq] at h
  exact h.1.1.1.1

theorem best_candidate_spec (s : gicv2) (cpu : Nat)
    (hlo : VCML_ARM_GICv2_PRIV ≤ s.m_irq_num) (hhi : s.m_irq_num ≤ VCML_ARM_GICv2_NIRQ) :
    ((∀ j, s.is_candidate cpu j = true → VCML_ARM_GICv2_IDLE_PRIO ≤ s.get_irq_priority cpu j) ∧
      s.best_candidate cpu = ( VCML_ARM_GICv2_IDLE_PRIO, VCML_ARM_GICv2_SPURIOUS_IRQ)) ∨
    (s.is_candidate cpu (s.best_candidate cpu).2 = true ∧
      s.get_irq_priority cpu (s.best_candidate cpu).2 = (s.best_candidate cpu).1 ∧
      (s.best_candidate cpu).1 < VCML_ARM_GICv2_IDLE_PRIO ∧
      (∀ j, s.is_candidate cpu j = true → (s.best_candidate cpu).1 ≤ s.get_irq_priority cpu j) ∧
      (∀ j, s.is_candidate cpu j = true →
        s.get_irq_priority cpu j = (s.best_candidate cpu).1 → (s.best_candidate cpu).2 ≤ j)) := by
  rw [best_candidate_eq_scan s cpu hlo hhi]
  rcases scan_range_spec (s.is_candidate cpu) (s.get_irq_priority cpu) s.m_irq_num with
    ⟨hall, heq⟩ | ⟨_, hcand, hprio, hidle, hmin, hfirst⟩
  · left
    exact ⟨fun j hj => hall j (is_candidate_lt s cpu j hj) hj, heq⟩
  · right
    exact ⟨hcand, hprio, hidle, fun j hj => hmin j (is_candidate_lt s cpu j hj) hj,
      fun j hj => hfirst j (is_candidate_lt s cpu j hj) hj⟩

theorem update_false_PEND (s : gicv2) (cpu : Nat) (hcpu : cpu < s.m_cpu_num) :
    (s.update false).CPUIF.PEND cpu = s.pend_value cpu := by
  rw [update_false_eq]
  simp [gicv2.with_arbitration, hcpu]

theorem update_false_IRQ_OUT (s : gicv2) (cpu : Nat) (hcpu : cpu < s.m_cpu_num) :
    (s.update false).IRQ_OUT cpu = s.out_value cpu := by
  rw [update_false_eq]
  simp [gicv2.with_arbitration, hcpu]

/-- C1: physical arbitration selects by priority, then by scan order.  For a
processor `cpu` of the controller whose distributor and CPU interface are
enabled, after `update(false)`: if some candidate line (enabled, testing
pending, not active, and for ids from 32 on targeted at `cpu`) has a priority
below the priority mask `IPMR.bank(cpu)`, then `PEND.bank(cpu)` is a candidate,
its priority is the minimum over all candidates, and among the candidates of
that priority it has the smallest id; if no candidate has a priority below the
mask, `PEND.bank(cpu)` is the spurious id.  The mask is an 8-bit value (it is
only written through `write_IPMR`) and the line count lies between 32 and the
table capacity. -/
theorem C1_update_selects_by_priority_then_scan_order (s : gicv2) (cpu : Nat)
    (hcpu : cpu < s.m_cpu_num)
    (hlo : VCML_ARM_GICv2_PRIV ≤ s.m_irq_num) (hhi : s.m_irq_num ≤ VCML_ARM_GICv2_NIRQ)
    (hipmr : s.CPUIF.IPMR cpu ≤ 0xFF)
    (hdist : s.DISTIF.CTLR ≠ 0) (hcif : s.CPUIF.CTLR cpu ≠ 0) :
    ((∃ irq, s.is_candidate cpu irq = true ∧
        s.get_irq_priority cpu irq < s.CPUIF.IPMR cpu) →
      s.is_candidate cpu ((s.update false).CPUIF.PEND cpu) = true ∧
      (∀ j, s.is_candidate cpu j = true →
        s.get_irq_priority cpu ((s.update false).CPUIF.PEND cpu) ≤ s.get_irq_priority cpu j) ∧
      (∀ j, s.is_candidate cpu j = true →
        s.get_irq_priority cpu j = s.get_irq_priority cpu ((s.update false).CPUIF.PEND cpu) →
        (s.update false).CPUIF.PEND cpu ≤ j)) ∧
    ((¬ ∃ irq, s.is_candidate cpu irq = true ∧
        s.get_irq_priority cpu irq < s.CPUIF.IPMR cpu) →
      (s.update false).CPUIF.PEND cpu = VCML_ARM_GICv2_SPURIOUS_IRQ) := by
  rw [update_false_PEND s cpu hcpu]
  have hen : ¬ (s.DISTIF.CTLR = 0 ∨ s.CPUIF.CTLR cpu = 0) := by
    rw [not_or]; exact ⟨hdist, hcif⟩
  unfold gicv2.pend_value
  rw [if_neg hen]
  rcases best_candidate_spec s cpu hlo hhi with
    ⟨hall, heq⟩ | ⟨hcand, hprio, hidle, hmin, hfirst⟩
  · constructor
    · rintro ⟨irq, hc, hp⟩
      have := hall irq hc
      have hI : VCML_ARM_GICv2_IDLE_PRIO = 255 := rfl
      omega
    · intro _
      rw [heq]
      split <;> rfl
  · constructor
    · rintro ⟨irq, hc, hp⟩
      have hlt : (s.best_candidate cpu).1 < s.CPUIF.IPMR cpu :=
        Nat.lt_of_le_of_lt (hmin irq hc) hp
      rw [if_pos hlt]
      refine ⟨hcand, ?_, ?_⟩
      · intro j hj; rw [hprio]; exact hmin j hj
      · intro j hj hpj; rw [hprio] at hpj; exact hfirst j hj hpj
    · intro hno
      have hge : ¬ (s.best_candidate cpu).1 < s.CPUIF.IPMR cpu := by
        intro hlt
        exact hno ⟨_, hcand, by rw [hprio]; exact hlt⟩
      rw [if_neg hge]

/-- C2: physical output rule.  For a processor `cpu` of the controller, after
`update(false)` the output `IRQ_OUT[cpu]` is high exactly when the distributor
control register and `CPUIF.CTLR.bank(cpu)` are both non-zero and some
candidate line has a priority strictly below both the priority mask and the
running priority `PRIO.bank(cpu)`; when either control register is zero the
output is low and `PEND.bank(cpu)` is the spurious id. -/
theorem C2_update_output_rule (s : gicv2) (cpu : Nat)
    (hcpu : cpu < s.m_cpu_num)
    (hlo : VCML_ARM_GICv2_PRIV ≤ s.m_irq_num) (hhi : s.m_irq_num ≤ VCML_ARM_GICv2_NIRQ)
    (hipmr : s.CPUIF.IPMR cpu ≤ 0xFF) :
    ((s.update false).IRQ_OUT cpu = true ↔
      (s.DISTIF.CTLR ≠ 0 ∧ s.CPUIF.CTLR cpu ≠ 0 ∧
        ∃ irq, s.is_candidate cpu irq = true ∧
          s.get_irq_priority cpu irq < s.CPUIF.IPMR cpu ∧
          s.get_irq_priority cpu irq < s.CPUIF.PRIO cpu)) ∧
    ((s.DISTIF.CTLR = 0 ∨ s.CPUIF.CTLR cpu = 0) →
      (s.update false).IRQ_OUT cpu = false ∧
      (s.update false).CPUIF.PEND cpu = VCML_ARM_GICv2_SPURIOUS_IRQ) := by
  rw [update_false_PEND s cpu hcpu, update_false_IRQ_OUT s cpu hcpu]
  unfold gicv2.pend_value gicv2.out_value
  constructor
  · by_cases hen : s.DISTIF.CTLR = 0 ∨ s.CPUIF.CTLR cpu = 0
    · rw [if_pos hen]
      constructor
      · intro h; exact absurd h (by decide)
      · rintro ⟨h1, h2, _⟩
        rcases hen with h | h
        · exact absurd h h1
        · exact absurd h h2
    · rw [if_neg hen]
      rw [not_or] at hen
      simp only [Bool.and_eq_true, decide_eq_true_eq]
      constructor
      · rintro ⟨h1, h2⟩
        refine ⟨hen.1, hen.2, ?_⟩
        rcases best_candidate_spec s cpu hlo hhi with
          ⟨_, heq⟩ | ⟨hcand, hprio, _, _, _⟩
        · rw [heq] at h1
          simp only at h1
          have hI : VCML_ARM_GICv2_IDLE_PRIO = 255 := rfl
          omega
        · exact ⟨_, hcand, by rw [hprio]; exact h1, by rw [hprio]; exact h2⟩
      · rintro ⟨_, _, irq, hc, hp1, hp2⟩
        rcases best_candidate_spec s cpu hlo hhi with
          ⟨hall, _⟩ | ⟨_, _, _, hmin, _⟩
        · have := hall irq hc
          have hI : VCML_ARM_GICv2_IDLE_PRIO = 255 := rfl
          omega
        · exact ⟨Nat.lt_of_le_of_lt (hmin irq hc) hp1, Nat.lt_of_le_of_lt (hmin irq hc) hp2⟩
  · intro hen
    rw [if_pos hen, if_pos hen]
    exact ⟨rfl, rfl⟩

/-! ## Bit masks, acknowledge and end of interrupt -/

theorem and_one_shiftLeft_ne_zero (x cpu : Nat) : (x &&& 1 <<< cpu != 0) = x.testBit cpu := by
  by_cases h : x.testBit cpu = true
  · rw [h]
    have h1 : (x &&& 1 <<< cpu).testBit cpu = true := by
      rw [Nat.testBit_and, h, Nat.one_shiftLeft, Nat.testBit_two_pow_self]; rfl
    have h2 : x &&& 1 <<< cpu ≠ 0 := by
      intro h0
      rw [h0, Nat.zero_testBit] at h1
      exact absurd h1 (by decide)
    simpa using h2
  · have hf : x.testBit cpu = false := by simpa using h
    rw [hf]
    have h0 : x &&& 1 <<< cpu = 0 := by
      apply Nat.eq_of_testBit_eq
      intro i
      rw [Nat.testBit_and, Nat.one_shiftLeft, Nat.testBit_two_pow, Nat.zero_testBit]
      by_cases hi : cpu = i
      · subst hi; simp [hf]
      · simp [hi]
    simp [h0]

theorem testBit_u8_set_bits (a m i : Nat) :
    (u8_set_bits a m).testBit i = (decide (i < 8) && (a.testBit i || m.testBit i)) := by
  unfold u8_set_bits
  rw [show (256 : Nat) = 2 ^ 8 from rfl, Nat.testBit_mod_two_pow, Nat.testBit_or]

theorem testBit_u8_clear_bits (a m i : Nat) :
    (u8_clear_bits a m).testBit i = (decide (i < 8) && (a.testBit i && !m.testBit i)) := by
  unfold u8_clear_bits
  rw [show (256 : Nat) = 2 ^ 8 from rfl, Nat.testBit_mod_two_pow, Nat.testBit_and,
    Nat.testBit_xor, show (0xFFFFFFFF : Nat) = 2 ^ 32 - 1 from rfl, Nat.testBit_two_pow_sub_one]
  by_cases h : i < 8
  · have h32 : i < 32 := by omega
    simp [h, h32]
  · simp [h]

theorem testBit_ALL_CPU (cpu : Nat) : gicv2.ALL_CPU.testBit cpu = decide (cpu < 8) := by
  show ((1 <<< 8) - 1).testBit cpu = _
  rw [Nat.one_shiftLeft, Nat.testBit_two_pow_sub_one]

theorem testBit_one_shiftLeft_self (cpu : Nat) : (1 <<< cpu).testBit cpu = true := by
  rw [Nat.one_shiftLeft, Nat.testBit_two_pow_self]

theorem cpu_or_zero_natCast (cpu : Nat) : cpu_or_zero (cpu : Int) = cpu := by
  unfold cpu_or_zero
  have h : ¬ ((cpu : Int) < 0) := by omega
  rw [if_neg h, Int.toNat_ofNat]

@[simp] theorem update_false_DISTIF (s : gicv2) : (s.update false).DISTIF = s.DISTIF := by
  rw [update_false_eq]; rfl

@[simp] theorem update_false_m_irq_state (s : gicv2) :
    (s.update false).m_irq_state = s.m_irq_state := by
  rw [update_false_eq]; rfl

@[simp] theorem update_false_m_irq_num (s : gicv2) : (s.update false).m_irq_num = s.m_irq_num := by
  rw [update_false_eq]; rfl

@[simp] theorem update_false_m_cpu_num (s : gicv2) : (s.update false).m_cpu_num = s.m_cpu_num := by
  rw [update_false_eq]; rfl

@[simp] theorem update_false_VIFCTRL (s : gicv2) : (s.update false).VIFCTRL = s.VIFCTRL := by
  rw [update_false_eq]; rfl

@[simp] theorem update_false_VCPUIF (s : gicv2) : (s.update false).VCPUIF = s.VCPUIF := by
  rw [update_false_eq]; rfl

@[simp] theorem update_false_VIRQ_OUT (s : gicv2) : (s.update false).VIRQ_OUT = s.VIRQ_OUT := by
  rw [update_false_eq]; rfl

@[simp] theorem update_false_m_curr_irq (s : gicv2) :
    (s.update false).CPUIF.m_curr_irq = s.CPUIF.m_curr_irq := by
  rw [update_false_eq]; rfl

@[simp] theorem update_false_m_prev_irq (s : gicv2) :
    (s.update false).CPUIF.m_prev_irq = s.CPUIF.m_prev_irq := by
  rw [update_false_eq]; rfl

@[simp] theorem update_false_running_prio (s : gicv2) :
    gicv2.cpuif.PRIO (s.update false).CPUIF = s.CPUIF.PRIO := by
  rw [update_false_eq]; rfl

@[simp] theorem update_false_IPMR (s : gicv2) :
    (s.update false).CPUIF.IPMR = s.CPUIF.IPMR := by
  rw [update_false_eq]; rfl

@[simp] theorem update_false_CTLR (s : gicv2) :
    (s.update false).CPUIF.CTLR = s.CPUIF.CTLR := by
  rw [update_false_eq]; rfl

@[simp] theorem update_false_IACK (s : gicv2) :
    (s.update false).CPUIF.IACK = s.CPUIF.IACK := by
  rw [update_false_eq]; rfl


theorem get_irq_priority_congr (s t : gicv2) (h1 : t.DISTIF.SGIP = s.DISTIF.SGIP)
    (h2 : t.DISTIF.PPIP = s.DISTIF.PPIP) (h3 : t.DISTIF.SPIP = s.DISTIF.SPIP) (cpu irq : Nat) :
    t.get_irq_priority cpu irq = s.get_irq_priority cpu irq := by
  unfold gicv2.get_irq_priority
  rw [h1, h2, h3]

theorem update_false_get_irq_priority (s : gicv2) (cpu irq : Nat) :
    (s.update false).get_irq_priority cpu irq = s.get_irq_priority cpu irq :=
  get_irq_priority_congr _ _ (by simp) (by simp) (by simp) cpu irq

theorem set_sgi_pending_CPUIF (s : gicv2) (v sgi cpu : Nat) (b : Bool) :
    (gicv2.distif.set_sgi_pending s v sgi cpu b).CPUIF = s.CPUIF := by
  unfold gicv2.distif.set_sgi_pending; split <;> rfl

theorem set_sgi_pending_m_irq_state (s : gicv2) (v sgi cpu : Nat) (b : Bool) :
    (gicv2.distif.set_sgi_pending s v sgi cpu b).m_irq_state = s.m_irq_state := by
  unfold gicv2.distif.set_sgi_pending; split <;> rfl

theorem set_sgi_pending_m_irq_num (s : gicv2) (v sgi cpu : Nat) (b : Bool) :
    (gicv2.distif.set_sgi_pending s v sgi cpu b).m_irq_num = s.m_irq_num := by
  unfold gicv2.distif.set_sgi_pending; split <;> rfl

theorem set_sgi_pending_m_cpu_num (s : gicv2) (v sgi cpu : Nat) (b : Bool) :
    (gicv2.distif.set_sgi_pending s v sgi cpu b).m_cpu_num = s.m_cpu_num := by
  unfold gicv2.distif.set_sgi_pending; split <;> rfl

theorem set_sgi_pending_get_irq_priority (s : gicv2) (v sgi cpu : Nat) (b : Bool) (c irq : Nat) :
    (gicv2.distif.set_sgi_pending s v sgi cpu b).get_irq_priority c irq =
      s.get_irq_priority c irq := by
  unfold gicv2.distif.set_sgi_pending; split <;> rfl

theorem ack_pending_CPUIF (s : gicv2) (cpu irq m : Nat) :
    (gicv2.cpuif.ack_pending s cpu irq m).2.CPUIF = s.CPUIF := by
  unfold gicv2.cpuif.ack_pending
  split
  · simp only
    split
    · exact set_sgi_pending_CPUIF _ _ _ _ _
    · exact set_sgi_pending_CPUIF _ _ _ _ _
  · rfl

theorem ack_pending_m_irq_num (s : gicv2) (cpu irq m : Nat) :
    (gicv2.cpuif.ack_pending s cpu irq m).2.m_irq_num = s.m_irq_num := by
  unfold gicv2.cpuif.ack_pending
  split
  · simp only
    split
    · exact set_sgi_pending_m_irq_num _ _ _ _ _
    · exact set_sgi_pending_m_irq_num _ _ _ _ _
  · rfl

theorem ack_pending_get_irq_priority (s : gicv2) (cpu irq m c j : Nat) :
    (gicv2.cpuif.ack_pending s cpu irq m).2.get_irq_priority c j = s.get_irq_priority c j := by
  unfold gicv2.cpuif.ack_pending
  split
  · simp only
    split
    · exact set_sgi_pending_get_irq_priority _ _ _ _ _ _ _
    · exact set_sgi_pending_get_irq_priority _ _ _ _ _ _ _
  · rfl

theorem ack_pending_active (s : gicv2) (cpu irq m j : Nat) :
    ((gicv2.cpuif.ack_pending s cpu irq m).2.m_irq_state j).active = (s.m_irq_state j).active := by
  unfold gicv2.cpuif.ack_pending
  split
  · simp only
    split
    · unfold gicv2.set_irq_pending
      simp only [set_sgi_pending_m_irq_state, Function.update_apply]
      split
      · rename_i h; subst h; rfl
      · rfl
    · rw [set_sgi_pending_m_irq_state]
  · unfold gicv2.set_irq_pending
    simp only [Function.update_apply]
    split
    · rename_i h; subst h; rfl
    · rfl

theorem read_IACK_ok (s : gicv2) (cpu : Nat)
    (h1 : s.CPUIF.PEND cpu ≠ VCML_ARM_GICv2_SPURIOUS_IRQ)
    (h2 : s.get_irq_priority cpu (s.CPUIF.PEND cpu) < s.CPUIF.PRIO cpu) :
    gicv2.cpuif.read_IACK s cpu =
      ((gicv2.cpuif.ack_pending s cpu (s.CPUIF.PEND cpu)
          (gicv2.cpuif.ack_mask s cpu (s.CPUIF.PEND cpu))).1,
        ((gicv2.cpuif.set_current_irq
          { (gicv2.cpuif.ack_pending s cpu (s.CPUIF.PEND cpu)
              (gicv2.cpuif.ack_mask s cpu (s.CPUIF.PEND cpu))).2 with
            CPUIF := { s.CPUIF with
              IACK := (Function.update s.CPUIF.IACK cpu
                (gicv2.cpuif.ack_pending s cpu (s.CPUIF.PEND cpu)
                  (gicv2.cpuif.ack_mask s cpu (s.CPUIF.PEND cpu))).1),
              m_prev_irq := (Function.update s.CPUIF.m_prev_irq (s.CPUIF.PEND cpu)
                (Function.update (s.CPUIF.m_prev_irq (s.CPUIF.PEND cpu)) cpu
                  (s.CPUIF.m_curr_irq cpu))) } }
          cpu (s.CPUIF.PEND cpu)).set_irq_active (s.CPUIF.PEND cpu) true
            (gicv2.cpuif.ack_mask s cpu (s.CPUIF.PEND cpu))).set_irq_signaled
              (s.CPUIF.PEND cpu) true (gicv2.cpuif.ack_mask s cpu (s.CPUIF.PEND cpu))) := by
  have hc : ¬ (s.CPUIF.PEND cpu = VCML_ARM_GICv2_SPURIOUS_IRQ ∨
      s.get_irq_priority cpu (s.CPUIF.PEND cpu) ≥ s.CPUIF.PRIO cpu) := by
    rw [not_or]; exact ⟨h1, by omega⟩
  unfold gicv2.cpuif.read_IACK
  rw [cpu_or_zero_natCast]
  simp only [hc, if_false, ack_pending_CPUIF]

theorem set_current_irq_m_irq_state (s : gicv2) (cpu irq : Nat) :
    (gicv2.cpuif.set_current_irq s cpu irq).m_irq_state = s.m_irq_state := by
  unfold gicv2.cpuif.set_current_irq; simp only [update_false_m_irq_state]

theorem set_current_irq_m_irq_num (s : gicv2) (cpu irq : Nat) :
    (gicv2.cpuif.set_current_irq s cpu irq).m_irq_num = s.m_irq_num := by
  unfold gicv2.cpuif.set_current_irq; simp only [update_false_m_irq_num]

theorem set_current_irq_DISTIF (s : gicv2) (cpu irq : Nat) :
    (gicv2.cpuif.set_current_irq s cpu irq).DISTIF = s.DISTIF := by
  unfold gicv2.cpuif.set_current_irq; simp only [update_false_DISTIF]

theorem set_current_irq_m_curr_irq (s : gicv2) (cpu irq : Nat) :
    (gicv2.cpuif.set_current_irq s cpu irq).CPUIF.m_curr_irq =
      Function.update s.CPUIF.m_curr_irq cpu irq := by
  unfold gicv2.cpuif.set_current_irq; simp only [update_false_m_curr_irq]

theorem set_current_irq_m_prev_irq (s : gicv2) (cpu irq : Nat) :
    (gicv2.cpuif.set_current_irq s cpu irq).CPUIF.m_prev_irq = s.CPUIF.m_prev_irq := by
  unfold gicv2.cpuif.set_current_irq; simp only [update_false_m_prev_irq]

theorem set_current_irq_running_prio (s : gicv2) (cpu irq : Nat) :
    gicv2.cpuif.PRIO (gicv2.cpuif.set_current_irq s cpu irq).CPUIF =
      Function.update s.CPUIF.PRIO cpu
        (if irq = VCML_ARM_GICv2_SPURIOUS_IRQ then 0x100 else s.get_irq_priority cpu irq) := by
  unfold gicv2.cpuif.set_current_irq; simp only [update_false_running_prio]; rfl

theorem set_current_irq_get_irq_priority (s : gicv2) (cpu irq c j : Nat) :
    (gicv2.cpuif.set_current_irq s cpu irq).get_irq_priority c j = s.get_irq_priority c j :=
  get_irq_priority_congr _ _ (by rw [set_current_irq_DISTIF]) (by rw [set_current_irq_DISTIF])
    (by rw [set_current_irq_DISTIF]) c j

theorem ack_mask_testBit (s : gicv2) (cpu irq : Nat) (hcpu : cpu < VCML_ARM_GICv2_NCPU) :
    (gicv2.cpuif.ack_mask s cpu irq).testBit cpu = true := by
  unfold gicv2.cpuif.ack_mask
  split
  · rw [testBit_ALL_CPU]; exact decide_eq_true hcpu
  · exact testBit_one_shiftLeft_self cpu

/-- The state reached by a successful `cpuif::read_IACK`, field by field. -/
theorem read_IACK_ok_fields (s : gicv2) (cpu : Nat)
    (h1 : s.CPUIF.PEND cpu ≠ VCML_ARM_GICv2_SPURIOUS_IRQ)
    (h2 : s.get_irq_priority cpu (s.CPUIF.PEND cpu) < s.CPUIF.PRIO cpu) :
    (gicv2.cpuif.read_IACK s cpu).2.CPUIF.m_curr_irq =
        Function.update s.CPUIF.m_curr_irq cpu (s.CPUIF.PEND cpu) ∧
    (gicv2.cpuif.read_IACK s cpu).2.CPUIF.m_prev_irq =
        Function.update s.CPUIF.m_prev_irq (s.CPUIF.PEND cpu)
          (Function.update (s.CPUIF.m_prev_irq (s.CPUIF.PEND cpu)) cpu (s.CPUIF.m_curr_irq cpu)) ∧
    gicv2.cpuif.PRIO (gicv2.cpuif.read_IACK s cpu).2.CPUIF =
        Function.update s.CPUIF.PRIO cpu (s.get_irq_priority cpu (s.CPUIF.PEND cpu)) ∧
    (gicv2.cpuif.read_IACK s cpu).2.m_irq_num = s.m_irq_num ∧
    (∀ c j, (gicv2.cpuif.read_IACK s cpu).2.get_irq_priority c j = s.get_irq_priority c j) ∧
    (∀ j, ((gicv2.cpuif.read_IACK s cpu).2.m_irq_state j).active =
        if j = s.CPUIF.PEND cpu then
          u8_set_bits (s.m_irq_state j).active (gicv2.cpuif.ack_mask s cpu (s.CPUIF.PEND cpu))
        else (s.m_irq_state j).active) := by
  rw [read_IACK_ok s cpu h1 h2]
  refine ⟨?_, ?_, ?_, ?_, ?_, ?_⟩
  · simp only [gicv2.set_irq_signaled, gicv2.set_irq_active, set_current_irq_m_curr_irq]
  · simp only [gicv2.set_irq_signaled, gicv2.set_irq_active, set_current_irq_m_prev_irq]
  · simp only [gicv2.set_irq_signaled, gicv2.set_irq_active, set_current_irq_running_prio, if_neg h1]
    exact congrArg (Function.update s.CPUIF.PRIO cpu)
      (ack_pending_get_irq_priority s cpu (s.CPUIF.PEND cpu)
        (gicv2.cpuif.ack_mask s cpu (s.CPUIF.PEND cpu)) cpu (s.CPUIF.PEND cpu))
  · simp only [gicv2.set_irq_signaled, gicv2.set_irq_active, set_current_irq_m_irq_num]
    exact ack_pending_m_irq_num s cpu _ _
  · intro c j
    have e1 : ∀ (t : gicv2) (i : Nat) (b : Bool) (m : Nat),
        (t.set_irq_signaled i b m).get_irq_priority c j = t.get_irq_priority c j := fun _ _ _ _ => rfl
    have e2 : ∀ (t : gicv2) (i : Nat) (b : Bool) (m : Nat),
        (t.set_irq_active i b m).get_irq_priority c j = t.get_irq_priority c j := fun _ _ _ _ => rfl
    rw [e1, e2, set_current_irq_get_irq_priority]
    exact ack_pending_get_irq_priority s cpu _ _ c j
  · intro j
    simp only [gicv2.set_irq_signaled, gicv2.set_irq_active, set_current_irq_m_irq_state,
      Function.update_apply]
    by_cases hj : j = s.CPUIF.PEND cpu
    · subst hj
      simp only [if_true, ack_pending_active]
    · simp only [hj, if_false, ack_pending_active]

/-- C3: successful acknowledge of a non-SGI line.  When `PEND.bank(cpu)` is a
line `irq` with 16 <= `irq` < line count whose priority is below
`PRIO.bank(cpu)`, `cpuif::read_IACK` returns `irq`; afterwards the pending bit
of `irq` for `cpu` is clear, its active bit for `cpu` is set,
`m_prev_irq[irq][cpu]` is the former `m_curr_irq[cpu]`, `m_curr_irq[cpu]` is
`irq`, and `PRIO.bank(cpu)` is the priority of `irq` (which the call does not
change). -/
theorem C3_read_IACK_acknowledges_line (s : gicv2) (cpu irq : Nat)
    (hcpu : cpu < VCML_ARM_GICv2_NCPU)
    (hnum : s.m_irq_num ≤ VCML_ARM_GICv2_NIRQ)
    (hpend : s.CPUIF.PEND cpu = irq)
    (hlo : VCML_ARM_GICv2_NSGI ≤ irq) (hhi : irq < s.m_irq_num)
    (hprio : s.get_irq_priority cpu irq < s.CPUIF.PRIO cpu) :
    (gicv2.cpuif.read_IACK s cpu).1 = irq ∧
    (gicv2.cpuif.read_IACK s cpu).2.is_irq_pending irq (1 <<< cpu) = false ∧
    (gicv2.cpuif.read_IACK s cpu).2.is_irq_active irq (1 <<< cpu) = true ∧
    (gicv2.cpuif.read_IACK s cpu).2.CPUIF.m_prev_irq irq cpu = s.CPUIF.m_curr_irq cpu ∧
    (gicv2.cpuif.read_IACK s cpu).2.CPUIF.m_curr_irq cpu = irq ∧
    gicv2.cpuif.PRIO (gicv2.cpuif.read_IACK s cpu).2.CPUIF cpu =
      (gicv2.cpuif.read_IACK s cpu).2.get_irq_priority cpu irq ∧
    (gicv2.cpuif.read_IACK s cpu).2.get_irq_priority cpu irq = s.get_irq_priority cpu irq := by
  subst hpend
  have h1 : s.CPUIF.PEND cpu ≠ VCML_ARM_GICv2_SPURIOUS_IRQ := by
    have hS : VCML_ARM_GICv2_SPURIOUS_IRQ = 1023 := rfl
    have hN : VCML_ARM_GICv2_NIRQ = 1020 := rfl
    omega
  have hsw : is_software_interrupt (s.CPUIF.PEND cpu) = false := by
    unfold is_software_interrupt
    exact decide_eq_false (by omega)
  obtain ⟨hcurr, hprev, hrun, _, hprioeq, hact⟩ := read_IACK_ok_fields s cpu h1 hprio
  refine ⟨?_, ?_, ?_, ?_, ?_, ?_, ?_⟩
  · rw [read_IACK_ok s cpu h1 hprio]
    simp [gicv2.cpuif.ack_pending, hsw]
  · rw [read_IACK_ok s cpu h1 hprio]
    unfold gicv2.is_irq_pending
    rw [and_one_shiftLeft_ne_zero]
    simp only [gicv2.set_irq_signaled, gicv2.set_irq_active, set_current_irq_m_irq_state,
      Function.update_same, gicv2.cpuif.ack_pending, hsw, gicv2.set_irq_pending]
    simp only [Bool.false_eq_true, if_false, Function.update_same]
    rw [testBit_u8_clear_bits, ack_mask_testBit s cpu _ hcpu]
    simp
  · unfold gicv2.is_irq_active
    rw [and_one_shiftLeft_ne_zero, hact, if_pos rfl, testBit_u8_set_bits,
      ack_mask_testBit s cpu _ hcpu]
    simp only [Bool.or_true, Bool.and_true]
    exact decide_eq_true hcpu
  · rw [hprev]; simp
  · rw [hcurr]; simp
  · rw [hrun, hprioeq]; simp
  · exact hprioeq cpu _

/-- C4: a spurious acknowledge has no side effects.  When `PEND.bank(cpu)` is
the spurious id, or the priority of the line it names is not strictly below
`PRIO.bank(cpu)`, `cpuif::read_IACK` returns the spurious id 1023 and the whole
controller state is unchanged. -/
theorem C4_read_IACK_spurious_no_side_effects (s : gicv2) (cpu : Nat)
    (h : s.CPUIF.PEND cpu = VCML_ARM_GICv2_SPURIOUS_IRQ ∨
      ¬ s.get_irq_priority cpu (s.CPUIF.PEND cpu) < s.CPUIF.PRIO cpu) :
    gicv2.cpuif.read_IACK s cpu = (VCML_ARM_GICv2_SPURIOUS_IRQ, s) := by
  unfold gicv2.cpuif.read_IACK
  rw [cpu_or_zero_natCast]
  have hc : s.CPUIF.PEND cpu = VCML_ARM_GICv2_SPURIOUS_IRQ ∨
      s.get_irq_priority cpu (s.CPUIF.PEND cpu) ≥ s.CPUIF.PRIO cpu := by
    rcases h with h | h
    · exact Or.inl h
    · exact Or.inr (by omega)
  simp only [hc, if_true]

theorem is_irq_active_eq_testBit (s : gicv2) (irq cpu : Nat) :
    s.is_irq_active irq (1 <<< cpu) = ((s.m_irq_state irq).active).testBit cpu := by
  unfold gicv2.is_irq_active
  exact and_one_shiftLeft_ne_zero _ _

/-- The acknowledge/EOI bookkeeping of processor `cpu` after a successful
`cpuif::read_IACK`. -/
theorem read_IACK_ok_at (s : gicv2) (cpu : Nat) (hcpu : cpu < VCML_ARM_GICv2_NCPU)
    (h1 : s.CPUIF.PEND cpu ≠ VCML_ARM_GICv2_SPURIOUS_IRQ)
    (h2 : s.get_irq_priority cpu (s.CPUIF.PEND cpu) < s.CPUIF.PRIO cpu) :
    (gicv2.cpuif.read_IACK s cpu).2.CPUIF.m_curr_irq cpu = s.CPUIF.PEND cpu ∧
    (∀ j, (gicv2.cpuif.read_IACK s cpu).2.CPUIF.m_prev_irq j cpu =
      if j = s.CPUIF.PEND cpu then s.CPUIF.m_curr_irq cpu else s.CPUIF.m_prev_irq j cpu) ∧
    gicv2.cpuif.PRIO (gicv2.cpuif.read_IACK s cpu).2.CPUIF cpu =
      s.get_irq_priority cpu (s.CPUIF.PEND cpu) ∧
    (gicv2.cpuif.read_IACK s cpu).2.m_irq_num = s.m_irq_num ∧
    (∀ c j, (gicv2.cpuif.read_IACK s cpu).2.get_irq_priority c j = s.get_irq_priority c j) ∧
    (∀ j, (gicv2.cpuif.read_IACK s cpu).2.is_irq_active j (1 <<< cpu) =
      if j = s.CPUIF.PEND cpu then true else s.is_irq_active j (1 <<< cpu)) := by
  obtain ⟨hcurr, hprev, hrun, hnum, hprioeq, hact⟩ := read_IACK_ok_fields s cpu h1 h2
  refine ⟨?_, ?_, ?_, hnum, hprioeq, ?_⟩
  · rw [hcurr]; simp
  · intro j
    rw [hprev]
    by_cases hj : j = s.CPUIF.PEND cpu
    · subst hj; simp
    · simp [hj]
  · rw [hrun]; simp
  · intro j
    rw [is_irq_active_eq_testBit, is_irq_active_eq_testBit, hact]
    by_cases hj : j = s.CPUIF.PEND cpu
    · rw [if_pos hj, if_pos hj, testBit_u8_set_bits, ack_mask_testBit s cpu _ hcpu]
      simp only [Bool.or_true, Bool.and_true]
      exact decide_eq_true hcpu
    · rw [if_neg hj, if_neg hj]

theorem and_0x3FF_of_lt (irq : Nat) (h : irq < 1024) : irq &&& 0x3FF = irq :=
  Nat.and_pow_two_sub_one_of_lt_two_pow (n := 10) h

/-- The bookkeeping of processor `cpu` after `cpuif::write_EOIR` of the running
line. -/
theorem write_EOIR_running_at (s : gicv2) (fuel cpu val : Nat)
    (hcur : s.CPUIF.m_curr_irq cpu ≠ VCML_ARM_GICv2_SPURIOUS_IRQ)
    (hval : val &&& 0x3FF = s.CPUIF.m_curr_irq cpu)
    (hlt : s.CPUIF.m_curr_irq cpu < s.m_irq_num) :
    ∃ t, gicv2.cpuif.write_EOIR s fuel cpu val = some t ∧
      t.CPUIF.m_curr_irq cpu = s.CPUIF.m_prev_irq (s.CPUIF.m_curr_irq cpu) cpu ∧
      (∀ j, t.CPUIF.m_prev_irq j cpu = s.CPUIF.m_prev_irq j cpu) ∧
      gicv2.cpuif.PRIO t.CPUIF cpu =
        (if s.CPUIF.m_prev_irq (s.CPUIF.m_curr_irq cpu) cpu = VCML_ARM_GICv2_SPURIOUS_IRQ
          then 0x100
          else s.get_irq_priority cpu (s.CPUIF.m_prev_irq (s.CPUIF.m_curr_irq cpu) cpu)) ∧
      t.m_irq_num = s.m_irq_num ∧
      (∀ c j, t.get_irq_priority c j = s.get_irq_priority c j) ∧
      (∀ j, t.is_irq_active j (1 <<< cpu) =
        if j = s.CPUIF.m_curr_irq cpu then false else s.is_irq_active j (1 <<< cpu)) := by
  refine ⟨(gicv2.cpuif.set_current_irq s cpu
      (s.CPUIF.m_prev_irq (s.CPUIF.m_curr_irq cpu) cpu)).set_irq_active
        (s.CPUIF.m_curr_irq cpu) false (1 <<< cpu), ?_, ?_, ?_, ?_, ?_, ?_, ?_⟩
  · unfold gicv2.cpuif.write_EOIR
    rw [cpu_or_zero_natCast]
    have h2 : ¬ (s.CPUIF.m_curr_irq cpu ≥ s.get_irq_num) := by
      unfold gicv2.get_irq_num; omega
    simp only [hcur, if_false, hval, h2, if_true]
  · simp only [gicv2.set_irq_active, set_current_irq_m_curr_irq, Function.update_same]
  · intro j
    simp only [gicv2.set_irq_active, set_current_irq_m_prev_irq]
  · simp only [gicv2.set_irq_active, set_current_irq_running_prio, Function.update_same]
  · simp only [gicv2.set_irq_active, set_current_irq_m_irq_num]
  · intro c j
    exact set_current_irq_get_irq_priority s cpu _ c j
  · intro j
    rw [is_irq_active_eq_testBit, is_irq_active_eq_testBit]
    simp only [gicv2.set_irq_active, set_current_irq_m_irq_state, Function.update_apply]
    by_cases hj : j = s.CPUIF.m_curr_irq cpu
    · simp only [hj, if_true, Bool.false_eq_true, if_false]
      rw [testBit_u8_clear_bits, testBit_one_shiftLeft_self]
      simp
    · simp only [hj, if_false]

/-- The bookkeeping of processor `cpu` after `cpuif::write_EOIR` of the line
the running line resumes to. -/
theorem write_EOIR_splice_at (s : gicv2) (fuel cpu val : Nat)
    (hcur : s.CPUIF.m_curr_irq cpu ≠ VCML_ARM_GICv2_SPURIOUS_IRQ)
    (hlt : val &&& 0x3FF < s.m_irq_num)
    (hne : val &&& 0x3FF ≠ s.CPUIF.m_curr_irq cpu)
    (hsp : val &&& 0x3FF ≠ VCML_ARM_GICv2_SPURIOUS_IRQ)
    (hprev : s.CPUIF.m_prev_irq (s.CPUIF.m_curr_irq cpu) cpu = val &&& 0x3FF) :
    ∃ t, gicv2.cpuif.write_EOIR s (fuel + 1) cpu val = some t ∧
      t.CPUIF.m_curr_irq cpu = s.CPUIF.m_curr_irq cpu ∧
      (∀ j, t.CPUIF.m_prev_irq j cpu =
        if j = s.CPUIF.m_curr_irq cpu then s.CPUIF.m_prev_irq (val &&& 0x3FF) cpu
        else s.CPUIF.m_prev_irq j cpu) ∧
      gicv2.cpuif.PRIO t.CPUIF cpu = s.CPUIF.PRIO cpu ∧
      t.m_irq_num = s.m_irq_num ∧
      (∀ c j, t.get_irq_priority c j = s.get_irq_priority c j) ∧
      (∀ j, t.is_irq_active j (1 <<< cpu) = s.is_irq_active j (1 <<< cpu)) := by
  refine ⟨{ s with CPUIF := { s.CPUIF with
      m_prev_irq := (Function.update s.CPUIF.m_prev_irq (s.CPUIF.m_curr_irq cpu)
        (Function.update (s.CPUIF.m_prev_irq (s.CPUIF.m_curr_irq cpu)) cpu
          (s.CPUIF.m_prev_irq (val &&& 0x3FF) cpu))) } }, ?_, rfl, ?_, rfl, rfl,
      fun _ _ => rfl, fun _ => rfl⟩
  · unfold gicv2.cpuif.write_EOIR
    rw [cpu_or_zero_natCast]
    have h2 : ¬ (val &&& 0x3FF ≥ s.get_irq_num) := by
      unfold gicv2.get_irq_num; omega
    have h3 : s.CPUIF.m_prev_irq (s.CPUIF.m_curr_irq cpu) cpu ≠ VCML_ARM_GICv2_SPURIOUS_IRQ := by
      rw [hprev]; exact hsp
    simp only [hcur, if_false, h2, hne, gicv2.cpuif.eoi_walk, h3, hprev, hsp, ne_eq,
      not_false_eq_true, if_true, Option.map_some']
  · intro j
    simp only [Function.update_apply]
    by_cases hj : j = s.CPUIF.m_curr_irq cpu
    · simp [hj]
    · simp [hj]

/-- C5: preemption round trip.  Lines `A` and `B` with priority(B) <
priority(A) < running priority: `A` is acknowledged from `s0`; after any events
that leave the bookkeeping of `cpu` alone (`chain_frame`) `B` is best pending
in `s2` and is acknowledged, preempting `A`; then `B` is ended with
`cpuif::write_EOIR`.  The EOI returns for every fuel, and afterwards
`m_curr_irq[cpu]` is `A`, `PRIO.bank(cpu)` is the priority of `A`, `B` is not
active for `cpu` and `A` still is. -/
theorem C5_preemption_round_trip (s0 s2 : gicv2) (cpu A B fuel : Nat)
    (hcpu : cpu < VCML_ARM_GICv2_NCPU)
    (hnum : s0.m_irq_num ≤ VCML_ARM_GICv2_NIRQ)
    (hA : A < s0.m_irq_num) (hB : B < s0.m_irq_num)
    (hBA : s0.get_irq_priority cpu B < s0.get_irq_priority cpu A)
    (hArun : s0.get_irq_priority cpu A < s0.CPUIF.PRIO cpu)
    (hpendA : s0.CPUIF.PEND cpu = A)
    (hframe : gicv2.chain_frame cpu (gicv2.cpuif.read_IACK s0 cpu).2 s2)
    (hpendB : s2.CPUIF.PEND cpu = B) :
    (gicv2.cpuif.read_IACK s0 cpu).2.CPUIF.m_curr_irq cpu = A ∧
    (gicv2.cpuif.read_IACK s2 cpu).2.CPUIF.m_curr_irq cpu = B ∧
    ∃ s4, gicv2.cpuif.write_EOIR (gicv2.cpuif.read_IACK s2 cpu).2 fuel cpu B = some s4 ∧
      s4.CPUIF.m_curr_irq cpu = A ∧
      gicv2.cpuif.PRIO s4.CPUIF cpu = s4.get_irq_priority cpu A ∧
      s4.get_irq_priority cpu A = s0.get_irq_priority cpu A ∧
      s4.is_irq_active B (1 <<< cpu) = false ∧
      s4.is_irq_active A (1 <<< cpu) = true := by
  have hS : VCML_ARM_GICv2_SPURIOUS_IRQ = 1023 := rfl
  have hN : VCML_ARM_GICv2_NIRQ = 1020 := rfl
  have hAB : A ≠ B := by
    intro h; subst h; omega
  -- first acknowledge
  subst hpendA
  obtain ⟨c1, p1, r1, n1, q1, a1⟩ :=
    read_IACK_ok_at s0 cpu hcpu (by omega) hArun
  obtain ⟨fc, fp, fr, fn, fq, fa⟩ := hframe
  -- second acknowledge
  subst hpendB
  have hB2 : s2.get_irq_priority cpu (s2.CPUIF.PEND cpu) < s2.CPUIF.PRIO cpu := by
    rw [fq, q1, fr, r1]; exact hBA
  obtain ⟨c3, p3, r3, n3, q3, a3⟩ :=
    read_IACK_ok_at s2 cpu hcpu (by omega) hB2
  -- end of interrupt
  have hcur3 : (gicv2.cpuif.read_IACK s2 cpu).2.CPUIF.m_curr_irq cpu ≠
      VCML_ARM_GICv2_SPURIOUS_IRQ := by rw [c3]; omega
  have hval : s2.CPUIF.PEND cpu &&& 0x3FF =
      (gicv2.cpuif.read_IACK s2 cpu).2.CPUIF.m_curr_irq cpu := by
    rw [c3]; exact and_0x3FF_of_lt _ (by omega)
  have hlt3 : (gicv2.cpuif.read_IACK s2 cpu).2.CPUIF.m_curr_irq cpu <
      (gicv2.cpuif.read_IACK s2 cpu).2.m_irq_num := by
    rw [c3, n3, fn, n1]; exact hB
  obtain ⟨s4, e4, c4, _, r4, _, q4, a4⟩ :=
    write_EOIR_running_at (gicv2.cpuif.read_IACK s2 cpu).2 fuel cpu (s2.CPUIF.PEND cpu)
      hcur3 hval hlt3
  have hprevB : (gicv2.cpuif.read_IACK s2 cpu).2.CPUIF.m_prev_irq
      ((gicv2.cpuif.read_IACK s2 cpu).2.CPUIF.m_curr_irq cpu) cpu = s0.CPUIF.PEND cpu := by
    rw [c3, p3, if_pos rfl, fc, c1]
  refine ⟨c1, c3, s4, e4, ?_, ?_, ?_, ?_, ?_⟩
  · rw [c4, hprevB]
  · rw [r4, hprevB, if_neg (by omega), q4]
  · rw [q4, q3, fq, q1]
  · rw [a4, c3, if_pos rfl]
  · rw [a4, c3, if_neg hAB, a3, if_neg hAB, fa, a1, if_pos rfl]

/-- C6: out-of-order EOI splice.  On a processor with no running line, `A`,
`B`, `C` are acknowledged in that order, each preempting the previous
(priority(C) < priority(B) < priority(A)), with bookkeeping-preserving events
in between.  Then `write_EOIR(B)` returns (one unit of fuel suffices) and
leaves `m_curr_irq[cpu]` = `C`, `PRIO.bank(cpu)` = priority of `C` and
`m_prev_irq[C][cpu]` = `A`; a following `write_EOIR(C)` makes `A` the running
line with `PRIO.bank(cpu)` = priority of `A`; a following `write_EOIR(A)`
leaves no running line. -/
theorem C6_out_of_order_EOI_splice (s0 s2 s4 : gicv2) (cpu A B C fuel : Nat)
    (hcpu : cpu < VCML_ARM_GICv2_NCPU)
    (hnum : s0.m_irq_num ≤ VCML_ARM_GICv2_NIRQ)
    (hA : A < s0.m_irq_num) (hB : B < s0.m_irq_num) (hC : C < s0.m_irq_num)
    (hidle : s0.CPUIF.m_curr_irq cpu = VCML_ARM_GICv2_SPURIOUS_IRQ)
    (hCB : s0.get_irq_priority cpu C < s0.get_irq_priority cpu B)
    (hBA : s0.get_irq_priority cpu B < s0.get_irq_priority cpu A)
    (hArun : s0.get_irq_priority cpu A < s0.CPUIF.PRIO cpu)
    (hpendA : s0.CPUIF.PEND cpu = A)
    (hframe1 : gicv2.chain_frame cpu (gicv2.cpuif.read_IACK s0 cpu).2 s2)
    (hpendB : s2.CPUIF.PEND cpu = B)
    (hframe2 : gicv2.chain_frame cpu (gicv2.cpuif.read_IACK s2 cpu).2 s4)
    (hpendC : s4.CPUIF.PEND cpu = C) :
    ∃ s6 s7 s8,
      gicv2.cpuif.write_EOIR (gicv2.cpuif.read_IACK s4 cpu).2 (fuel + 1) cpu B = some s6 ∧
      s6.CPUIF.m_curr_irq cpu = C ∧
      gicv2.cpuif.PRIO s6.CPUIF cpu = s6.get_irq_priority cpu C ∧
      s6.CPUIF.m_prev_irq C cpu = A ∧
      gicv2.cpuif.write_EOIR s6 fuel cpu C = some s7 ∧
      s7.CPUIF.m_curr_irq cpu = A ∧
      gicv2.cpuif.PRIO s7.CPUIF cpu = s7.get_irq_priority cpu A ∧
      gicv2.cpuif.write_EOIR s7 fuel cpu A = some s8 ∧
      s8.CPUIF.m_curr_irq cpu = VCML_ARM_GICv2_SPURIOUS_IRQ := by
  have hS : VCML_ARM_GICv2_SPURIOUS_IRQ = 1023 := rfl
  have hN : VCML_ARM_GICv2_NIRQ = 1020 := rfl
  have hAB : A ≠ B := by intro h; subst h; omega
  have hBC : B ≠ C := by intro h; subst h; omega
  have hAC : A ≠ C := by intro h; subst h; omega
  -- acknowledge A
  subst hpendA
  obtain ⟨c1, p1, r1, n1, q1, _⟩ := read_IACK_ok_at s0 cpu hcpu (by omega) hArun
  obtain ⟨fc, fp, fr, fn, fq, _⟩ := hframe1
  -- acknowledge B
  subst hpendB
  have hB2 : s2.get_irq_priority cpu (s2.CPUIF.PEND cpu) < s2.CPUIF.PRIO cpu := by
    rw [fq, q1, fr, r1]; exact hBA
  obtain ⟨c3, p3, r3, n3, q3, _⟩ := read_IACK_ok_at s2 cpu hcpu (by omega) hB2
  obtain ⟨gc, gp, gr, gn, gq, _⟩ := hframe2
  -- acknowledge C
  subst hpendC
  have hC4 : s4.get_irq_priority cpu (s4.CPUIF.PEND cpu) < s4.CPUIF.PRIO cpu := by
    rw [gq, q3, fq, q1, gr, r3, fq, q1]; exact hCB
  obtain ⟨c5, p5, r5, n5, q5, _⟩ := read_IACK_ok_at s4 cpu hcpu (by omega) hC4
  have hnum5 : (gicv2.cpuif.read_IACK s4 cpu).2.m_irq_num = s0.m_irq_num := by
    rw [n5, gn, n3, fn, n1]
  have hq5 : ∀ j, (gicv2.cpuif.read_IACK s4 cpu).2.get_irq_priority cpu j =
      s0.get_irq_priority cpu j := by
    intro j; rw [q5, gq, q3, fq, q1]
  -- the resume-to entries after the three acknowledges
  have hprevC : (gicv2.cpuif.read_IACK s4 cpu).2.CPUIF.m_prev_irq (s4.CPUIF.PEND cpu) cpu =
      s2.CPUIF.PEND cpu := by
    rw [p5, if_pos rfl, gc, c3]
  have hprevB : (gicv2.cpuif.read_IACK s4 cpu).2.CPUIF.m_prev_irq (s2.CPUIF.PEND cpu) cpu =
      s0.CPUIF.PEND cpu := by
    rw [p5, if_neg hBC, gp, p3, if_pos rfl, fc, c1]
  have hprevA : (gicv2.cpuif.read_IACK s4 cpu).2.CPUIF.m_prev_irq (s0.CPUIF.PEND cpu) cpu =
      VCML_ARM_GICv2_SPURIOUS_IRQ := by
    rw [p5, if_neg hAC, gp, p3, if_neg hAB, fp, p1, if_pos rfl, hidle]
  -- EOI of B, which is not the running line
  have hBmask : s2.CPUIF.PEND cpu &&& 0x3FF = s2.CPUIF.PEND cpu :=
    and_0x3FF_of_lt _ (by omega)
  obtain ⟨s6, e6, c6, p6, r6, n6, q6, _⟩ :=
    write_EOIR_splice_at (gicv2.cpuif.read_IACK s4 cpu).2 fuel cpu (s2.CPUIF.PEND cpu)
      (by rw [c5]; omega) (by rw [hBmask, hnum5]; exact hB) (by rw [hBmask, c5]; exact hBC)
      (by rw [hBmask]; omega) (by rw [hBmask, c5]; exact hprevC)
  rw [hBmask, c5] at p6
  -- EOI of C, now the running line
  have hCmask : s4.CPUIF.PEND cpu &&& 0x3FF = s6.CPUIF.m_curr_irq cpu := by
    rw [c6, c5]; exact and_0x3FF_of_lt _ (by omega)
  obtain ⟨s7, e7, c7, p7, r7, n7, q7, _⟩ :=
    write_EOIR_running_at s6 fuel cpu (s4.CPUIF.PEND cpu)
      (by rw [c6, c5]; omega) hCmask (by rw [c6, c5, n6, hnum5]; exact hC)
  have hprev6C : s6.CPUIF.m_prev_irq (s6.CPUIF.m_curr_irq cpu) cpu = s0.CPUIF.PEND cpu := by
    rw [c6, c5, p6, if_pos rfl, hprevB]
  -- EOI of A
  have hc7 : s7.CPUIF.m_curr_irq cpu = s0.CPUIF.PEND cpu := by rw [c7, hprev6C]
  have hAmask : s0.CPUIF.PEND cpu &&& 0x3FF = s7.CPUIF.m_curr_irq cpu := by
    rw [hc7]; exact and_0x3FF_of_lt _ (by omega)
  obtain ⟨s8, e8, c8, _, _, _, _, _⟩ :=
    write_EOIR_running_at s7 fuel cpu (s0.CPUIF.PEND cpu)
      (by rw [hc7]; omega) hAmask (by rw [hc7, n7, n6, hnum5]; exact hA)
  refine ⟨s6, s7, s8, e6, ?_, ?_, ?_, e7, hc7, ?_, e8, ?_⟩
  · rw [c6, c5]
  · rw [r6, r5, q6, q5]
  · rw [p6, if_pos rfl, hprevB]
  · rw [r7, hprev6C, if_neg (by omega), q7]
  · rw [c8, hc7, p7, p6, if_neg hAC, hprevA]

theorem eoi_walk_not_found (cpu irq : Nat) (prev : Nat → Nat → Nat) :
    ∀ (n iter fuel : Nat),
      (fun i => prev i cpu)^[n + 1] iter = VCML_ARM_GICv2_SPURIOUS_IRQ →
      (∀ k, k < n + 1 → (fun i => prev i cpu)^[k + 1] iter ≠ irq) →
      n + 1 ≤ fuel →
      gicv2.cpuif.eoi_walk cpu irq fuel prev iter = some prev := by
  intro n
  induction n with
  | zero =>
    intro iter fuel hend _ hfuel
    obtain ⟨fuel', rfl⟩ : ∃ f, fuel = f + 1 := ⟨fuel - 1, by omega⟩
    have h : prev iter cpu = VCML_ARM_GICv2_SPURIOUS_IRQ := hend
    simp [gicv2.cpuif.eoi_walk, h]
  | succ n ih =>
    intro iter fuel hend hnot hfuel
    obtain ⟨fuel', rfl⟩ : ∃ f, fuel = f + 1 := ⟨fuel - 1, by omega⟩
    unfold gicv2.cpuif.eoi_walk
    by_cases h : prev iter cpu = VCML_ARM_GICv2_SPURIOUS_IRQ
    · simp [h]
    · have h0 : prev iter cpu ≠ irq := hnot 0 (by omega)
      simp only [ne_eq, h, not_false_eq_true, if_true, h0, if_false]
      apply ih (prev iter cpu) fuel'
      · rw [← Function.iterate_succ_apply (fun i => prev i cpu) (n + 1) iter]
        exact hend
      · intro k hk
        rw [← Function.iterate_succ_apply (fun i => prev i cpu) (k + 1) iter]
        exact hnot (k + 1) (by omega)
      · omega

/-- C9: an out-of-range EOI is ignored on both paths.  For every state,
executing processor and written value: if the low 10 bits of the value are at
least the line count, `cpuif::write_EOIR` returns (for every fuel) with the
state unchanged; if the low 9 bits are at least the line count,
`vcpuif::write_EOIR` returns 0 with the state unchanged. -/
theorem C9_out_of_range_EOI_ignored (pow2_log2 : Nat → Nat) (s : gicv2) (fuel : Nat)
    (current_cpu : Int) (val : Nat) :
    (val &&& 0x3FF ≥ s.m_irq_num →
      gicv2.cpuif.write_EOIR s fuel current_cpu val = some s) ∧
    (val &&& 0x1FF ≥ s.m_irq_num →
      gicv2.vcpuif.write_EOIR pow2_log2 s current_cpu val = (0, s)) := by
  constructor
  · intro h
    unfold gicv2.cpuif.write_EOIR
    have h2 : val &&& 0x3FF ≥ s.get_irq_num := h
    by_cases hc : s.CPUIF.m_curr_irq (cpu_or_zero current_cpu) = VCML_ARM_GICv2_SPURIOUS_IRQ
    · simp only [hc, if_true]
    · simp only [hc, if_false, h2, if_true]
  · intro h
    unfold gicv2.vcpuif.write_EOIR
    have h2 : val &&& 0x1FF ≥ s.get_irq_num := h
    simp only [h2, if_true]

/-- C10: EOI of a line that is not in the resume chain changes nothing.  If
the resume chain of `cpu` reaches the spurious id after `n` steps (`n` = 0: no
line is running), and the in-range line written is neither `m_curr_irq[cpu]`
nor the resume-to entry of any of the first `n` lines of the chain, then
`cpuif::write_EOIR` returns for every fuel of at least `n` and leaves the whole
state unchanged, in particular `m_curr_irq`, every `m_prev_irq` entry, `PRIO`
and all enable, pending and active bits. -/
theorem C10_EOI_of_line_not_in_chain (s : gicv2) (cpu val n fuel : Nat)
    (hend : gicv2.cpuif.chain_at s cpu n = VCML_ARM_GICv2_SPURIOUS_IRQ)
    (hlt : val &&& 0x3FF < s.m_irq_num)
    (hne : val &&& 0x3FF ≠ s.CPUIF.m_curr_irq cpu)
    (hnot : ∀ k, k < n →
      s.CPUIF.m_prev_irq (gicv2.cpuif.chain_at s cpu k) cpu ≠ val &&& 0x3FF)
    (hfuel : n ≤ fuel) :
    gicv2.cpuif.write_EOIR s fuel cpu val = some s := by
  unfold gicv2.cpuif.write_EOIR
  rw [cpu_or_zero_natCast]
  by_cases hc : s.CPUIF.m_curr_irq cpu = VCML_ARM_GICv2_SPURIOUS_IRQ
  · simp only [hc, if_true]
  · have h2 : ¬ (val &&& 0x3FF ≥ s.get_irq_num) := by
      unfold gicv2.get_irq_num; omega
    simp only [hc, if_false, h2, hne]
    obtain ⟨m, rfl⟩ : ∃ m, n = m + 1 := by
      cases n with
      | zero => exact absurd hend hc
      | succ m => exact ⟨m, rfl⟩
    have hw := eoi_walk_not_found cpu (val &&& 0x3FF) s.CPUIF.m_prev_irq m
      (s.CPUIF.m_curr_irq cpu) fuel hend
      (fun k hk => by
        have := hnot k hk
        unfold gicv2.cpuif.chain_at at this
        rw [Function.iterate_succ_apply']
        exact this)
      hfuel
    rw [hw]
    rfl

/-! ## Instances on concrete states -/

theorem chain_frame_set_pending_update (s : gicv2) (cpu irq : Nat) (b : Bool) (m : Nat) :
    gicv2.chain_frame cpu s ((s.set_irq_pending irq b m).update false) := by
  refine ⟨?_, ?_, ?_, ?_, ?_, ?_⟩
  · rw [update_false_m_curr_irq]; rfl
  · intro j; rw [update_false_m_prev_irq]; rfl
  · rw [update_false_running_prio]; rfl
  · rw [update_false_m_irq_num]; rfl
  · intro j; rw [update_false_get_irq_priority]; rfl
  · intro j
    unfold gicv2.is_irq_active
    rw [update_false_m_irq_state]
    unfold gicv2.set_irq_pending
    simp only [Function.update_apply]
    split
    · rename_i h; subst h; rfl
    · rfl

theorem C1_witness :
    (0 < scenario_AB.m_cpu_num ∧ VCML_ARM_GICv2_PRIV ≤ scenario_AB.m_irq_num ∧
      scenario_AB.m_irq_num ≤ VCML_ARM_GICv2_NIRQ ∧ scenario_AB.CPUIF.IPMR 0 ≤ 0xFF ∧
      scenario_AB.DISTIF.CTLR ≠ 0 ∧ scenario_AB.CPUIF.CTLR 0 ≠ 0) ∧
    (scenario_AB.update false).CPUIF.PEND 0 = 33 ∧
    scenario_AB.is_candidate 0 ((scenario_AB.update false).CPUIF.PEND 0) = true ∧
    (∀ j, scenario_AB.is_candidate 0 j = true →
      scenario_AB.get_irq_priority 0 ((scenario_AB.update false).CPUIF.PEND 0) ≤
        scenario_AB.get_irq_priority 0 j) ∧
    (∀ j, scenario_AB.is_candidate 0 j = true →
      scenario_AB.get_irq_priority 0 j =
        scenario_AB.get_irq_priority 0 ((scenario_AB.update false).CPUIF.PEND 0) →
      (scenario_AB.update false).CPUIF.PEND 0 ≤ j) :=
  ⟨by decide, by decide,
    (C1_update_selects_by_priority_then_scan_order scenario_AB 0 (by decide) (by decide) (by decide)
      (by decide) (by decide) (by decide)).1 ⟨33, by decide, by decide⟩⟩

theorem C2_witness :
    (0 < scenario_AB.m_cpu_num ∧ VCML_ARM_GICv2_PRIV ≤ scenario_AB.m_irq_num ∧
      scenario_AB.m_irq_num ≤ VCML_ARM_GICv2_NIRQ ∧ scenario_AB.CPUIF.IPMR 0 ≤ 0xFF) ∧
    (scenario_AB.update false).IRQ_OUT 0 = true :=
  ⟨by decide,
    (C2_update_output_rule scenario_AB 0 (by decide) (by decide) (by decide) (by decide)).1.mpr
      ⟨by decide, by decide, 33, by decide, by decide, by decide⟩⟩

theorem C3_witness :
    (0 < VCML_ARM_GICv2_NCPU ∧ scenario_A.m_irq_num ≤ VCML_ARM_GICv2_NIRQ ∧
      scenario_A.CPUIF.PEND 0 = 32 ∧ VCML_ARM_GICv2_NSGI ≤ 32 ∧ 32 < scenario_A.m_irq_num ∧
      scenario_A.get_irq_priority 0 32 < scenario_A.CPUIF.PRIO 0) ∧
    ((gicv2.cpuif.read_IACK scenario_A 0).1 = 32 ∧
      (gicv2.cpuif.read_IACK scenario_A 0).2.is_irq_pending 32 (1 <<< 0) = false ∧
      (gicv2.cpuif.read_IACK scenario_A 0).2.is_irq_active 32 (1 <<< 0) = true ∧
      (gicv2.cpuif.read_IACK scenario_A 0).2.CPUIF.m_prev_irq 32 0 = scenario_A.CPUIF.m_curr_irq 0 ∧
      (gicv2.cpuif.read_IACK scenario_A 0).2.CPUIF.m_curr_irq 0 = 32 ∧
      gicv2.cpuif.PRIO (gicv2.cpuif.read_IACK scenario_A 0).2.CPUIF 0 =
        (gicv2.cpuif.read_IACK scenario_A 0).2.get_irq_priority 0 32 ∧
      (gicv2.cpuif.read_IACK scenario_A 0).2.get_irq_priority 0 32 =
        scenario_A.get_irq_priority 0 32) :=
  ⟨by decide,
    C3_read_IACK_acknowledges_line scenario_A 0 32 (by decide) (by decide) (by decide) (by decide)
      (by decide) (by decide)⟩

theorem C4_witness :
    (scenario_base.CPUIF.PEND 0 = VCML_ARM_GICv2_SPURIOUS_IRQ ∨
      ¬ scenario_base.get_irq_priority 0 (scenario_base.CPUIF.PEND 0) < scenario_base.CPUIF.PRIO 0) ∧
    gicv2.cpuif.read_IACK scenario_base 0 = (VCML_ARM_GICv2_SPURIOUS_IRQ, scenario_base) :=
  ⟨by decide, C4_read_IACK_spurious_no_side_effects scenario_base 0 (by decide)⟩

theorem C5_witness :
    (scenario_A.get_irq_priority 0 33 < scenario_A.get_irq_priority 0 32 ∧
      scenario_A.get_irq_priority 0 32 < scenario_A.CPUIF.PRIO 0 ∧
      scenario_A.CPUIF.PEND 0 = 32 ∧ scenario_B.CPUIF.PEND 0 = 33) ∧
    ((gicv2.cpuif.read_IACK scenario_A 0).2.CPUIF.m_curr_irq 0 = 32 ∧
      (gicv2.cpuif.read_IACK scenario_B 0).2.CPUIF.m_curr_irq 0 = 33 ∧
      ∃ s4, gicv2.cpuif.write_EOIR (gicv2.cpuif.read_IACK scenario_B 0).2 0 0 33 = some s4 ∧
        s4.CPUIF.m_curr_irq 0 = 32 ∧
        gicv2.cpuif.PRIO s4.CPUIF 0 = s4.get_irq_priority 0 32 ∧
        s4.get_irq_priority 0 32 = scenario_A.get_irq_priority 0 32 ∧
        s4.is_irq_active 33 (1 <<< 0) = false ∧
        s4.is_irq_active 32 (1 <<< 0) = true) :=
  ⟨by decide,
    C5_preemption_round_trip scenario_A scenario_B 0 32 33 0 (by decide) (by decide) (by decide)
      (by decide) (by decide) (by decide) (by decide)
      (chain_frame_set_pending_update _ 0 33 true 1) (by decide)⟩

theorem C6_witness :
    (scenario_A.CPUIF.m_curr_irq 0 = VCML_ARM_GICv2_SPURIOUS_IRQ ∧
      scenario_A.get_irq_priority 0 34 < scenario_A.get_irq_priority 0 33 ∧
      scenario_A.get_irq_priority 0 33 < scenario_A.get_irq_priority 0 32 ∧
      scenario_A.get_irq_priority 0 32 < scenario_A.CPUIF.PRIO 0 ∧
      scenario_A.CPUIF.PEND 0 = 32 ∧ scenario_B.CPUIF.PEND 0 = 33 ∧ scenario_C.CPUIF.PEND 0 = 34) ∧
    (∃ s6 s7 s8,
      gicv2.cpuif.write_EOIR (gicv2.cpuif.read_IACK scenario_C 0).2 (0 + 1) 0 33 = some s6 ∧
      s6.CPUIF.m_curr_irq 0 = 34 ∧
      gicv2.cpuif.PRIO s6.CPUIF 0 = s6.get_irq_priority 0 34 ∧
      s6.CPUIF.m_prev_irq 34 0 = 32 ∧
      gicv2.cpuif.write_EOIR s6 0 0 34 = some s7 ∧
      s7.CPUIF.m_curr_irq 0 = 32 ∧
      gicv2.cpuif.PRIO s7.CPUIF 0 = s7.get_irq_priority 0 32 ∧
      gicv2.cpuif.write_EOIR s7 0 0 32 = some s8 ∧
      s8.CPUIF.m_curr_irq 0 = VCML_ARM_GICv2_SPURIOUS_IRQ) :=
  ⟨by decide,
    C6_out_of_order_EOI_splice scenario_A scenario_B scenario_C 0 32 33 34 0 (by decide) (by decide)
      (by decide) (by decide) (by decide) (by decide) (by decide) (by decide) (by decide)
      (by decide) (chain_frame_set_pending_update _ 0 33 true 1) (by decide)
      (chain_frame_set_pending_update _ 0 34 true 1) (by decide)⟩

theorem C9_witness :
    (100 &&& 0x3FF ≥ scenario_B_ack.m_irq_num ∧ 100 &&& 0x1FF ≥ scenario_B_ack.m_irq_num) ∧
    gicv2.cpuif.write_EOIR scenario_B_ack 0 0 100 = some scenario_B_ack ∧
    gicv2.vcpuif.write_EOIR id scenario_B_ack 0 100 = (0, scenario_B_ack) :=
  ⟨by decide,
    (C9_out_of_range_EOI_ignored id scenario_B_ack 0 0 100).1 (by decide),
    (C9_out_of_range_EOI_ignored id scenario_B_ack 0 0 100).2 (by decide)⟩

theorem C10_witness :
    (gicv2.cpuif.chain_at scenario_B_ack 0 2 = VCML_ARM_GICv2_SPURIOUS_IRQ ∧
      34 &&& 0x3FF < scenario_B_ack.m_irq_num ∧
      34 &&& 0x3FF ≠ scenario_B_ack.CPUIF.m_curr_irq 0 ∧
      (∀ k, k < 2 →
        scenario_B_ack.CPUIF.m_prev_irq (gicv2.cpuif.chain_at scenario_B_ack 0 k) 0 ≠ 34 &&& 0x3FF)) ∧
    gicv2.cpuif.write_EOIR scenario_B_ack 2 0 34 = some scenario_B_ack :=
  ⟨by decide,
    C10_EOI_of_line_not_in_chain scenario_B_ack 0 34 2 2 (by decide) (by decide) (by decide)
      (by decide) (by decide)⟩

/-- C7: acknowledging a line on an idle processor and ending it leaves no
running line, but the running-priority register then holds 0x100, not the idle
priority 0xFF it holds after reset: `cpuif::set_current_irq` stores the
constant 0x100 for the spurious id.  Evaluated on a single-processor
controller with line 32 pending at priority 0x30. -/
theorem C7_running_priority_after_EOI_is_0x100 :
    scenario_A.CPUIF.m_curr_irq 0 = VCML_ARM_GICv2_SPURIOUS_IRQ ∧
    (gicv2.cpuif.read_IACK scenario_A 0).1 = 32 ∧
    (gicv2.cpuif.write_EOIR (gicv2.cpuif.read_IACK scenario_A 0).2 0 0 32).map
        (fun t => (t.CPUIF.m_curr_irq 0, gicv2.cpuif.PRIO t.CPUIF 0)) =
      some (VCML_ARM_GICv2_SPURIOUS_IRQ, 0x100) ∧
    gicv2.cpuif.PRIO (gicv2.elaborated 1 35).CPUIF 0 = VCML_ARM_GICv2_IDLE_PRIO ∧
    VCML_ARM_GICv2_IDLE_PRIO = 0xFF := by
  decide

/-- C8: `cpuif::write_EOIR` of the running line runs arbitration (inside
`set_current_irq`) before it clears the active bit, so the registers it leaves
are not those of a fresh `update(false)`.  Evaluated where line 32 is running,
active and pending again: after the EOI the active bit is clear, `PEND` is the
spurious id and `IRQ_OUT` is low, while `update(false)` on that state gives
`PEND` = 32 and `IRQ_OUT` high. -/
theorem C8_EOI_arbitrates_before_clearing_active :
    scenario_A_again.CPUIF.m_curr_irq 0 = 32 ∧
    scenario_A_again.is_irq_active 32 (1 <<< 0) = true ∧
    scenario_A_again.is_irq_pending 32 (1 <<< 0) = true ∧
    (gicv2.cpuif.write_EOIR scenario_A_again 0 0 32).map
        (fun t => (t.is_irq_active 32 (1 <<< 0), t.CPUIF.PEND 0, t.IRQ_OUT 0,
          (t.update false).CPUIF.PEND 0, (t.update false).IRQ_OUT 0)) =
      some (false, VCML_ARM_GICv2_SPURIOUS_IRQ, false, 32, true) := by
  decide

/-! ## Loops, software-generated interrupts and in-order EOI -/

set_option maxRecDepth 100000 in
theorem ctz32_u8 : ∀ x, x < 256 → (x ≠ 0 →
    ctz32 x < 8 ∧ x.testBit (ctz32 x) = true ∧ ∀ j, j < ctz32 x → x.testBit j = false) := by
  decide

theorem for_range_succ {α : Type} (lo hi : Nat) (f : Nat → α → α) (init : α) (h : lo ≤ hi) :
    for_range lo (hi + 1) f init = f hi (for_range lo hi f init) := by
  unfold for_range
  have e : hi + 1 - lo = (hi - lo) + 1 := by omega
  rw [e, List.range'_1_concat, List.foldl_append]
  have e2 : lo + (hi - lo) = hi := by omega
  simp [e2]

theorem for_range_self {α : Type} (lo : Nat) (f : Nat → α → α) (init : α) :
    for_range lo lo f init = init := by
  unfold for_range
  simp

theorem for_range_invariant {α : Type} (P : α → Prop) (lo hi : Nat) (f : Nat → α → α) (init : α)
    (h0 : P init) (hstep : ∀ i a, lo ≤ i → i < hi → P a → P (f i a)) :
    P (for_range lo hi f init) := by
  by_cases hle : lo ≤ hi
  · obtain ⟨d, rfl⟩ : ∃ d, hi = lo + d := ⟨hi - lo, by omega⟩
    clear hle
    induction d with
    | zero => rw [Nat.add_zero, for_range_self]; exact h0
    | succ d ih =>
      rw [← Nat.add_assoc, for_range_succ lo (lo + d) f init (by omega)]
      apply hstep _ _ (by omega) (by omega)
      exact ih (fun i a h1 h2 => hstep i a h1 (by omega))
  · have : hi - lo = 0 := by omega
    unfold for_range
    rw [this]
    exact h0

theorem is_irq_pending_eq_testBit (s : gicv2) (irq cpu : Nat) :
    s.is_irq_pending irq (1 <<< cpu) = ((s.m_irq_state irq).pending).testBit cpu := by
  unfold gicv2.is_irq_pending
  exact and_one_shiftLeft_ne_zero _ _

theorem is_irq_enabled_eq_testBit (s : gicv2) (irq cpu : Nat) :
    s.is_irq_enabled irq (1 <<< cpu) = ((s.m_irq_state irq).enabled).testBit cpu := by
  unfold gicv2.is_irq_enabled
  exact and_one_shiftLeft_ne_zero _ _

theorem get_irq_level_eq_testBit (s : gicv2) (irq cpu : Nat) :
    s.get_irq_level irq (1 <<< cpu) = ((s.m_irq_state irq).level).testBit cpu := by
  unfold gicv2.get_irq_level
  exact and_one_shiftLeft_ne_zero _ _

/-- C11: in-order EOI touches only the ended line.  When processor `cpu` has a
running line `L = m_curr_irq[cpu]` (not the spurious id, below the line count)
and writes a value whose id field is `L`, `cpuif::write_EOIR` returns a state
in which the active bit of `L` for `cpu` is clear and `m_curr_irq[cpu]` is
`m_prev_irq[L][cpu]`; the active bits of `L` for every other processor, the
enable and pending bits of `L`, the whole table entry of every other line,
every `m_prev_irq` entry and the running line of every other processor are
unchanged. -/
theorem C11_in_order_EOI_touches_only_ended_line (s : gicv2) (fuel cpu val : Nat)
    (hcur : s.CPUIF.m_curr_irq cpu ≠ VCML_ARM_GICv2_SPURIOUS_IRQ)
    (hval : val &&& 0x3FF = s.CPUIF.m_curr_irq cpu)
    (hlt : s.CPUIF.m_curr_irq cpu < s.m_irq_num) :
    ∃ t, gicv2.cpuif.write_EOIR s fuel cpu val = some t ∧
      t.is_irq_active (s.CPUIF.m_curr_irq cpu) (1 <<< cpu) = false ∧
      t.CPUIF.m_curr_irq cpu = s.CPUIF.m_prev_irq (s.CPUIF.m_curr_irq cpu) cpu ∧
      (∀ c, c ≠ cpu → c < VCML_ARM_GICv2_NCPU →
        t.is_irq_active (s.CPUIF.m_curr_irq cpu) (1 <<< c) =
          s.is_irq_active (s.CPUIF.m_curr_irq cpu) (1 <<< c)) ∧
      (t.m_irq_state (s.CPUIF.m_curr_irq cpu)).enabled =
        (s.m_irq_state (s.CPUIF.m_curr_irq cpu)).enabled ∧
      (t.m_irq_state (s.CPUIF.m_curr_irq cpu)).pending =
        (s.m_irq_state (s.CPUIF.m_curr_irq cpu)).pending ∧
      (∀ j, j ≠ s.CPUIF.m_curr_irq cpu → t.m_irq_state j = s.m_irq_state j) ∧
      t.CPUIF.m_prev_irq = s.CPUIF.m_prev_irq ∧
      (∀ c, c ≠ cpu → t.CPUIF.m_curr_irq c = s.CPUIF.m_curr_irq c) := by
  refine ⟨(gicv2.cpuif.set_current_irq s cpu
      (s.CPUIF.m_prev_irq (s.CPUIF.m_curr_irq cpu) cpu)).set_irq_active
        (s.CPUIF.m_curr_irq cpu) false (1 <<< cpu), ?_, ?_, ?_, ?_, ?_, ?_, ?_, ?_, ?_⟩
  · unfold gicv2.cpuif.write_EOIR
    rw [cpu_or_zero_natCast]
    have h2 : ¬ (s.CPUIF.m_curr_irq cpu ≥ s.get_irq_num) := by
      unfold gicv2.get_irq_num; omega
    simp only [hcur, if_false, hval, h2, if_true]
  · rw [is_irq_active_eq_testBit]
    simp only [gicv2.set_irq_active, set_current_irq_m_irq_state, Function.update_same,
      Bool.false_eq_true, if_false]
    rw [testBit_u8_clear_bits, testBit_one_shiftLeft_self]
    simp
  · simp only [gicv2.set_irq_active, set_current_irq_m_curr_irq, Function.update_same]
  · intro c hc hc8
    rw [is_irq_active_eq_testBit, is_irq_active_eq_testBit]
    simp only [gicv2.set_irq_active, set_current_irq_m_irq_state, Function.update_same,
      Bool.false_eq_true, if_false]
    rw [testBit_u8_clear_bits, Nat.one_shiftLeft, Nat.testBit_two_pow]
    have h1 : decide (c < 8) = true := decide_eq_true hc8
    have h2 : decide (cpu = c) = false := decide_eq_false (fun h => hc h.symm)
    rw [h1, h2]
    simp
  · simp only [gicv2.set_irq_active, set_current_irq_m_irq_state, Function.update_same]
  · simp only [gicv2.set_irq_active, set_current_irq_m_irq_state, Function.update_same]
  · intro j hj
    simp only [gicv2.set_irq_active, set_current_irq_m_irq_state]
    rw [Function.update_noteq hj]
  · simp only [gicv2.set_irq_active, set_current_irq_m_prev_irq]
  · intro c hc
    simp only [gicv2.set_irq_active, set_current_irq_m_curr_irq]
    rw [Function.update_noteq hc]

theorem read_IACK_ok_DISTIF (s : gicv2) (cpu : Nat)
    (h1 : s.CPUIF.PEND cpu ≠ VCML_ARM_GICv2_SPURIOUS_IRQ)
    (h2 : s.get_irq_priority cpu (s.CPUIF.PEND cpu) < s.CPUIF.PRIO cpu) :
    (gicv2.cpuif.read_IACK s cpu).2.DISTIF =
      (gicv2.cpuif.ack_pending s cpu (s.CPUIF.PEND cpu)
        (gicv2.cpuif.ack_mask s cpu (s.CPUIF.PEND cpu))).2.DISTIF := by
  rw [read_IACK_ok s cpu h1 h2]
  simp only [gicv2.set_irq_signaled, gicv2.set_irq_active, set_current_irq_DISTIF]

theorem read_IACK_ok_pending (s : gicv2) (cpu j : Nat)
    (h1 : s.CPUIF.PEND cpu ≠ VCML_ARM_GICv2_SPURIOUS_IRQ)
    (h2 : s.get_irq_priority cpu (s.CPUIF.PEND cpu) < s.CPUIF.PRIO cpu) :
    ((gicv2.cpuif.read_IACK s cpu).2.m_irq_state j).pending =
      ((gicv2.cpuif.ack_pending s cpu (s.CPUIF.PEND cpu)
        (gicv2.cpuif.ack_mask s cpu (s.CPUIF.PEND cpu))).2.m_irq_state j).pending := by
  rw [read_IACK_ok s cpu h1 h2]
  simp only [gicv2.set_irq_signaled, gicv2.set_irq_active, set_current_irq_m_irq_state,
    Function.update_apply]
  by_cases hj : j = s.CPUIF.PEND cpu
  · subst hj; simp only [if_true]
  · simp only [hj, if_false]

theorem set_sgi_pending_clear_SGIS (s : gicv2) (v sgi cpu : Nat) :
    (gicv2.distif.set_sgi_pending s v sgi cpu false).DISTIF.SGIS cpu sgi =
      u8_clear_bits (s.DISTIF.SGIS cpu sgi) v := by
  simp [gicv2.distif.set_sgi_pending]

theorem set_sgi_pending_clear_SGIC (s : gicv2) (v sgi cpu : Nat) :
    (gicv2.distif.set_sgi_pending s v sgi cpu false).DISTIF.SGIC cpu sgi =
      u8_clear_bits (s.DISTIF.SGIC cpu sgi) v := by
  simp [gicv2.distif.set_sgi_pending]

theorem testBit_of_lt_256 (x i : Nat) (hx : x < 256) (hi : 8 ≤ i) : x.testBit i = false := by
  apply Nat.testBit_lt_two_pow
  calc x < 2 ^ 8 := hx
    _ ≤ 2 ^ i := Nat.pow_le_pow_right (by decide) hi

theorem one_shiftLeft_mod_256 (k : Nat) (hk : k < 8) : (1 <<< k) % 256 = 1 <<< k := by
  apply Nat.mod_eq_of_lt
  rw [Nat.one_shiftLeft]
  calc 2 ^ k < 2 ^ 8 := Nat.pow_lt_pow_right (by decide) hk
    _ = 256 := rfl

/-- Clearing the lowest set bit `k` of a `u8` mask: the bits of the result. -/
theorem testBit_clear_lowest (x k i : Nat) (hx : x < 256) (hk : k < 8) :
    (u8_clear_bits x ((1 <<< k) % 256)).testBit i = (x.testBit i && decide (i ≠ k)) := by
  rw [one_shiftLeft_mod_256 k hk, testBit_u8_clear_bits, Nat.one_shiftLeft, Nat.testBit_two_pow]
  by_cases hi : i < 8
  · by_cases hik : k = i
    · subst hik; simp [hi]
    · have : i ≠ k := fun h => hik h.symm
      simp [hi, hik, this]
  · rw [testBit_of_lt_256 x i hx (by omega)]
    simp

/-- C13: acknowledge of an SGI consumes exactly one source.  Let SGI `n` be the
line `cpuif::read_IACK` acknowledges for processor `cpu` (it is `PEND[cpu]`
and its priority is below the running priority), with a non-zero 8-bit source
mask `SGIS.bank(cpu, n)` mirrored in `SGIC.bank(cpu, n)`.  With `k = ctz32` of
that mask, `k` is the index of its lowest set bit, the returned value is
`n | (k << 10)`, afterwards `SGIS.bank(cpu, n)` is the old mask with bit `k`
cleared and `SGIC.bank(cpu, n)` equals it, the pending bit of `n` for `cpu` is
cleared when the mask had no other bit set, and the pending bits of `n` are
unchanged when it had another bit set. -/
theorem C13_SGI_acknowledge_consumes_one_source (s : gicv2) (cpu n : Nat)
    (hcpu : cpu < VCML_ARM_GICv2_NCPU) (hn : n < VCML_ARM_GICv2_NSGI)
    (hpend : s.CPUIF.PEND cpu = n)
    (hprio : s.get_irq_priority cpu n < s.CPUIF.PRIO cpu)
    (hsrc : s.DISTIF.SGIS cpu n ≠ 0) (hu8 : s.DISTIF.SGIS cpu n < 256)
    (hmirror : s.DISTIF.SGIC cpu n = s.DISTIF.SGIS cpu n) :
    ((s.DISTIF.SGIS cpu n).testBit (ctz32 (s.DISTIF.SGIS cpu n)) = true ∧
      ∀ j, j < ctz32 (s.DISTIF.SGIS cpu n) → (s.DISTIF.SGIS cpu n).testBit j = false) ∧
    (gicv2.cpuif.read_IACK s cpu).1 = n ||| (ctz32 (s.DISTIF.SGIS cpu n) <<< 10) ∧
    (∀ i, ((gicv2.cpuif.read_IACK s cpu).2.DISTIF.SGIS cpu n).testBit i =
      ((s.DISTIF.SGIS cpu n).testBit i && decide (i ≠ ctz32 (s.DISTIF.SGIS cpu n)))) ∧
    (gicv2.cpuif.read_IACK s cpu).2.DISTIF.SGIC cpu n =
      (gicv2.cpuif.read_IACK s cpu).2.DISTIF.SGIS cpu n ∧
    ((∀ i, i ≠ ctz32 (s.DISTIF.SGIS cpu n) → (s.DISTIF.SGIS cpu n).testBit i = false) →
      (gicv2.cpuif.read_IACK s cpu).2.is_irq_pending n (1 <<< cpu) = false) ∧
    ((∃ i, i ≠ ctz32 (s.DISTIF.SGIS cpu n) ∧ (s.DISTIF.SGIS cpu n).testBit i = true) →
      ((gicv2.cpuif.read_IACK s cpu).2.m_irq_state n).pending = (s.m_irq_state n).pending) := by
  subst hpend
  have hS : VCML_ARM_GICv2_SPURIOUS_IRQ = 1023 := rfl
  have hG : VCML_ARM_GICv2_NSGI = 16 := rfl
  have h1 : s.CPUIF.PEND cpu ≠ VCML_ARM_GICv2_SPURIOUS_IRQ := by omega
  have hsw : is_software_interrupt (s.CPUIF.PEND cpu) = true := by
    unfold is_software_interrupt
    exact decide_eq_true hn
  obtain ⟨hk8, hkset, hklow⟩ := ctz32_u8 _ hu8 hsrc
  have hk7 : ctz32 (s.DISTIF.SGIS cpu (s.CPUIF.PEND cpu)) &&& 0x7 =
      ctz32 (s.DISTIF.SGIS cpu (s.CPUIF.PEND cpu)) :=
    Nat.and_pow_two_sub_one_of_lt_two_pow (n := 3) hk8
  -- the source registers after the acknowledge
  have hSGIS : (gicv2.cpuif.read_IACK s cpu).2.DISTIF.SGIS cpu (s.CPUIF.PEND cpu) =
      u8_clear_bits (s.DISTIF.SGIS cpu (s.CPUIF.PEND cpu))
        ((1 <<< ctz32 (s.DISTIF.SGIS cpu (s.CPUIF.PEND cpu))) % 256) := by
    rw [read_IACK_ok_DISTIF s cpu h1 hprio]
    unfold gicv2.cpuif.ack_pending
    simp only [hsw, if_true]
    split
    · exact set_sgi_pending_clear_SGIS _ _ _ _
    · exact set_sgi_pending_clear_SGIS _ _ _ _
  have hSGIC : (gicv2.cpuif.read_IACK s cpu).2.DISTIF.SGIC cpu (s.CPUIF.PEND cpu) =
      u8_clear_bits (s.DISTIF.SGIC cpu (s.CPUIF.PEND cpu))
        ((1 <<< ctz32 (s.DISTIF.SGIS cpu (s.CPUIF.PEND cpu))) % 256) := by
    rw [read_IACK_ok_DISTIF s cpu h1 hprio]
    unfold gicv2.cpuif.ack_pending
    simp only [hsw, if_true]
    split
    · exact set_sgi_pending_clear_SGIC _ _ _ _
    · exact set_sgi_pending_clear_SGIC _ _ _ _
  have hbits : ∀ i, (u8_clear_bits (s.DISTIF.SGIS cpu (s.CPUIF.PEND cpu))
      ((1 <<< ctz32 (s.DISTIF.SGIS cpu (s.CPUIF.PEND cpu))) % 256)).testBit i =
      ((s.DISTIF.SGIS cpu (s.CPUIF.PEND cpu)).testBit i &&
        decide (i ≠ ctz32 (s.DISTIF.SGIS cpu (s.CPUIF.PEND cpu)))) :=
    fun i => testBit_clear_lowest _ _ i hu8 hk8
  -- the pending mask after the acknowledge
  have hP : ((gicv2.cpuif.read_IACK s cpu).2.m_irq_state (s.CPUIF.PEND cpu)).pending =
      if u8_clear_bits (s.DISTIF.SGIS cpu (s.CPUIF.PEND cpu))
          ((1 <<< ctz32 (s.DISTIF.SGIS cpu (s.CPUIF.PEND cpu))) % 256) = 0 then
        u8_clear_bits (s.m_irq_state (s.CPUIF.PEND cpu)).pending
          (gicv2.cpuif.ack_mask s cpu (s.CPUIF.PEND cpu))
      else (s.m_irq_state (s.CPUIF.PEND cpu)).pending := by
    rw [read_IACK_ok_pending s cpu _ h1 hprio]
    unfold gicv2.cpuif.ack_pending
    simp only [hsw, if_true, set_sgi_pending_clear_SGIS]
    split
    · simp only [gicv2.set_irq_pending, set_sgi_pending_m_irq_state, Function.update_same,
        Bool.false_eq_true, if_false]
    · rw [set_sgi_pending_m_irq_state]
  refine ⟨⟨hkset, hklow⟩, ?_, ?_, ?_, ?_, ?_⟩
  · rw [read_IACK_ok s cpu h1 hprio]
    simp only [gicv2.cpuif.ack_pending, hsw, if_true, hk7]
    exact Nat.lor_comm _ _
  · intro i
    rw [hSGIS]
    exact hbits i
  · rw [hSGIS, hSGIC, hmirror]
  · intro hnone
    have hz : u8_clear_bits (s.DISTIF.SGIS cpu (s.CPUIF.PEND cpu))
        ((1 <<< ctz32 (s.DISTIF.SGIS cpu (s.CPUIF.PEND cpu))) % 256) = 0 := by
      apply Nat.eq_of_testBit_eq
      intro i
      rw [hbits i, Nat.zero_testBit]
      by_cases hi : i = ctz32 (s.DISTIF.SGIS cpu (s.CPUIF.PEND cpu))
      · simp [hi]
      · rw [hnone i hi]; rfl
    rw [is_irq_pending_eq_testBit, hP, if_pos hz, testBit_u8_clear_bits,
      ack_mask_testBit s cpu _ hcpu]
    simp
  · rintro ⟨i, hi, hset⟩
    have hnz : u8_clear_bits (s.DISTIF.SGIS cpu (s.CPUIF.PEND cpu))
        ((1 <<< ctz32 (s.DISTIF.SGIS cpu (s.CPUIF.PEND cpu))) % 256) ≠ 0 := by
      intro hz
      have := hbits i
      rw [hz, Nat.zero_testBit, hset] at this
      simp [hi] at this
    rw [hP, if_neg hnz]

theorem and_one_shiftLeft_ne_zero_iff (x i : Nat) : x &&& (1 <<< i) ≠ 0 ↔ x.testBit i = true := by
  rw [← and_one_shiftLeft_ne_zero]
  simp

theorem set_sgi_pending_set_SGIS (s : gicv2) (v sgi cpu c m : Nat) :
    (gicv2.distif.set_sgi_pending s v sgi cpu true).DISTIF.SGIS c m =
      if c = cpu ∧ m = sgi then u8_set_bits (s.DISTIF.SGIS c m) v else s.DISTIF.SGIS c m := by
  simp only [gicv2.distif.set_sgi_pending, if_true, Function.update_apply]
  by_cases hc : c = cpu
  · subst hc
    by_cases hm : m = sgi
    · subst hm; simp
    · simp [hm]
  · simp [hc]

theorem set_sgi_pending_set_SGIC (s : gicv2) (v sgi cpu c m : Nat) :
    (gicv2.distif.set_sgi_pending s v sgi cpu true).DISTIF.SGIC c m =
      if c = cpu ∧ m = sgi then u8_set_bits (s.DISTIF.SGIC c m) v else s.DISTIF.SGIC c m := by
  simp only [gicv2.distif.set_sgi_pending, if_true, Function.update_apply]
  by_cases hc : c = cpu
  · subst hc
    by_cases hm : m = sgi
    · subst hm; simp
    · simp [hm]
  · simp [hc]

/-- The source registers and the line table after the first `k` iterations of
the target loop of `distif::write_SCTL`. -/
theorem write_SCTL_loop (cpu n T : Nat) (s : gicv2) (k : Nat) :
    (for_range 0 k (gicv2.distif.write_SCTL_body cpu n T) s).m_irq_state = s.m_irq_state ∧
    (∀ c m, (for_range 0 k (gicv2.distif.write_SCTL_body cpu n T) s).DISTIF.SGIS c m =
      if (c < k ∧ T.testBit c = true) ∧ m = n then
        u8_set_bits (s.DISTIF.SGIS c m) ((1 <<< cpu) % 256)
      else s.DISTIF.SGIS c m) ∧
    (∀ c m, (for_range 0 k (gicv2.distif.write_SCTL_body cpu n T) s).DISTIF.SGIC c m =
      if (c < k ∧ T.testBit c = true) ∧ m = n then
        u8_set_bits (s.DISTIF.SGIC c m) ((1 <<< cpu) % 256)
      else s.DISTIF.SGIC c m) := by
  induction k with
  | zero =>
    rw [for_range_self]
    refine ⟨rfl, fun c m => ?_, fun c m => ?_⟩ <;> simp
  | succ k ih =>
    rw [for_range_succ 0 k _ _ (Nat.zero_le k)]
    obtain ⟨h1, h2, h3⟩ := ih
    generalize for_range 0 k (gicv2.distif.write_SCTL_body cpu n T) s = st at h1 h2 h3
    unfold gicv2.distif.write_SCTL_body
    by_cases hT : T.testBit k = true
    · have hT' : T &&& (1 <<< k) ≠ 0 := (and_one_shiftLeft_ne_zero_iff T k).mpr hT
      simp only [hT', ne_eq, not_false_eq_true, if_true]
      refine ⟨?_, fun c m => ?_, fun c m => ?_⟩
      · rw [set_sgi_pending_m_irq_state, h1]
      · rw [set_sgi_pending_set_SGIS, h2]
        by_cases hc : c = k
        · subst hc
          by_cases hm : m = n
          · have h4 : ¬ c < c := Nat.lt_irrefl c
            simp [hm, hT, h4]
          · simp [hm]
        · have hlt : c < k + 1 ↔ c < k := by omega
          simp [hc, hlt]
      · rw [set_sgi_pending_set_SGIC, h3]
        by_cases hc : c = k
        · subst hc
          by_cases hm : m = n
          · have h4 : ¬ c < c := Nat.lt_irrefl c
            simp [hm, hT, h4]
          · simp [hm]
        · have hlt : c < k + 1 ↔ c < k := by omega
          simp [hc, hlt]
    · have hT' : ¬ (T &&& (1 <<< k) ≠ 0) := fun h => hT ((and_one_shiftLeft_ne_zero_iff T k).mp h)
      simp only [hT', if_false]
      refine ⟨h1, fun c m => ?_, fun c m => ?_⟩
      · rw [h2]
        by_cases hc : c = k
        · subst hc
          have h4 : ¬ c < c := Nat.lt_irrefl c
          simp [hT, h4]
        · have hlt : c < k + 1 ↔ c < k := by omega
          simp [hlt]
      · rw [h3]
        by_cases hc : c = k
        · subst hc
          have h4 : ¬ c < c := Nat.lt_irrefl c
          simp [hT, h4]
        · have hlt : c < k + 1 ↔ c < k := by omega
          simp [hlt]

theorem set_irq_signaled_pending (t : gicv2) (i : Nat) (b : Bool) (m j : Nat) :
    ((t.set_irq_signaled i b m).m_irq_state j).pending = (t.m_irq_state j).pending := by
  unfold gicv2.set_irq_signaled
  simp only [Function.update_apply]
  split
  · rename_i h; subst h; rfl
  · rfl

/-- The pending masks and the source registers after `distif::write_SCTL`. -/
theorem write_SCTL_fields (s : gicv2) (cpu v : Nat) :
    (∀ j, ((gicv2.distif.write_SCTL s cpu v).m_irq_state j).pending =
      if j = v &&& 0x0F then
        u8_set_bits (s.m_irq_state j).pending (gicv2.distif.sctl_targets cpu v)
      else (s.m_irq_state j).pending) ∧
    (∀ c m, (gicv2.distif.write_SCTL s cpu v).DISTIF.SGIS c m =
      if (c < VCML_ARM_GICv2_NCPU ∧ (gicv2.distif.sctl_targets cpu v).testBit c = true) ∧
          m = v &&& 0x0F then
        u8_set_bits (s.DISTIF.SGIS c m) ((1 <<< cpu) % 256)
      else s.DISTIF.SGIS c m) ∧
    (∀ c m, (gicv2.distif.write_SCTL s cpu v).DISTIF.SGIC c m =
      if (c < VCML_ARM_GICv2_NCPU ∧ (gicv2.distif.sctl_targets cpu v).testBit c = true) ∧
          m = v &&& 0x0F then
        u8_set_bits (s.DISTIF.SGIC c m) ((1 <<< cpu) % 256)
      else s.DISTIF.SGIC c m) := by
  unfold gicv2.distif.write_SCTL
  rw [cpu_or_zero_natCast]
  simp only [Nat.shiftRight_zero, update_false_m_irq_state, update_false_DISTIF]
  obtain ⟨h1, h2, h3⟩ := write_SCTL_loop cpu (v &&& 0x0F) (gicv2.distif.sctl_targets cpu v)
    (s.set_irq_pending (v &&& 0x0F) true (gicv2.distif.sctl_targets cpu v)) VCML_ARM_GICv2_NCPU
  refine ⟨fun j => ?_, fun c m => ?_, fun c m => ?_⟩
  · rw [set_irq_signaled_pending, h1]
    simp only [gicv2.set_irq_pending, Function.update_apply]
    by_cases hj : j = v &&& 0x0F
    · subst hj; simp
    · simp [hj]
  · have e : ∀ (t : gicv2) (i : Nat) (b : Bool) (m' : Nat),
        (t.set_irq_signaled i b m').DISTIF = t.DISTIF := fun _ _ _ _ => rfl
    rw [e, h2]
    rfl
  · have e : ∀ (t : gicv2) (i : Nat) (b : Bool) (m' : Nat),
        (t.set_irq_signaled i b m').DISTIF = t.DISTIF := fun _ _ _ _ => rfl
    rw [e, h3]
    rfl

theorem sctl_targets_testBit (cpu v t : Nat) (hcpu : cpu < VCML_ARM_GICv2_NCPU)
    (hf : (v >>> 24) &&& 0x03 ≠ 3) :
    (gicv2.distif.sctl_targets cpu v).testBit t = gicv2.distif.sctl_delivers cpu v t := by
  unfold gicv2.distif.sctl_targets gicv2.distif.sctl_delivers
  have hN : VCML_ARM_GICv2_NCPU = 8 := rfl
  have hlt : (v >>> 24) &&& 0x03 < 4 := by
    have := @Nat.and_le_right (v >>> 24) 3
    omega
  by_cases h0 : (v >>> 24) &&& 0x03 = 0
  · simp [h0]
  · by_cases h1 : (v >>> 24) &&& 0x03 = 1
    · simp only [h1, if_true, Nat.one_ne_zero, if_false]
      rw [Nat.testBit_xor, testBit_ALL_CPU, Nat.one_shiftLeft, Nat.testBit_two_pow]
      by_cases ht : t < 8
      · by_cases hc : cpu = t
        · subst hc; simp [ht]
        · have : t ≠ cpu := fun h => hc h.symm
          simp [ht, hc, this]
      · have hc : cpu ≠ t := by omega
        simp [ht, hc]
    · have h2 : (v >>> 24) &&& 0x03 = 2 := by omega
      have e20 : ¬ (2 = 0) := by decide
      have e21 : ¬ (2 = 1) := by decide
      simp only [h2, e20, e21, if_false, if_true]
      rw [Nat.one_shiftLeft, Nat.testBit_two_pow]
      by_cases hc : cpu = t
      · subst hc; simp
      · have : t ≠ cpu := fun h => hc h.symm
        simp [hc, this]

/-- C14: SGI target-filter policies.  For a write of `v` to
`distif::write_SCTL` by processor `cpu` with a filter field other than 3 and
SGI id `n = v[3:0]`, and every processor `t`: when the policy addresses `t`
(filter 0 and `t` in the target list `v[23:16]`; filter 1 and `t` other than
the writer; filter 2 and `t` the writer) the pending bit of `n` for `t` is set
and source sub-bit `cpu` is recorded in `SGIS.bank(t, n)` and
`SGIC.bank(t, n)`, the other sub-bits staying as they were; when it does not,
the pending bit and both source masks of `n` for `t` are unchanged.  The
pending bits of every other line and the source masks of every other SGI are
unchanged. -/
theorem C14_SGI_target_filter_policies (s : gicv2) (cpu v t : Nat)
    (hcpu : cpu < VCML_ARM_GICv2_NCPU) (ht : t < VCML_ARM_GICv2_NCPU)
    (hf : (v >>> 24) &&& 0x03 ≠ 3) :
    (gicv2.distif.sctl_delivers cpu v t = true →
      (gicv2.distif.write_SCTL s cpu v).is_irq_pending (v &&& 0x0F) (1 <<< t) = true ∧
      ((gicv2.distif.write_SCTL s cpu v).DISTIF.SGIS t (v &&& 0x0F)).testBit cpu = true ∧
      ((gicv2.distif.write_SCTL s cpu v).DISTIF.SGIC t (v &&& 0x0F)).testBit cpu = true ∧
      (∀ i, i ≠ cpu → i < VCML_ARM_GICv2_NCPU →
        ((gicv2.distif.write_SCTL s cpu v).DISTIF.SGIS t (v &&& 0x0F)).testBit i =
          (s.DISTIF.SGIS t (v &&& 0x0F)).testBit i)) ∧
    (gicv2.distif.sctl_delivers cpu v t = false →
      (gicv2.distif.write_SCTL s cpu v).is_irq_pending (v &&& 0x0F) (1 <<< t) =
        s.is_irq_pending (v &&& 0x0F) (1 <<< t) ∧
      (gicv2.distif.write_SCTL s cpu v).DISTIF.SGIS t (v &&& 0x0F) =
        s.DISTIF.SGIS t (v &&& 0x0F) ∧
      (gicv2.distif.write_SCTL s cpu v).DISTIF.SGIC t (v &&& 0x0F) =
        s.DISTIF.SGIC t (v &&& 0x0F)) ∧
    (∀ j, j ≠ v &&& 0x0F →
      ((gicv2.distif.write_SCTL s cpu v).m_irq_state j).pending = (s.m_irq_state j).pending) ∧
    (∀ c m, m ≠ v &&& 0x0F →
      (gicv2.distif.write_SCTL s cpu v).DISTIF.SGIS c m = s.DISTIF.SGIS c m ∧
      (gicv2.distif.write_SCTL s cpu v).DISTIF.SGIC c m = s.DISTIF.SGIC c m) := by
  obtain ⟨hp, hS, hC⟩ := write_SCTL_fields s cpu v
  have hT := sctl_targets_testBit cpu v t hcpu hf
  have ht8 : decide (t < 8) = true := decide_eq_true ht
  have hc8 : decide (cpu < 8) = true := decide_eq_true hcpu
  have hbit : ((1 <<< cpu) % 256).testBit cpu = true := by
    rw [one_shiftLeft_mod_256 cpu hcpu]; exact testBit_one_shiftLeft_self cpu
  refine ⟨?_, ?_, ?_, ?_⟩
  · intro hd
    rw [← hT] at hd
    refine ⟨?_, ?_, ?_, ?_⟩
    · rw [is_irq_pending_eq_testBit, hp, if_pos rfl, testBit_u8_set_bits, hd, ht8]
      simp
    · rw [hS, if_pos ⟨⟨ht, hd⟩, rfl⟩, testBit_u8_set_bits, hbit, hc8]
      simp
    · rw [hC, if_pos ⟨⟨ht, hd⟩, rfl⟩, testBit_u8_set_bits, hbit, hc8]
      simp
    · intro i hi hi8
      rw [hS, if_pos ⟨⟨ht, hd⟩, rfl⟩, testBit_u8_set_bits, one_shiftLeft_mod_256 cpu hcpu,
        Nat.one_shiftLeft, Nat.testBit_two_pow]
      have h1 : decide (i < 8) = true := decide_eq_true hi8
      have h2 : decide (cpu = i) = false := decide_eq_false (fun h => hi h.symm)
      rw [h1, h2]
      simp
  · intro hd
    rw [← hT] at hd
    have hnot : ¬ ((t < VCML_ARM_GICv2_NCPU ∧
        (gicv2.distif.sctl_targets cpu v).testBit t = true) ∧ v &&& 0x0F = v &&& 0x0F) := by
      intro h
      rw [hd] at h
      exact absurd h.1.2 (by decide)
    refine ⟨?_, ?_, ?_⟩
    · rw [is_irq_pending_eq_testBit, is_irq_pending_eq_testBit, hp, if_pos rfl,
        testBit_u8_set_bits, hd, ht8]
      simp
    · rw [hS, if_neg hnot]
    · rw [hC, if_neg hnot]
  · intro j hj
    rw [hp, if_neg hj]
  · intro c m hm
    have hnot : ¬ ((c < VCML_ARM_GICv2_NCPU ∧
        (gicv2.distif.sctl_targets cpu v).testBit c = true) ∧ m = v &&& 0x0F) :=
      fun h => hm h.2
    exact ⟨by rw [hS, if_neg hnot], by rw [hC, if_neg hnot]⟩

/-- The source registers and the pending mask of line `n` after
`distif::write_SGIC` by processor `t`. -/
theorem write_SGIC_fields (s : gicv2) (t val n : Nat) :
    (gicv2.distif.write_SGIC s t val n).DISTIF.SGIS t n =
      u8_clear_bits (s.DISTIF.SGIS t n) val ∧
    (gicv2.distif.write_SGIC s t val n).DISTIF.SGIC t n =
      u8_clear_bits (s.DISTIF.SGIC t n) val ∧
    ((gicv2.distif.write_SGIC s t val n).m_irq_state n).pending =
      if u8_clear_bits (s.DISTIF.SGIC t n) val = 0 then
        u8_clear_bits (s.m_irq_state n).pending (1 <<< t)
      else (s.m_irq_state n).pending := by
  unfold gicv2.distif.write_SGIC
  rw [cpu_or_zero_natCast]
  simp only [update_false_DISTIF, update_false_m_irq_state, set_sgi_pending_clear_SGIC]
  refine ⟨?_, ?_, ?_⟩
  · split
    · exact set_sgi_pending_clear_SGIS _ _ _ _
    · exact set_sgi_pending_clear_SGIS _ _ _ _
  · split
    · exact set_sgi_pending_clear_SGIC _ _ _ _
    · exact set_sgi_pending_clear_SGIC _ _ _ _
  · split
    · simp only [gicv2.set_irq_pending, set_sgi_pending_m_irq_state, Function.update_same,
        Bool.false_eq_true, if_false]
    · rw [set_sgi_pending_m_irq_state]

/-- C12: SGI multi-source aggregation.  Let two distinct processors `a` and `b`
each write `distif::write_SCTL` with the same SGI id `n` and a value that
addresses processor `t`, starting from a state in which no source of `n` is
recorded for `t`.  Then `n` is pending for `t`; after `t` writes
`distif::write_SGIC` with value `1 << a` at index `n` the line is still
pending for `t` and source sub-bit `b` is still set; after `t` then writes
`1 << b` the pending bit of `n` for `t` is clear. -/
theorem C12_SGI_multi_source_aggregation (s0 : gicv2) (t a b va vb : Nat)
    (ht : t < VCML_ARM_GICv2_NCPU) (ha : a < VCML_ARM_GICv2_NCPU)
    (hb : b < VCML_ARM_GICv2_NCPU) (hab : a ≠ b)
    (hn : vb &&& 0x0F = va &&& 0x0F)
    (hta : (gicv2.distif.sctl_targets a va).testBit t = true)
    (htb : (gicv2.distif.sctl_targets b vb).testBit t = true)
    (hnone : s0.DISTIF.SGIC t (va &&& 0x0F) = 0) :
    (gicv2.distif.write_SCTL (gicv2.distif.write_SCTL s0 a va) b vb).is_irq_pending
        (va &&& 0x0F) (1 <<< t) = true ∧
    (gicv2.distif.write_SGIC
        (gicv2.distif.write_SCTL (gicv2.distif.write_SCTL s0 a va) b vb) t (1 <<< a)
        (va &&& 0x0F)).is_irq_pending (va &&& 0x0F) (1 <<< t) = true ∧
    ((gicv2.distif.write_SGIC
        (gicv2.distif.write_SCTL (gicv2.distif.write_SCTL s0 a va) b vb) t (1 <<< a)
        (va &&& 0x0F)).DISTIF.SGIS t (va &&& 0x0F)).testBit b = true ∧
    (gicv2.distif.write_SGIC
        (gicv2.distif.write_SGIC
          (gicv2.distif.write_SCTL (gicv2.distif.write_SCTL s0 a va) b vb) t (1 <<< a)
          (va &&& 0x0F)) t (1 <<< b) (va &&& 0x0F)).is_irq_pending
        (va &&& 0x0F) (1 <<< t) = false := by
  obtain ⟨_, hS1, hC1⟩ := write_SCTL_fields s0 a va
  obtain ⟨hp2, hS2, hC2⟩ := write_SCTL_fields (gicv2.distif.write_SCTL s0 a va) b vb
  generalize gicv2.distif.write_SCTL (gicv2.distif.write_SCTL s0 a va) b vb = s2 at hp2 hS2 hC2 ⊢
  obtain ⟨hS3, hC3, hp3⟩ := write_SGIC_fields s2 t (1 <<< a) (va &&& 0x0F)
  generalize gicv2.distif.write_SGIC s2 t (1 <<< a) (va &&& 0x0F) = s3 at hS3 hC3 hp3 ⊢
  obtain ⟨_, _, hp4⟩ := write_SGIC_fields s3 t (1 <<< b) (va &&& 0x0F)
  generalize gicv2.distif.write_SGIC s3 t (1 <<< b) (va &&& 0x0F) = s4 at hp4 ⊢
  have ht8 : decide (t < 8) = true := decide_eq_true ht
  have ha8 : decide (a < 8) = true := decide_eq_true ha
  have hb8 : decide (b < 8) = true := decide_eq_true hb
  have hab' : decide (a = b) = false := decide_eq_false hab
  have hba' : decide (b = a) = false := decide_eq_false (fun h => hab h.symm)
  -- the registers after the two generating writes
  have hS2' : s2.DISTIF.SGIS t (va &&& 0x0F) =
      u8_set_bits (u8_set_bits (s0.DISTIF.SGIS t (va &&& 0x0F)) ((1 <<< a) % 256))
        ((1 <<< b) % 256) := by
    rw [hS2, if_pos ⟨⟨ht, htb⟩, hn.symm⟩, hS1, if_pos ⟨⟨ht, hta⟩, rfl⟩]
  have hC2' : s2.DISTIF.SGIC t (va &&& 0x0F) =
      u8_set_bits (u8_set_bits 0 ((1 <<< a) % 256)) ((1 <<< b) % 256) := by
    rw [hC2, if_pos ⟨⟨ht, htb⟩, hn.symm⟩, hC1, if_pos ⟨⟨ht, hta⟩, rfl⟩, hnone]
  have hC2bits : ∀ i, (s2.DISTIF.SGIC t (va &&& 0x0F)).testBit i =
      (decide (i = a) || decide (i = b)) := by
    intro i
    rw [hC2', testBit_u8_set_bits, testBit_u8_set_bits, one_shiftLeft_mod_256 a ha,
      one_shiftLeft_mod_256 b hb, Nat.one_shiftLeft, Nat.one_shiftLeft, Nat.testBit_two_pow,
      Nat.testBit_two_pow, Nat.zero_testBit]
    by_cases hia : i = a
    · subst hia; simp [ha8]
    · by_cases hib : i = b
      · subst hib; simp [hb8]
      · have h1 : ¬ a = i := fun h => hia h.symm
        have h2 : ¬ b = i := fun h => hib h.symm
        simp [hia, hib, h1, h2]
  have hC3nz : u8_clear_bits (s2.DISTIF.SGIC t (va &&& 0x0F)) (1 <<< a) ≠ 0 := by
    intro hz
    have h := testBit_u8_clear_bits (s2.DISTIF.SGIC t (va &&& 0x0F)) (1 <<< a) b
    rw [hz, Nat.zero_testBit, hC2bits b, Nat.one_shiftLeft, Nat.testBit_two_pow, hb8, hab',
      hba'] at h
    simp at h
  have hC4z : u8_clear_bits (s3.DISTIF.SGIC t (va &&& 0x0F)) (1 <<< b) = 0 := by
    apply Nat.eq_of_testBit_eq
    intro i
    rw [testBit_u8_clear_bits, hC3, testBit_u8_clear_bits, hC2bits i, Nat.one_shiftLeft,
      Nat.one_shiftLeft, Nat.testBit_two_pow, Nat.testBit_two_pow, Nat.zero_testBit]
    by_cases hia : i = a
    · subst hia; simp
    · by_cases hib : i = b
      · subst hib; simp
      · simp [hia, hib]
  have hpend2 : ((s2.m_irq_state (va &&& 0x0F)).pending).testBit t = true := by
    rw [hp2, if_pos hn.symm, testBit_u8_set_bits, htb, ht8]
    simp
  have hpend3 : (s3.m_irq_state (va &&& 0x0F)).pending = (s2.m_irq_state (va &&& 0x0F)).pending := by
    rw [hp3, if_neg hC3nz]
  refine ⟨?_, ?_, ?_, ?_⟩
  · rw [is_irq_pending_eq_testBit]; exact hpend2
  · rw [is_irq_pending_eq_testBit, hpend3]; exact hpend2
  · rw [hS3, testBit_u8_clear_bits, hS2', testBit_u8_set_bits, one_shiftLeft_mod_256 b hb,
      Nat.one_shiftLeft, Nat.one_shiftLeft, Nat.testBit_two_pow, Nat.testBit_two_pow, hb8, hab']
    simp
  · rw [is_irq_pending_eq_testBit, hp4, if_pos hC4z, testBit_u8_clear_bits,
      testBit_one_shiftLeft_self]
    simp

/-! ## Enable registers, input lines and trigger configuration -/

theorem end_of_elaboration_loop (s : gicv2) (k : Nat) :
    ∀ irq, irq < k → ∀ c, c < VCML_ARM_GICv2_NCPU →
      (((for_range 0 k (fun irq st => st.enable_irq irq gicv2.ALL_CPU) s).m_irq_state
        irq).enabled).testBit c = true := by
  induction k with
  | zero => intro irq h; exact absurd h (Nat.not_lt_zero _)
  | succ k ih =>
    intro irq hirq c hc
    rw [for_range_succ 0 k _ _ (Nat.zero_le k)]
    simp only [gicv2.enable_irq, Function.update_apply]
    by_cases h : irq = k
    · subst h
      simp only [if_true]
      rw [testBit_u8_set_bits, testBit_ALL_CPU]
      have : decide (c < 8) = true := decide_eq_true hc
      rw [this]
      simp
    · simp only [h, if_false]
      exact ih irq (by omega) c hc

theorem write_ICER_keeps_SGIs (s : gicv2) (current_cpu : Int) (val j : Nat)
    (hj : j < VCML_ARM_GICv2_NSGI) :
    (gicv2.distif.write_ICER s current_cpu val).m_irq_state j = s.m_irq_state j := by
  unfold gicv2.distif.write_ICER
  simp only [update_false_m_irq_state]
  refine for_range_invariant (fun st : gicv2 => st.m_irq_state j = s.m_irq_state j)
    _ _ _ _ rfl ?_
  · intro i a h1 _ ha
    unfold gicv2.distif.write_ICER_body
    split
    · simp only [gicv2.disable_irq]
      rw [Function.update_noteq (by omega)]
      exact ha
    · exact ha

theorem write_SCER_keeps_SGIs (s : gicv2) (val idx j : Nat)
    (hidx : (VCML_ARM_GICv2_PRIV + idx * 32) % 2 ^ 32 ≠ 0 ∨ val &&& 0xFFFF = 0)
    (hj : j < VCML_ARM_GICv2_NSGI) :
    (gicv2.distif.write_SCER s val idx).m_irq_state j = s.m_irq_state j := by
  unfold gicv2.distif.write_SCER
  simp only [update_false_m_irq_state]
  refine for_range_invariant (fun st : gicv2 => st.m_irq_state j = s.m_irq_state j)
    _ _ _ _ rfl ?_
  · intro i a _ h2 ha
    unfold gicv2.distif.write_SCER_body
    split
    · rename_i hbit
      simp only [gicv2.disable_irq]
      have hne : j ≠ ((VCML_ARM_GICv2_PRIV + idx * 32) % 2 ^ 32 + i) % 2 ^ 32 := by
        have hP : VCML_ARM_GICv2_PRIV = 32 := rfl
        have hG : VCML_ARM_GICv2_NSGI = 16 := rfl
        rw [hP] at hidx ⊢
        rw [hG] at hj
        rcases hidx with h | h
        · omega
        · intro e
          have hji : j = i := by omega
          subst hji
          have hb : val.testBit j = true := (and_one_shiftLeft_ne_zero_iff val j).mp hbit
          have h0 : (val &&& 0xFFFF).testBit j = false := by rw [h]; exact Nat.zero_testBit j
          rw [Nat.testBit_and, hb, show (0xFFFF : Nat) = 2 ^ 16 - 1 from rfl,
            Nat.testBit_two_pow_sub_one] at h0
          simp [hj] at h0
      rw [Function.update_noteq hne]
      exact ha
    · exact ha

theorem read_enable_low_bits (m : Nat) : ((m <<< 16 ||| 0xFFFF) % 2 ^ 32) &&& 0xFFFF = 0xFFFF := by
  apply Nat.eq_of_testBit_eq
  intro i
  rw [Nat.testBit_and, Nat.testBit_mod_two_pow, Nat.testBit_or,
    show (0xFFFF : Nat) = 2 ^ 16 - 1 from rfl, Nat.testBit_two_pow_sub_one]
  by_cases hi : i < 16
  · have : i < 32 := by omega
    simp [hi, this]
  · simp [hi]

/-- Enable-clear writes that name none of the lines 0..15 keep the SGIs
enabled.  In every state reached from the state after
`distif::end_of_elaboration` by any sequence of `distif::write_ICER` (any
processor, any value) and `distif::write_SCER` writes (any value and index,
except a write whose first line `32 + 32*idx` wraps to 0 at 32 bits with one of
the low 16 bits of the value set), every line 0..15 is enabled for every
processor, and `distif::read_ISER` and `distif::read_ICER` return a value whose
low 16 bits are 0xFFFF. -/
theorem enable_clear_keeps_SGIs (s0 s : gicv2)
    (hreach : gicv2.enable_clear_reachable (gicv2.distif.end_of_elaboration s0) s) :
    (∀ irq cpu, irq < VCML_ARM_GICv2_NSGI → cpu < VCML_ARM_GICv2_NCPU →
      s.is_irq_enabled irq (1 <<< cpu) = true) ∧
    (∀ current_cpu : Int, gicv2.distif.read_ISER s current_cpu &&& 0xFFFF = 0xFFFF) ∧
    (∀ current_cpu : Int, gicv2.distif.read_ICER s current_cpu &&& 0xFFFF = 0xFFFF) := by
  refine ⟨?_, fun _ => read_enable_low_bits _, fun _ => read_enable_low_bits _⟩
  intro irq cpu hirq hcpu
  rw [is_irq_enabled_eq_testBit]
  induction hreach with
  | start =>
    exact end_of_elaboration_loop s0 VCML_ARM_GICv2_NSGI irq hirq cpu hcpu
  | icer s1 cc val _ ih =>
    rw [write_ICER_keeps_SGIs s1 cc val irq hirq]
    exact ih
  | scer s1 val idx hidx _ ih =>
    rw [write_SCER_keeps_SGIs s1 val idx irq hidx hirq]
    exact ih

theorem testBit_u8_put_level (old mask : Nat) (x : Bool) (c : Nat)
    (hc : c < VCML_ARM_GICv2_NCPU) (hm : mask.testBit c = true) :
    (if x = true then u8_set_bits old mask else u8_clear_bits old mask).testBit c = x := by
  have h8 : decide (c < 8) = true := decide_eq_true hc
  cases x
  · simp only [Bool.false_eq_true, if_false]
    rw [testBit_u8_clear_bits, hm, h8]
    simp
  · simp only [if_true]
    rw [testBit_u8_set_bits, hm, h8]
    simp

/-- C18: input-line transition.  After `gicv2::ppi_handler` runs for processor
`cpu` and line `irq` with sampled input `x`, the stored level of the line for
`cpu` is `x`; after `gicv2::spi_handler` runs for line `irq` with sampled
input `x`, the stored level is `x` for every processor.  In both cases the
pending bits of the line become the old pending bits OR the delivery mask
(`1 << cpu`, resp. the target register `SPIT[irq - 32]`) when the line is
edge-triggered and `x` is high, and are unchanged otherwise; the enable and
active bits of the line and the table entries of all other lines are
unchanged. -/
theorem C18_input_line_transition (s : gicv2) (cpu irq : Nat) (x : Bool)
    (hcpu : cpu < VCML_ARM_GICv2_NCPU) :
    ((s.ppi_handler cpu irq x).get_irq_level irq (1 <<< cpu) = x ∧
      ((s.ppi_handler cpu irq x).m_irq_state irq).pending =
        (if s.get_irq_trigger irq = gicv2.trigger_mode.EDGE ∧ x = true then
          u8_set_bits (s.m_irq_state irq).pending (1 <<< cpu)
        else (s.m_irq_state irq).pending) ∧
      ((s.ppi_handler cpu irq x).m_irq_state irq).enabled = (s.m_irq_state irq).enabled ∧
      ((s.ppi_handler cpu irq x).m_irq_state irq).active = (s.m_irq_state irq).active ∧
      (∀ j, j ≠ irq → (s.ppi_handler cpu irq x).m_irq_state j = s.m_irq_state j)) ∧
    ((∀ c, c < VCML_ARM_GICv2_NCPU → (s.spi_handler irq x).get_irq_level irq (1 <<< c) = x) ∧
      ((s.spi_handler irq x).m_irq_state irq).pending =
        (if s.get_irq_trigger irq = gicv2.trigger_mode.EDGE ∧ x = true then
          u8_set_bits (s.m_irq_state irq).pending (s.DISTIF.SPIT (irq - VCML_ARM_GICv2_PRIV))
        else (s.m_irq_state irq).pending) ∧
      ((s.spi_handler irq x).m_irq_state irq).enabled = (s.m_irq_state irq).enabled ∧
      ((s.spi_handler irq x).m_irq_state irq).active = (s.m_irq_state irq).active ∧
      (∀ j, j ≠ irq → (s.spi_handler irq x).m_irq_state j = s.m_irq_state j)) := by
  constructor
  · unfold gicv2.ppi_handler
    simp only [update_false_m_irq_state, get_irq_level_eq_testBit]
    by_cases he : s.get_irq_trigger irq = gicv2.trigger_mode.EDGE ∧ x = true
    · have he' : (decide (((s.set_irq_level irq x (1 <<< cpu)).set_irq_signaled irq false
          gicv2.ALL_CPU).get_irq_trigger irq = gicv2.trigger_mode.EDGE) && x) = true := by
        simp only [gicv2.get_irq_trigger, gicv2.set_irq_signaled, gicv2.set_irq_level,
          Function.update_same, Bool.and_eq_true, decide_eq_true_eq]
        exact he
      rw [if_pos he', if_pos he]
      simp only [gicv2.set_irq_pending, gicv2.set_irq_signaled, gicv2.set_irq_level,
        Function.update_same, if_true]
      refine ⟨testBit_u8_put_level _ _ x cpu hcpu (testBit_one_shiftLeft_self cpu),
        trivial, trivial, trivial, fun j hj => ?_⟩
      rw [Function.update_noteq hj, Function.update_noteq hj, Function.update_noteq hj]
    · have he' : ¬ (decide (((s.set_irq_level irq x (1 <<< cpu)).set_irq_signaled irq false
          gicv2.ALL_CPU).get_irq_trigger irq = gicv2.trigger_mode.EDGE) && x) = true := by
        simp only [gicv2.get_irq_trigger, gicv2.set_irq_signaled, gicv2.set_irq_level,
          Function.update_same, Bool.and_eq_true, decide_eq_true_eq]
        exact he
      rw [if_neg he', if_neg he]
      simp only [gicv2.set_irq_signaled, gicv2.set_irq_level, Function.update_same]
      refine ⟨testBit_u8_put_level _ _ x cpu hcpu (testBit_one_shiftLeft_self cpu),
        trivial, trivial, trivial, fun j hj => ?_⟩
      rw [Function.update_noteq hj, Function.update_noteq hj]
  · unfold gicv2.spi_handler
    simp only [update_false_m_irq_state, get_irq_level_eq_testBit]
    have hall : ∀ c, c < VCML_ARM_GICv2_NCPU → gicv2.ALL_CPU.testBit c = true := by
      intro c hc; rw [testBit_ALL_CPU]; exact decide_eq_true hc
    by_cases he : s.get_irq_trigger irq = gicv2.trigger_mode.EDGE ∧ x = true
    · have he' : (decide (((s.set_irq_level irq x gicv2.ALL_CPU).set_irq_signaled irq false
          gicv2.ALL_CPU).get_irq_trigger irq = gicv2.trigger_mode.EDGE) && x) = true := by
        simp only [gicv2.get_irq_trigger, gicv2.set_irq_signaled, gicv2.set_irq_level,
          Function.update_same, Bool.and_eq_true, decide_eq_true_eq]
        exact he
      rw [if_pos he', if_pos he]
      simp only [gicv2.set_irq_pending, gicv2.set_irq_signaled, gicv2.set_irq_level,
        Function.update_same, if_true]
      refine ⟨fun c hc => testBit_u8_put_level _ _ x c hc (hall c hc),
        trivial, trivial, trivial, fun j hj => ?_⟩
      rw [Function.update_noteq hj, Function.update_noteq hj, Function.update_noteq hj]
    · have he' : ¬ (decide (((s.set_irq_level irq x gicv2.ALL_CPU).set_irq_signaled irq false
          gicv2.ALL_CPU).get_irq_trigger irq = gicv2.trigger_mode.EDGE) && x) = true := by
        simp only [gicv2.get_irq_trigger, gicv2.set_irq_signaled, gicv2.set_irq_level,
          Function.update_same, Bool.and_eq_true, decide_eq_true_eq]
        exact he
      rw [if_neg he', if_neg he]
      simp only [gicv2.set_irq_signaled, gicv2.set_irq_level, Function.update_same]
      refine ⟨fun c hc => testBit_u8_put_level _ _ x c hc (hall c hc),
        trivial, trivial, trivial, fun j hj => ?_⟩
      rw [Function.update_noteq hj, Function.update_noteq hj]

theorem cfg_bit_iff (value i : Nat) :
    value &&& (2 <<< (i * 2)) ≠ 0 ↔ value.testBit (2 * i + 1) = true := by
  have e : 2 <<< (i * 2) = 1 <<< (2 * i + 1) := by
    rw [Nat.shiftLeft_eq, Nat.shiftLeft_eq, Nat.one_mul, Nat.pow_succ, Nat.mul_comm 2 i,
      Nat.mul_comm]
  rw [e]
  exact and_one_shiftLeft_ne_zero_iff value (2 * i + 1)

/-- The line table after the first `k` iterations of the configuration loop of
`distif::write_CPPI` / `distif::write_CSPI` starting at line `irq`. -/
theorem write_cfg_loop (value irq : Nat) (s : gicv2) (k : Nat) (hk : irq + k ≤ 2 ^ 32) :
    (for_range 0 k (gicv2.distif.write_cfg_body value irq) s).DISTIF = s.DISTIF ∧
    ∀ j, (for_range 0 k (gicv2.distif.write_cfg_body value irq) s).m_irq_state j =
      if irq ≤ j ∧ j < irq + k then
        { s.m_irq_state j with trigger := gicv2.distif.cfg_trigger value (j - irq) }
      else s.m_irq_state j := by
  induction k with
  | zero =>
    rw [for_range_self]
    refine ⟨rfl, fun j => ?_⟩
    have : ¬ (irq ≤ j ∧ j < irq + 0) := by omega
    rw [if_neg this]
  | succ k ih =>
    obtain ⟨h1, h2⟩ := ih (by omega)
    rw [for_range_succ 0 k _ _ (Nat.zero_le k)]
    generalize for_range 0 k (gicv2.distif.write_cfg_body value irq) s = st at h1 h2
    have hline : (irq + k) % 2 ^ 32 = irq + k := Nat.mod_eq_of_lt (by omega)
    have hbody : gicv2.distif.write_cfg_body value irq k st =
        st.set_irq_trigger (irq + k) (gicv2.distif.cfg_trigger value k) := by
      unfold gicv2.distif.write_cfg_body gicv2.distif.cfg_trigger
      rw [hline]
      by_cases hb : value.testBit (2 * k + 1) = true
      · rw [if_pos ((cfg_bit_iff value k).mpr hb), if_pos hb]
      · rw [if_neg (fun h => hb ((cfg_bit_iff value k).mp h)), if_neg hb]
    rw [hbody]
    refine ⟨h1, fun j => ?_⟩
    simp only [gicv2.set_irq_trigger, Function.update_apply]
    by_cases hj : j = irq + k
    · subst hj
      have hin : irq ≤ irq + k ∧ irq + k < irq + (k + 1) := by omega
      have hout : ¬ (irq ≤ irq + k ∧ irq + k < irq + k) := by omega
      rw [if_pos rfl, if_pos hin, h2, if_neg hout, Nat.add_sub_cancel_left]
    · rw [if_neg hj, h2]
      by_cases hin : irq ≤ j ∧ j < irq + k
      · have hin' : irq ≤ j ∧ j < irq + (k + 1) := by omega
        rw [if_pos hin, if_pos hin']
      · have hin' : ¬ (irq ≤ j ∧ j < irq + (k + 1)) := by omega
        rw [if_neg hin, if_neg hin']

/-- C20: trigger configuration decode.  After `distif::write_CPPI(v)` the
stored register is `v & 0xAAAAAAAA`, each private line `16 + i` (`i < 16`) is
edge-triggered when bit `2i+1` of `v` is set and level-triggered otherwise,
and the trigger mode of every other line is unchanged.  After
`distif::write_CSPI(v, idx)`, for an index whose lines do not wrap at 32
bits, the stored register at `idx` is `v & 0xAAAAAAAA`, each shared line
`32 + 16*idx + i` (`i < 16`) is edge-triggered when bit `2i+1` of `v` is set
and level-triggered otherwise, and the trigger mode of every other line is
unchanged. -/
theorem C20_trigger_configuration_decode (s : gicv2) (v idx : Nat)
    (hidx : VCML_ARM_GICv2_PRIV + idx * 16 + 16 ≤ 2 ^ 32) :
    ((gicv2.distif.write_CPPI s v).DISTIF.CPPI = v &&& 0xAAAAAAAA ∧
      (∀ i, i < VCML_ARM_GICv2_NPPI →
        (gicv2.distif.write_CPPI s v).get_irq_trigger (VCML_ARM_GICv2_NSGI + i) =
          if v.testBit (2 * i + 1) then gicv2.trigger_mode.EDGE
          else gicv2.trigger_mode.LEVEL) ∧
      (∀ j, j < VCML_ARM_GICv2_NSGI ∨ VCML_ARM_GICv2_PRIV ≤ j →
        (gicv2.distif.write_CPPI s v).get_irq_trigger j = s.get_irq_trigger j)) ∧
    ((gicv2.distif.write_CSPI s v idx).DISTIF.CSPI idx = v &&& 0xAAAAAAAA ∧
      (∀ i, i < 16 →
        (gicv2.distif.write_CSPI s v idx).get_irq_trigger (VCML_ARM_GICv2_PRIV + 16 * idx + i) =
          if v.testBit (2 * i + 1) then gicv2.trigger_mode.EDGE
          else gicv2.trigger_mode.LEVEL) ∧
      (∀ j, j < VCML_ARM_GICv2_PRIV + 16 * idx ∨ VCML_ARM_GICv2_PRIV + 16 * idx + 16 ≤ j →
        (gicv2.distif.write_CSPI s v idx).get_irq_trigger j = s.get_irq_trigger j)) := by
  have hP : VCML_ARM_GICv2_PRIV = 32 := rfl
  have hG : VCML_ARM_GICv2_NSGI = 16 := rfl
  have hQ : VCML_ARM_GICv2_NPPI = 16 := rfl
  constructor
  · obtain ⟨h1, h2⟩ := write_cfg_loop v VCML_ARM_GICv2_NSGI
      ({ s with DISTIF := { s.DISTIF with CPPI := v &&& 0xAAAAAAAA } } : gicv2)
      VCML_ARM_GICv2_NPPI (by decide)
    unfold gicv2.distif.write_CPPI
    simp only [update_false_DISTIF, gicv2.get_irq_trigger, update_false_m_irq_state]
    refine ⟨by rw [h1], fun i hi => ?_, fun j hj => ?_⟩
    · have hin : VCML_ARM_GICv2_NSGI ≤ VCML_ARM_GICv2_NSGI + i ∧
          VCML_ARM_GICv2_NSGI + i < VCML_ARM_GICv2_NSGI + VCML_ARM_GICv2_NPPI := by omega
      rw [h2, if_pos hin, Nat.add_sub_cancel_left]
      rfl
    · have hout : ¬ (VCML_ARM_GICv2_NSGI ≤ j ∧
          j < VCML_ARM_GICv2_NSGI + VCML_ARM_GICv2_NPPI) := by omega
      rw [h2, if_neg hout]
  · have hirq : (VCML_ARM_GICv2_PRIV + idx * 16) % 2 ^ 32 = VCML_ARM_GICv2_PRIV + 16 * idx := by
      rw [Nat.mod_eq_of_lt (by omega)]; omega
    obtain ⟨h1, h2⟩ := write_cfg_loop v (VCML_ARM_GICv2_PRIV + 16 * idx)
      ({ s with DISTIF := { s.DISTIF with
          CSPI := (Function.update s.DISTIF.CSPI idx (v &&& 0xAAAAAAAA)) } } : gicv2)
      16 (by omega)
    unfold gicv2.distif.write_CSPI
    simp only [update_false_DISTIF, gicv2.get_irq_trigger, update_false_m_irq_state, hirq]
    refine ⟨by rw [h1]; simp, fun i hi => ?_, fun j hj => ?_⟩
    · have hin : VCML_ARM_GICv2_PRIV + 16 * idx ≤ VCML_ARM_GICv2_PRIV + 16 * idx + i ∧
          VCML_ARM_GICv2_PRIV + 16 * idx + i < VCML_ARM_GICv2_PRIV + 16 * idx + 16 := by omega
      rw [h2, if_pos hin, Nat.add_sub_cancel_left]
      rfl
    · have hout : ¬ (VCML_ARM_GICv2_PRIV + 16 * idx ≤ j ∧
          j < VCML_ARM_GICv2_PRIV + 16 * idx + 16) := by omega
      rw [h2, if_neg hout]

/-! ## Instances for software-generated interrupts, enables and input lines -/

theorem C11_witness :
    (scenario_B_ack.CPUIF.m_curr_irq 0 ≠ VCML_ARM_GICv2_SPURIOUS_IRQ ∧
      33 &&& 0x3FF = scenario_B_ack.CPUIF.m_curr_irq 0 ∧
      scenario_B_ack.CPUIF.m_curr_irq 0 < scenario_B_ack.m_irq_num ∧
      scenario_B_ack.CPUIF.m_prev_irq 33 0 = 32) ∧
    ∃ t, gicv2.cpuif.write_EOIR scenario_B_ack 0 0 33 = some t ∧
      t.is_irq_active (scenario_B_ack.CPUIF.m_curr_irq 0) (1 <<< 0) = false ∧
      t.CPUIF.m_curr_irq 0 =
        scenario_B_ack.CPUIF.m_prev_irq (scenario_B_ack.CPUIF.m_curr_irq 0) 0 ∧
      (∀ j, j ≠ scenario_B_ack.CPUIF.m_curr_irq 0 →
        t.m_irq_state j = scenario_B_ack.m_irq_state j) ∧
      t.CPUIF.m_prev_irq = scenario_B_ack.CPUIF.m_prev_irq :=
  ⟨by decide,
    match C11_in_order_EOI_touches_only_ended_line scenario_B_ack 0 0 33 (by decide) (by decide)
      (by decide) with
    | ⟨t, h1, h2, h3, _, _, _, h7, h8, _⟩ => ⟨t, h1, h2, h3, h7, h8⟩⟩

theorem C12_witness :
    (1 < VCML_ARM_GICv2_NCPU ∧ 0 < VCML_ARM_GICv2_NCPU ∧ (0 : Nat) ≠ 1 ∧
      0x00020003 &&& 0x0F = 3 ∧
      (gicv2.distif.sctl_targets 0 0x00020003).testBit 1 = true ∧
      (gicv2.distif.sctl_targets 1 0x00020003).testBit 1 = true ∧
      scenario_two_cpu.DISTIF.SGIC 1 (0x00020003 &&& 0x0F) = 0) ∧
    (scenario_sgi_sent.is_irq_pending (0x00020003 &&& 0x0F) (1 <<< 1) = true ∧
      (gicv2.distif.write_SGIC scenario_sgi_sent 1 (1 <<< 0)
        (0x00020003 &&& 0x0F)).is_irq_pending (0x00020003 &&& 0x0F) (1 <<< 1) = true ∧
      ((gicv2.distif.write_SGIC scenario_sgi_sent 1 (1 <<< 0)
        (0x00020003 &&& 0x0F)).DISTIF.SGIS 1 (0x00020003 &&& 0x0F)).testBit 1 = true ∧
      (gicv2.distif.write_SGIC
        (gicv2.distif.write_SGIC scenario_sgi_sent 1 (1 <<< 0) (0x00020003 &&& 0x0F)) 1
        (1 <<< 1) (0x00020003 &&& 0x0F)).is_irq_pending (0x00020003 &&& 0x0F) (1 <<< 1) =
          false) :=
  ⟨by decide,
    C12_SGI_multi_source_aggregation scenario_two_cpu 1 0 1 0x00020003 0x00020003 (by decide)
      (by decide) (by decide) (by decide) rfl (by decide) (by decide) (by decide)⟩

theorem C13_witness :
    (1 < VCML_ARM_GICv2_NCPU ∧ 3 < VCML_ARM_GICv2_NSGI ∧ scenario_sgi_sent.CPUIF.PEND 1 = 3 ∧
      scenario_sgi_sent.get_irq_priority 1 3 < scenario_sgi_sent.CPUIF.PRIO 1 ∧
      scenario_sgi_sent.DISTIF.SGIS 1 3 = 3 ∧
      scenario_sgi_sent.DISTIF.SGIC 1 3 = scenario_sgi_sent.DISTIF.SGIS 1 3 ∧
      ctz32 (scenario_sgi_sent.DISTIF.SGIS 1 3) = 0) ∧
    (gicv2.cpuif.read_IACK scenario_sgi_sent 1).1 =
      3 ||| (ctz32 (scenario_sgi_sent.DISTIF.SGIS 1 3) <<< 10) ∧
    (gicv2.cpuif.read_IACK scenario_sgi_sent 1).2.DISTIF.SGIC 1 3 =
      (gicv2.cpuif.read_IACK scenario_sgi_sent 1).2.DISTIF.SGIS 1 3 ∧
    ((gicv2.cpuif.read_IACK scenario_sgi_sent 1).2.m_irq_state 3).pending =
      (scenario_sgi_sent.m_irq_state 3).pending :=
  ⟨by decide,
    (C13_SGI_acknowledge_consumes_one_source scenario_sgi_sent 1 3 (by decide) (by decide)
      (by decide) (by decide) (by decide) (by decide) (by decide)).2.1,
    (C13_SGI_acknowledge_consumes_one_source scenario_sgi_sent 1 3 (by decide) (by decide)
      (by decide) (by decide) (by decide) (by decide) (by decide)).2.2.2.1,
    (C13_SGI_acknowledge_consumes_one_source scenario_sgi_sent 1 3 (by decide) (by decide)
      (by decide) (by decide) (by decide) (by decide) (by decide)).2.2.2.2.2
        ⟨1, by decide, by decide⟩⟩

theorem C14_witness :
    (0 < VCML_ARM_GICv2_NCPU ∧ 1 < VCML_ARM_GICv2_NCPU ∧ (0x01000002 >>> 24) &&& 0x03 = 1 ∧
      gicv2.distif.sctl_delivers 0 0x01000002 1 = true ∧
      gicv2.distif.sctl_delivers 0 0x01000002 0 = false) ∧
    ((gicv2.distif.write_SCTL scenario_two_cpu 0 0x01000002).is_irq_pending
        (0x01000002 &&& 0x0F) (1 <<< 1) = true ∧
      ((gicv2.distif.write_SCTL scenario_two_cpu 0 0x01000002).DISTIF.SGIS 1
        (0x01000002 &&& 0x0F)).testBit 0 = true) ∧
    ((gicv2.distif.write_SCTL scenario_two_cpu 0 0x01000002).is_irq_pending
        (0x01000002 &&& 0x0F) (1 <<< 0) =
          scenario_two_cpu.is_irq_pending (0x01000002 &&& 0x0F) (1 <<< 0) ∧
      (gicv2.distif.write_SCTL scenario_two_cpu 0 0x01000002).DISTIF.SGIS 0
        (0x01000002 &&& 0x0F) = scenario_two_cpu.DISTIF.SGIS 0 (0x01000002 &&& 0x0F)) :=
  ⟨by decide,
    ⟨((C14_SGI_target_filter_policies scenario_two_cpu 0 0x01000002 1 (by decide) (by decide)
        (by decide)).1 (by decide)).1,
      ((C14_SGI_target_filter_policies scenario_two_cpu 0 0x01000002 1 (by decide) (by decide)
        (by decide)).1 (by decide)).2.1⟩,
    ⟨((C14_SGI_target_filter_policies scenario_two_cpu 0 0x01000002 0 (by decide) (by decide)
        (by decide)).2.1 (by decide)).1,
      ((C14_SGI_target_filter_policies scenario_two_cpu 0 0x01000002 0 (by decide) (by decide)
        (by decide)).2.1 (by decide)).2.1⟩⟩

/-- C15: a write to `distif::write_SCTL` whose filter field is 3 is not ignored.
The `default` branch of the filter switch only logs the warning and leaves
`targets` at the target-list field, and the delivery code after the switch
runs all the same.  Evaluated on a two-processor controller with nothing
pending: processor 0 writes 0x03010001 (filter 3, target list 0x01, SGI 1);
afterwards SGI 1 is pending for processor 0, its source sub-bit 0 is recorded
in `SGIS` and `SGIC`, and arbitration presents it (`PEND` = 1, `IRQ_OUT`
high). -/
theorem C15_malformed_filter_still_delivers :
    (0x03010001 >>> 24) &&& 0x03 = 3 ∧
    scenario_two_cpu.is_irq_pending 1 (1 <<< 0) = false ∧
    scenario_two_cpu.DISTIF.SGIS 0 1 = 0 ∧
    (gicv2.distif.write_SCTL scenario_two_cpu 0 0x03010001).is_irq_pending 1 (1 <<< 0) = true ∧
    (gicv2.distif.write_SCTL scenario_two_cpu 0 0x03010001).DISTIF.SGIS 0 1 = 1 ∧
    (gicv2.distif.write_SCTL scenario_two_cpu 0 0x03010001).DISTIF.SGIC 0 1 = 1 ∧
    (gicv2.distif.write_SCTL scenario_two_cpu 0 0x03010001).CPUIF.PEND 0 = 1 ∧
    (gicv2.distif.write_SCTL scenario_two_cpu 0 0x03010001).IRQ_OUT 0 = true := by
  decide

/-- C16: the pending bit of an SGI is not always the OR of its source sub-bits.
`distif::write_SGIS` sets the pending bit of the line for the writing
processor whatever the written value is, so a write of 0 records no source
sub-bit and still makes the line pending.  Evaluated on the state after
elaboration of a two-processor controller: processor 0 writes value 0 at
index 5; afterwards SGI 5 is pending for processor 0 while `SGIS.bank(0, 5)`
and `SGIC.bank(0, 5)` are 0. -/
theorem C16_SGIS_write_of_zero_sets_pending :
    (gicv2.elaborated 2 35).is_irq_pending 5 (1 <<< 0) = false ∧
    (gicv2.elaborated 2 35).DISTIF.SGIS 0 5 = 0 ∧
    (gicv2.distif.write_SGIS (gicv2.elaborated 2 35) 0 0 5).is_irq_pending 5 (1 <<< 0) = true ∧
    (gicv2.distif.write_SGIS (gicv2.elaborated 2 35) 0 0 5).DISTIF.SGIS 0 5 = 0 ∧
    (gicv2.distif.write_SGIS (gicv2.elaborated 2 35) 0 0 5).DISTIF.SGIC 0 5 = 0 := by
  decide

theorem C18_witness :
    0 < VCML_ARM_GICv2_NCPU ∧
    (scenario_base.ppi_handler 0 16 true).get_irq_level 16 (1 <<< 0) = true ∧
    ((scenario_base.spi_handler 32 true).m_irq_state 32).enabled =
      (scenario_base.m_irq_state 32).enabled :=
  ⟨by decide,
    (C18_input_line_transition scenario_base 0 16 true (by decide)).1.1,
    (C18_input_line_transition scenario_base 0 32 true (by decide)).2.2.2.1⟩

/-- C19: the pending state of a level-triggered line does not follow the wire
once the line was enabled while its input was high.  `distif::write_ISER`
(and `write_SSER` alike) latches the pending bit of a level-triggered line
whose stored level is high; `ppi_handler` / `spi_handler` never clear a
pending bit, so after the input is sampled low the latched bit is still set.
Evaluated on a two-processor controller: private line 16 of processor 0 is
configured level-triggered (`write_CPPI(0)`), sampled high, enabled with
`write_ISER(1 << 16)`, then sampled low; afterwards the stored level is low,
the pending bit is set, the line tests pending, and arbitration presents it
(`PEND` = 16, `IRQ_OUT` high). -/
theorem C19_level_line_stays_pending_after_input_low :
    scenario_level_enabled.get_irq_trigger 16 = gicv2.trigger_mode.LEVEL ∧
    scenario_level_enabled.get_irq_level 16 (1 <<< 0) = true ∧
    scenario_level_enabled.is_irq_pending 16 (1 <<< 0) = true ∧
    (scenario_level_enabled.ppi_handler 0 16 false).get_irq_trigger 16 =
      gicv2.trigger_mode.LEVEL ∧
    (scenario_level_enabled.ppi_handler 0 16 false).get_irq_level 16 (1 <<< 0) = false ∧
    (scenario_level_enabled.ppi_handler 0 16 false).is_irq_pending 16 (1 <<< 0) = true ∧
    (scenario_level_enabled.ppi_handler 0 16 false).test_pending 16 (1 <<< 0) = true ∧
    (scenario_level_enabled.ppi_handler 0 16 false).CPUIF.PEND 0 = 16 ∧
    (scenario_level_enabled.ppi_handler 0 16 false).IRQ_OUT 0 = true := by
  decide

theorem C20_witness :
    VCML_ARM_GICv2_PRIV + 0 * 16 + 16 ≤ 2 ^ 32 ∧
    (gicv2.distif.write_CPPI scenario_base 0x8).DISTIF.CPPI = 0x8 &&& 0xAAAAAAAA ∧
    (gicv2.distif.write_CSPI scenario_base 0x8 0).get_irq_trigger (VCML_ARM_GICv2_PRIV + 16 * 0 + 1) =
      (if (0x8 : Nat).testBit (2 * 1 + 1) then gicv2.trigger_mode.EDGE
        else gicv2.trigger_mode.LEVEL) :=
  ⟨by decide,
    (C20_trigger_configuration_decode scenario_base 0x8 0 (by decide)).1.1,
    (C20_trigger_configuration_decode scenario_base 0x8 0 (by decide)).2.2.1 1 (by decide)⟩

/-! ## Virtual arbitration and idempotence -/

theorem update_cpu_true (s : gicv2) (cpu : Nat) :
    s.update_cpu true cpu =
      if (s.VIFCTRL.HCR cpu == 0) = true then
        s.with_virtual_arbitration
          (Function.update s.VCPUIF.HPPIR cpu VCML_ARM_GICv2_SPURIOUS_IRQ)
          (Function.update s.VIRQ_OUT cpu false)
      else
        s.with_virtual_arbitration
          (if (s.best_virtual cpu).1 < s.VCPUIF.PMR cpu then
            Function.update (Function.update s.VCPUIF.HPPIR cpu VCML_ARM_GICv2_SPURIOUS_IRQ) cpu
              (s.best_virtual cpu).2
           else Function.update s.VCPUIF.HPPIR cpu VCML_ARM_GICv2_SPURIOUS_IRQ)
          (Function.update s.VIRQ_OUT cpu
            (decide ((s.best_virtual cpu).1 < s.VCPUIF.PMR cpu) &&
              decide ((s.best_virtual cpu).1 < s.VCPUIF.RPR cpu))) := by
  unfold gicv2.update_cpu
  simp only [Bool.not_true, Bool.true_and, Bool.false_and, Bool.false_eq_true, ↓reduceIte]
  split
  · rfl
  · split <;> split <;> rename_i h1 h2 <;>
      first | rfl | exact absurd h1 h2 | exact absurd h2 h1

theorem update_cpu_virt (s : gicv2) (hppir : Nat → Nat) (out : Nat → Bool) (cpu : Nat) :
    (s.with_virtual_arbitration hppir out).update_cpu true cpu =
      s.with_virtual_arbitration (Function.update hppir cpu (s.hppir_value cpu))
        (Function.update out cpu (s.virq_value cpu)) := by
  have hb : ∀ p : Nat → Nat, ∀ o : Nat → Bool,
      (s.with_virtual_arbitration p o).best_virtual cpu = s.best_virtual cpu := fun _ _ => rfl
  rw [update_cpu_true, hb]
  unfold gicv2.hppir_value gicv2.virq_value
  by_cases hd : s.VIFCTRL.HCR cpu = 0
  · have : ((s.with_virtual_arbitration hppir out).VIFCTRL.HCR cpu == 0) = true := by
      simpa [gicv2.with_virtual_arbitration] using hd
    rw [if_pos this, if_pos hd, if_pos hd]; rfl
  · have : ¬ ((s.with_virtual_arbitration hppir out).VIFCTRL.HCR cpu == 0) = true := by
      simpa [gicv2.with_virtual_arbitration] using hd
    rw [if_neg this, if_neg hd, if_neg hd]
    by_cases hm : (s.best_virtual cpu).1 < s.VCPUIF.PMR cpu
    · have hm' : (s.best_virtual cpu).1 < (s.with_virtual_arbitration hppir out).VCPUIF.PMR cpu := hm
      rw [if_pos hm, if_pos hm']
      simp [gicv2.with_virtual_arbitration]
    · have hm' : ¬ (s.best_virtual cpu).1 < (s.with_virtual_arbitration hppir out).VCPUIF.PMR cpu := hm
      rw [if_neg hm, if_neg hm']
      simp [gicv2.with_virtual_arbitration, hm]

theorem with_virtual_arbitration_self (s : gicv2) :
    s.with_virtual_arbitration s.VCPUIF.HPPIR s.VIRQ_OUT = s := rfl

theorem update_virt_fold (s : gicv2) (n : Nat) (hppir : Nat → Nat) (out : Nat → Bool) :
    (List.range' 0 n).foldl (fun acc cpu => gicv2.update_cpu acc true cpu)
        (s.with_virtual_arbitration hppir out) =
      s.with_virtual_arbitration (fun c => if c < n then s.hppir_value c else hppir c)
        (fun c => if c < n then s.virq_value c else out c) := by
  induction n with
  | zero => simp
  | succ n ih =>
    rw [List.range'_1_concat, List.foldl_append, ih]
    simp only [List.foldl_cons, List.foldl_nil, update_cpu_virt, Nat.zero_add]
    congr 1
    · funext c
      by_cases hc : c = n
      · subst hc; simp
      · rw [Function.update_noteq hc]
        by_cases h1 : c < n
        · simp [h1, Nat.lt_succ_of_lt h1]
        · have : ¬ c < n + 1 := by omega
          simp [h1, this]
    · funext c
      by_cases hc : c = n
      · subst hc; simp
      · rw [Function.update_noteq hc]
        by_cases h1 : c < n
        · simp [h1, Nat.lt_succ_of_lt h1]
        · have : ¬ c < n + 1 := by omega
          simp [h1, this]

theorem update_true_eq (s : gicv2) :
    s.update true =
      s.with_virtual_arbitration
        (fun c => if c < s.m_cpu_num then s.hppir_value c else s.VCPUIF.HPPIR c)
        (fun c => if c < s.m_cpu_num then s.virq_value c else s.VIRQ_OUT c) := by
  have h := update_virt_fold s s.m_cpu_num s.VCPUIF.HPPIR s.VIRQ_OUT
  rw [with_virtual_arbitration_self] at h
  exact h

theorem update_false_idempotent (s : gicv2) : (s.update false).update false = s.update false := by
  have h2 := update_false_eq s
  have h1 := update_phys_fold s s.m_cpu_num
    (fun c => if c < s.m_cpu_num then s.pend_value c else s.CPUIF.PEND c)
    (fun c => if c < s.m_cpu_num then s.out_value c else s.IRQ_OUT c)
  have e : ∀ (p : Nat → Nat) (o : Nat → Bool), (s.with_arbitration p o).update false =
      (List.range' 0 s.m_cpu_num).foldl (fun acc cpu => gicv2.update_cpu acc false cpu)
        (s.with_arbitration p o) := by
    intro p o
    unfold gicv2.update for_range
    rw [Nat.sub_zero]
    rfl
  rw [h2, e, h1]
  congr 1
  · funext c; by_cases hc : c < s.m_cpu_num <;> simp [hc]
  · funext c; by_cases hc : c < s.m_cpu_num <;> simp [hc]

theorem update_true_idempotent (s : gicv2) : (s.update true).update true = s.update true := by
  have h2 := update_true_eq s
  have h1 := update_virt_fold s s.m_cpu_num
    (fun c => if c < s.m_cpu_num then s.hppir_value c else s.VCPUIF.HPPIR c)
    (fun c => if c < s.m_cpu_num then s.virq_value c else s.VIRQ_OUT c)
  have e : ∀ (p : Nat → Nat) (o : Nat → Bool), (s.with_virtual_arbitration p o).update true =
      (List.range' 0 s.m_cpu_num).foldl (fun acc cpu => gicv2.update_cpu acc true cpu)
        (s.with_virtual_arbitration p o) := by
    intro p o
    unfold gicv2.update for_range
    rw [Nat.sub_zero]
    rfl
  rw [h2, e, h1]
  congr 1
  · funext c; by_cases hc : c < s.m_cpu_num <;> simp [hc]
  · funext c; by_cases hc : c < s.m_cpu_num <;> simp [hc]

/-- C22: arbitration is idempotent.  For every state and both paths (`virt`
false and true), running `gicv2::update(virt)` a second time gives exactly the
state the first run gave; in particular every output line `IRQ_OUT[cpu]` and
`VIRQ_OUT[cpu]` has the same value. -/
theorem C22_update_idempotent (s : gicv2) (virt : Bool) :
    (s.update virt).update virt = s.update virt ∧
    (∀ cpu, ((s.update virt).update virt).IRQ_OUT cpu = (s.update virt).IRQ_OUT cpu) ∧
    (∀ cpu, ((s.update virt).update virt).VIRQ_OUT cpu = (s.update virt).VIRQ_OUT cpu) := by
  have h : (s.update virt).update virt = s.update virt := by
    cases virt
    · exact update_false_idempotent s
    · exact update_true_idempotent s
  exact ⟨h, fun cpu => by rw [h], fun cpu => by rw [h]⟩

/-! ## The list-register scan -/

theorem lr_prio_field (v : Nat) : ((v &&& (0x1F <<< 23)) >>> 23) % 256 = (v >>> 23) &&& 0x1F := by
  have e : (v &&& (0x1F <<< 23)) >>> 23 = (v >>> 23) &&& 0x1F := by
    apply Nat.eq_of_testBit_eq
    intro i
    rw [Nat.testBit_shiftRight, Nat.testBit_and, Nat.testBit_and, Nat.testBit_shiftRight,
      Nat.testBit_shiftLeft]
    have h1 : decide (23 + i ≥ 23) = true := decide_eq_true (by omega)
    rw [h1, Bool.true_and, Nat.add_sub_cancel_left]
  rw [e]
  apply Nat.mod_eq_of_lt
  have : (v >>> 23) &&& 0x1F ≤ 0x1F := Nat.and_le_right
  omega

theorem lr_prio_lt (s : gicv2) (cpu i : Nat) : gicv2.vifctrl.lr_prio s cpu i < 32 := by
  unfold gicv2.vifctrl.lr_prio
  have : (s.VIFCTRL.LR cpu i >>> 23) &&& 0x1F ≤ 0x1F := Nat.and_le_right
  omega

theorem update_lr_body_eq (s : gicv2) (cpu i : Nat) (best : Nat × Nat) :
    s.update_lr_body cpu i best =
      if gicv2.vifctrl.is_lr_pending s i cpu = true then
        (if gicv2.vifctrl.lr_prio s cpu i < best.1 then
          (gicv2.vifctrl.lr_prio s cpu i, gicv2.vifctrl.lr_vid s cpu i) else best)
      else best := by
  unfold gicv2.update_lr_body gicv2.vifctrl.lr_prio gicv2.vifctrl.lr_vid
  simp only [lr_prio_field]

theorem lr_scan_eq (s : gicv2) (cpu n : Nat) (hn : n ≤ VCML_ARM_GICv2_SPURIOUS_IRQ) :
    for_range 0 n (s.update_lr_body cpu)
        ( VCML_ARM_GICv2_IDLE_PRIO, VCML_ARM_GICv2_SPURIOUS_IRQ) =
      ((for_range 0 n (scan_step (fun i => gicv2.vifctrl.is_lr_pending s i cpu)
          (fun i => gicv2.vifctrl.lr_prio s cpu i))
          ( VCML_ARM_GICv2_IDLE_PRIO, VCML_ARM_GICv2_SPURIOUS_IRQ)).1,
       if (for_range 0 n (scan_step (fun i => gicv2.vifctrl.is_lr_pending s i cpu)
          (fun i => gicv2.vifctrl.lr_prio s cpu i))
          ( VCML_ARM_GICv2_IDLE_PRIO, VCML_ARM_GICv2_SPURIOUS_IRQ)).2 < n then
         gicv2.vifctrl.lr_vid s cpu
           (for_range 0 n (scan_step (fun i => gicv2.vifctrl.is_lr_pending s i cpu)
            (fun i => gicv2.vifctrl.lr_prio s cpu i))
            ( VCML_ARM_GICv2_IDLE_PRIO, VCML_ARM_GICv2_SPURIOUS_IRQ)).2
       else VCML_ARM_GICv2_SPURIOUS_IRQ) := by
  induction n with
  | zero =>
    rw [for_range_self, for_range_self]
    rfl
  | succ n ih =>
    have hS : VCML_ARM_GICv2_SPURIOUS_IRQ = 1023 := rfl
    have ih := ih (by omega)
    have hspec := scan_range_spec (fun i => gicv2.vifctrl.is_lr_pending s i cpu)
      (fun i => gicv2.vifctrl.lr_prio s cpu i) n
    rw [for_range_succ 0 n _ _ (Nat.zero_le n), for_range_succ 0 n _ _ (Nat.zero_le n), ih,
      update_lr_body_eq]
    generalize for_range 0 n (scan_step (fun i => gicv2.vifctrl.is_lr_pending s i cpu)
      (fun i => gicv2.vifctrl.lr_prio s cpu i))
      ( VCML_ARM_GICv2_IDLE_PRIO, VCML_ARM_GICv2_SPURIOUS_IRQ) = r at hspec ⊢
    have hr : r.2 ≠ n := by
      rcases hspec with ⟨_, heq⟩ | ⟨hlt, _⟩
      · rw [heq]; simp only; omega
      · omega
    unfold scan_step
    simp only
    by_cases hp : gicv2.vifctrl.is_lr_pending s n cpu = true
    · rw [if_pos hp, if_pos hp]
      by_cases hq : gicv2.vifctrl.lr_prio s cpu n < r.1
      · rw [if_pos hq, if_pos hq]
        simp
      · rw [if_neg hq, if_neg hq]
        by_cases hl : r.2 < n
        · have : r.2 < n + 1 := by omega
          rw [if_pos hl, if_pos this]
        · have : ¬ r.2 < n + 1 := by omega
          rw [if_neg hl, if_neg this]
    · rw [if_neg hp, if_neg hp]
      by_cases hl : r.2 < n
      · have : r.2 < n + 1 := by omega
        rw [if_pos hl, if_pos this]
      · have : ¬ r.2 < n + 1 := by omega
        rw [if_neg hl, if_neg this]

/-- The list-register scan of `gicv2::update` ends either with the initial pair
when no slot is pending, or with the priority and virtual id of the pending
slot of minimum priority and, among those, lowest index. -/
theorem best_virtual_spec (s : gicv2) (cpu : Nat) :
    ((∀ j, j < VCML_ARM_GICv2_NLR → gicv2.vifctrl.is_lr_pending s j cpu = false) ∧
      s.best_virtual cpu = ( VCML_ARM_GICv2_IDLE_PRIO, VCML_ARM_GICv2_SPURIOUS_IRQ)) ∨
    (∃ b, b < VCML_ARM_GICv2_NLR ∧ gicv2.vifctrl.is_lr_pending s b cpu = true ∧
      s.best_virtual cpu = (gicv2.vifctrl.lr_prio s cpu b, gicv2.vifctrl.lr_vid s cpu b) ∧
      (∀ j, j < VCML_ARM_GICv2_NLR → gicv2.vifctrl.is_lr_pending s j cpu = true →
        gicv2.vifctrl.lr_prio s cpu b ≤ gicv2.vifctrl.lr_prio s cpu j) ∧
      (∀ j, j < b → gicv2.vifctrl.is_lr_pending s j cpu = true →
        gicv2.vifctrl.lr_prio s cpu b < gicv2.vifctrl.lr_prio s cpu j)) := by
  have hI : VCML_ARM_GICv2_IDLE_PRIO = 255 := rfl
  have hL : VCML_ARM_GICv2_NLR = 64 := rfl
  have hscan := lr_scan_eq s cpu VCML_ARM_GICv2_NLR (by decide)
  have hspec := scan_range_spec (fun i => gicv2.vifctrl.is_lr_pending s i cpu)
    (fun i => gicv2.vifctrl.lr_prio s cpu i) VCML_ARM_GICv2_NLR
  unfold gicv2.best_virtual
  rw [hscan]
  generalize for_range 0 VCML_ARM_GICv2_NLR
    (scan_step (fun i => gicv2.vifctrl.is_lr_pending s i cpu)
      (fun i => gicv2.vifctrl.lr_prio s cpu i))
    ( VCML_ARM_GICv2_IDLE_PRIO, VCML_ARM_GICv2_SPURIOUS_IRQ) = r at hspec ⊢
  rcases hspec with ⟨hall, heq⟩ | ⟨hlt, hcand, hprio, _, hmin, hfirst⟩
  · left
    refine ⟨fun j hj => ?_, ?_⟩
    · cases hpj : gicv2.vifctrl.is_lr_pending s j cpu
      · rfl
      · have h1 := hall j hj hpj
        have h2 := lr_prio_lt s cpu j
        simp only at h1
        omega
    · rw [heq]
      simp only
      have : ¬ VCML_ARM_GICv2_SPURIOUS_IRQ < VCML_ARM_GICv2_NLR := by decide
      rw [if_neg this]
  · right
    refine ⟨r.2, hlt, hcand, ?_, ?_, ?_⟩
    · rw [if_pos hlt, hprio]
    · intro j hj hpj
      rw [hprio]
      exact hmin j hj hpj
    · intro j hj hpj
      have h1 := hmin j (by omega) hpj
      rw [hprio]
      rcases Nat.lt_or_eq_of_le h1 with h | h
      · exact h
      · have := hfirst j (by omega) hpj h.symm
        omega

@[simp] theorem update_true_VIFCTRL (s : gicv2) : (s.update true).VIFCTRL = s.VIFCTRL := by
  rw [update_true_eq]; rfl

@[simp] theorem update_true_DISTIF (s : gicv2) : (s.update true).DISTIF = s.DISTIF := by
  rw [update_true_eq]; rfl

@[simp] theorem update_true_CPUIF (s : gicv2) : (s.update true).CPUIF = s.CPUIF := by
  rw [update_true_eq]; rfl

@[simp] theorem update_true_IRQ_OUT (s : gicv2) : (s.update true).IRQ_OUT = s.IRQ_OUT := by
  rw [update_true_eq]; rfl

@[simp] theorem update_true_m_irq_state (s : gicv2) :
    (s.update true).m_irq_state = s.m_irq_state := by
  rw [update_true_eq]; rfl

@[simp] theorem update_true_m_irq_num (s : gicv2) : (s.update true).m_irq_num = s.m_irq_num := by
  rw [update_true_eq]; rfl

@[simp] theorem update_true_m_cpu_num (s : gicv2) : (s.update true).m_cpu_num = s.m_cpu_num := by
  rw [update_true_eq]; rfl

@[simp] theorem update_true_RPR (s : gicv2) : (s.update true).VCPUIF.RPR = s.VCPUIF.RPR := by
  rw [update_true_eq]; rfl

@[simp] theorem update_true_PMR (s : gicv2) : (s.update true).VCPUIF.PMR = s.VCPUIF.PMR := by
  rw [update_true_eq]; rfl

@[simp] theorem update_true_BPR (s : gicv2) : (s.update true).VCPUIF.BPR = s.VCPUIF.BPR := by
  rw [update_true_eq]; rfl

theorem update_true_HPPIR (s : gicv2) (cpu : Nat) (hcpu : cpu < s.m_cpu_num) :
    (s.update true).VCPUIF.HPPIR cpu = s.hppir_value cpu := by
  rw [update_true_eq]
  simp [gicv2.with_virtual_arbitration, hcpu]

theorem update_true_VIRQ_OUT (s : gicv2) (cpu : Nat) (hcpu : cpu < s.m_cpu_num) :
    (s.update true).VIRQ_OUT cpu = s.virq_value cpu := by
  rw [update_true_eq]
  simp [gicv2.with_virtual_arbitration, hcpu]

/-- C26: best virtual candidate.  For a wired processor `cpu` with
`HCR.bank(cpu)` non-zero, after `gicv2::update(true)`: if no list-register
slot of `cpu` is pending, `HPPIR.bank(cpu)` is the spurious id 1023; if some
slot is pending there is a pending slot `b` whose priority field is minimal
among the pending slots and strictly below that of every pending slot of
lower index, and `HPPIR.bank(cpu)` holds the virtual-id field of `b` when that
priority is strictly below `PMR.bank(cpu)` (and the spurious id when it is
not).  Priority and virtual id are the fields of the list register
`LR.bank(cpu, b)`, which is what the scan reads. -/
theorem C26_best_virtual_candidate (s : gicv2) (cpu : Nat) (hcpu : cpu < s.m_cpu_num)
    (hhcr : s.VIFCTRL.HCR cpu ≠ 0) :
    ((∀ j, j < VCML_ARM_GICv2_NLR → gicv2.vifctrl.is_lr_pending s j cpu = false) →
      (s.update true).VCPUIF.HPPIR cpu = VCML_ARM_GICv2_SPURIOUS_IRQ) ∧
    ((∃ j, j < VCML_ARM_GICv2_NLR ∧ gicv2.vifctrl.is_lr_pending s j cpu = true) →
      ∃ b, b < VCML_ARM_GICv2_NLR ∧ gicv2.vifctrl.is_lr_pending s b cpu = true ∧
        (∀ j, j < VCML_ARM_GICv2_NLR → gicv2.vifctrl.is_lr_pending s j cpu = true →
          gicv2.vifctrl.lr_prio s cpu b ≤ gicv2.vifctrl.lr_prio s cpu j) ∧
        (∀ j, j < b → gicv2.vifctrl.is_lr_pending s j cpu = true →
          gicv2.vifctrl.lr_prio s cpu b < gicv2.vifctrl.lr_prio s cpu j) ∧
        (gicv2.vifctrl.lr_prio s cpu b < s.VCPUIF.PMR cpu →
          (s.update true).VCPUIF.HPPIR cpu = gicv2.vifctrl.lr_vid s cpu b) ∧
        (¬ gicv2.vifctrl.lr_prio s cpu b < s.VCPUIF.PMR cpu →
          (s.update true).VCPUIF.HPPIR cpu = VCML_ARM_GICv2_SPURIOUS_IRQ)) := by
  rw [update_true_HPPIR s cpu hcpu]
  unfold gicv2.hppir_value
  rw [if_neg hhcr]
  rcases best_virtual_spec s cpu with ⟨hnone, hbest⟩ | ⟨b, hb, hpb, hbest, hmin, hfirst⟩
  · refine ⟨fun _ => ?_, fun ⟨j, hj, hpj⟩ => ?_⟩
    · rw [hbest]
      split <;> rfl
    · rw [hnone j hj] at hpj
      exact absurd hpj (by decide)
  · refine ⟨fun hnone => ?_, fun _ => ⟨b, hb, hpb, hmin, hfirst, fun hlt => ?_, fun hge => ?_⟩⟩
    · rw [hnone b hb] at hpb
      exact absurd hpb (by decide)
    · rw [hbest]
      simp only
      rw [if_pos hlt]
    · rw [hbest]
      simp only
      rw [if_neg hge]

theorem write_HCR_state (s : gicv2) (cpu val : Nat) (hcpu : cpu < 256) :
    (gicv2.vifctrl.write_HCR s cpu val).2 =
      ({ s with VIFCTRL := { s.VIFCTRL with
          HCR := (Function.update s.VIFCTRL.HCR cpu val) } } : gicv2).update true := by
  unfold gicv2.vifctrl.write_HCR
  have e : ((cpu : Int) % 256).toNat = cpu := by omega
  simp only [e]

/-- The virtual output after `vifctrl::write_HCR`, for a wired processor `cpu`:
after `write_HCR(0)` the output `VIRQ_OUT[cpu]` is low and `HPPIR.bank(cpu)` is
the spurious id, whatever list registers are pending; when one of
`PMR.bank(cpu)` and `RPR.bank(cpu)` is at most 0xFF, after `write_HCR(v)` with
`v` non-zero `VIRQ_OUT[cpu]` is high if and only if some pending slot of `cpu`
has a priority field (the five bits the scan reads) strictly below both
registers. -/
theorem write_HCR_virtual_output (s : gicv2) (cpu v : Nat)
    (hcpu : cpu < s.m_cpu_num) (hcpu8 : cpu < VCML_ARM_GICv2_NCPU)
    (hprio : s.VCPUIF.PMR cpu ≤ 0xFF ∨ s.VCPUIF.RPR cpu ≤ 0xFF) :
    ((gicv2.vifctrl.write_HCR s cpu 0).2.VIRQ_OUT cpu = false ∧
      (gicv2.vifctrl.write_HCR s cpu 0).2.VCPUIF.HPPIR cpu = VCML_ARM_GICv2_SPURIOUS_IRQ) ∧
    (v ≠ 0 →
      ((gicv2.vifctrl.write_HCR s cpu v).2.VIRQ_OUT cpu = true ↔
        ∃ i, i < VCML_ARM_GICv2_NLR ∧ gicv2.vifctrl.is_lr_pending s i cpu = true ∧
          gicv2.vifctrl.lr_prio s cpu i < s.VCPUIF.PMR cpu ∧
          gicv2.vifctrl.lr_prio s cpu i < s.VCPUIF.RPR cpu)) := by
  have hN : VCML_ARM_GICv2_NCPU = 8 := rfl
  have hI : VCML_ARM_GICv2_IDLE_PRIO = 255 := rfl
  have h256 : cpu < 256 := by omega
  have kV : ∀ val, (gicv2.vifctrl.write_HCR s cpu val).2.VIRQ_OUT cpu =
      ({ s with VIFCTRL := { s.VIFCTRL with
        HCR := (Function.update s.VIFCTRL.HCR cpu val) } } : gicv2).virq_value cpu := by
    intro val
    rw [write_HCR_state s cpu val h256]
    exact update_true_VIRQ_OUT ({ s with VIFCTRL := { s.VIFCTRL with
        HCR := (Function.update s.VIFCTRL.HCR cpu val) } } : gicv2) cpu hcpu
  have kH : ∀ val, (gicv2.vifctrl.write_HCR s cpu val).2.VCPUIF.HPPIR cpu =
      ({ s with VIFCTRL := { s.VIFCTRL with
        HCR := (Function.update s.VIFCTRL.HCR cpu val) } } : gicv2).hppir_value cpu := by
    intro val
    rw [write_HCR_state s cpu val h256]
    exact update_true_HPPIR ({ s with VIFCTRL := { s.VIFCTRL with
        HCR := (Function.update s.VIFCTRL.HCR cpu val) } } : gicv2) cpu hcpu
  refine ⟨?_, fun hv => ?_⟩
  · rw [kV, kH]
    unfold gicv2.virq_value gicv2.hppir_value
    simp
  · rw [kV]
    unfold gicv2.virq_value
    have hh : ¬ (({ s with VIFCTRL := { s.VIFCTRL with
        HCR := (Function.update s.VIFCTRL.HCR cpu v) } } : gicv2).VIFCTRL.HCR cpu = 0) := by
      simp [hv]
    rw [if_neg hh]
    have hbv : ({ s with VIFCTRL := { s.VIFCTRL with
        HCR := (Function.update s.VIFCTRL.HCR cpu v) } } : gicv2).best_virtual cpu =
        s.best_virtual cpu := rfl
    rw [hbv]
    simp only [Bool.and_eq_true, decide_eq_true_eq]
    rcases best_virtual_spec s cpu with ⟨hnone, hbest⟩ | ⟨b, hb, hpb, hbest, hmin, _⟩
    · rw [hbest]
      simp only
      constructor
      · intro ⟨h1, h2⟩
        omega
      · intro ⟨i, hi, hpi, _⟩
        rw [hnone i hi] at hpi
        exact absurd hpi (by decide)
    · rw [hbest]
      simp only
      constructor
      · intro ⟨h1, h2⟩
        exact ⟨b, hb, hpb, h1, h2⟩
      · intro ⟨i, hi, hpi, h1, h2⟩
        have := hmin i hi hpi
        exact ⟨by omega, by omega⟩

/-! ## List registers -/

theorem set_lr_state_same (s : gicv2) (lr c : Nat) (v : gicv2.lr) :
    (gicv2.vifctrl.set_lr_state s lr c v).VIFCTRL.m_lr_state c lr = v := by
  simp [gicv2.vifctrl.set_lr_state]

theorem set_lr_state_other (s : gicv2) (lr c : Nat) (v : gicv2.lr) (c' i : Nat)
    (h : c' ≠ c ∨ i ≠ lr) :
    (gicv2.vifctrl.set_lr_state s lr c v).VIFCTRL.m_lr_state c' i = s.VIFCTRL.m_lr_state c' i := by
  unfold gicv2.vifctrl.set_lr_state
  simp only [Function.update_apply]
  by_cases hc : c' = c
  · subst hc
    rcases h with h | h
    · exact absurd rfl h
    · simp [h]
  · simp [hc]

theorem set_lr_state_twice (s : gicv2) (lr c : Nat) (a b : gicv2.lr) :
    gicv2.vifctrl.set_lr_state (gicv2.vifctrl.set_lr_state s lr c a) lr c b =
      gicv2.vifctrl.set_lr_state s lr c b := by
  simp [gicv2.vifctrl.set_lr_state]

theorem set_lr_cpuid_same (s : gicv2) (lr c x : Nat) :
    (gicv2.vifctrl.set_lr_cpuid s lr c x).VIFCTRL.m_lr_state c lr =
      { s.VIFCTRL.m_lr_state c lr with cpu_id := x } :=
  set_lr_state_same s lr c _

theorem set_lr_cpuid_other (s : gicv2) (lr c x c' i : Nat) (h : c' ≠ c ∨ i ≠ lr) :
    (gicv2.vifctrl.set_lr_cpuid s lr c x).VIFCTRL.m_lr_state c' i = s.VIFCTRL.m_lr_state c' i :=
  set_lr_state_other s lr c _ c' i h

theorem set_lr_physid_same (s : gicv2) (lr c x : Nat) :
    (gicv2.vifctrl.set_lr_physid s lr c x).VIFCTRL.m_lr_state c lr =
      { s.VIFCTRL.m_lr_state c lr with physical_id := x } :=
  set_lr_state_same s lr c _

theorem set_lr_physid_other (s : gicv2) (lr c x c' i : Nat) (h : c' ≠ c ∨ i ≠ lr) :
    (gicv2.vifctrl.set_lr_physid s lr c x).VIFCTRL.m_lr_state c' i = s.VIFCTRL.m_lr_state c' i :=
  set_lr_state_other s lr c _ c' i h

theorem set_lr_prio_same (s : gicv2) (lr c x : Nat) :
    (gicv2.vifctrl.set_lr_prio s lr c x).VIFCTRL.m_lr_state c lr =
      { s.VIFCTRL.m_lr_state c lr with prio := x } :=
  set_lr_state_same s lr c _

theorem set_lr_prio_other (s : gicv2) (lr c x c' i : Nat) (h : c' ≠ c ∨ i ≠ lr) :
    (gicv2.vifctrl.set_lr_prio s lr c x).VIFCTRL.m_lr_state c' i = s.VIFCTRL.m_lr_state c' i :=
  set_lr_state_other s lr c _ c' i h

theorem set_lr_vid_same (s : gicv2) (lr c x : Nat) :
    (gicv2.vifctrl.set_lr_vid s lr c x).VIFCTRL.m_lr_state c lr =
      { s.VIFCTRL.m_lr_state c lr with virtual_id := x } :=
  set_lr_state_same s lr c _

theorem set_lr_vid_other (s : gicv2) (lr c x c' i : Nat) (h : c' ≠ c ∨ i ≠ lr) :
    (gicv2.vifctrl.set_lr_vid s lr c x).VIFCTRL.m_lr_state c' i = s.VIFCTRL.m_lr_state c' i :=
  set_lr_state_other s lr c _ c' i h

theorem set_lr_hw_same (s : gicv2) (lr c : Nat) (p : Bool) :
    (gicv2.vifctrl.set_lr_hw s lr c p).VIFCTRL.m_lr_state c lr =
      { s.VIFCTRL.m_lr_state c lr with hw := (if p = true then 1 else 0) } :=
  set_lr_state_same s lr c _

theorem set_lr_hw_other (s : gicv2) (lr c : Nat) (p : Bool) (c' i : Nat) (h : c' ≠ c ∨ i ≠ lr) :
    (gicv2.vifctrl.set_lr_hw s lr c p).VIFCTRL.m_lr_state c' i = s.VIFCTRL.m_lr_state c' i :=
  set_lr_state_other s lr c _ c' i h

theorem set_lr_pending_same (s : gicv2) (lr c : Nat) (p : Bool) :
    (gicv2.vifctrl.set_lr_pending s lr c p).VIFCTRL.m_lr_state c lr =
      { s.VIFCTRL.m_lr_state c lr with pending := p } :=
  set_lr_state_same s lr c _

theorem set_lr_pending_other (s : gicv2) (lr c : Nat) (p : Bool) (c' i : Nat) (h : c' ≠ c ∨ i ≠ lr) :
    (gicv2.vifctrl.set_lr_pending s lr c p).VIFCTRL.m_lr_state c' i = s.VIFCTRL.m_lr_state c' i :=
  set_lr_state_other s lr c _ c' i h

theorem set_lr_active_same (s : gicv2) (lr c : Nat) (p : Bool) :
    (gicv2.vifctrl.set_lr_active s lr c p).VIFCTRL.m_lr_state c lr =
      { s.VIFCTRL.m_lr_state c lr with active := p } :=
  set_lr_state_same s lr c _

theorem set_lr_active_other (s : gicv2) (lr c : Nat) (p : Bool) (c' i : Nat) (h : c' ≠ c ∨ i ≠ lr) :
    (gicv2.vifctrl.set_lr_active s lr c p).VIFCTRL.m_lr_state c' i = s.VIFCTRL.m_lr_state c' i :=
  set_lr_state_other s lr c _ c' i h

theorem and_one_cases (x : Nat) : x &&& 1 = 0 ∨ x &&& 1 = 1 := by
  have : x &&& 1 ≤ 1 := Nat.and_le_right
  omega

theorem write_LR_source_same (s : gicv2) (cpu v idx : Nat) :
    (gicv2.vifctrl.write_LR_source s cpu v idx).VIFCTRL.m_lr_state cpu idx =
      { s.VIFCTRL.m_lr_state cpu idx with
        hw := (v >>> 31) &&& 1,
        physical_id := if (v >>> 31) &&& 1 = 0 then 0 else (v >>> 10) &&& 0x1ff,
        cpu_id := if (v >>> 31) &&& 1 = 0 then (v >>> 10) &&& 7 else 0 } := by
  unfold gicv2.vifctrl.write_LR_source
  have h3 : ((v >>> 10) &&& 0b111) % 256 = (v >>> 10) &&& 7 := by
    apply Nat.mod_eq_of_lt
    have : (v >>> 10) &&& 7 ≤ 7 := Nat.and_le_right
    omega
  have h4 : ((v >>> 10) &&& 0x1ff) % 2 ^ 16 = (v >>> 10) &&& 0x1ff := by
    apply Nat.mod_eq_of_lt
    have : (v >>> 10) &&& 0x1ff ≤ 0x1ff := Nat.and_le_right
    omega
  rcases and_one_cases (v >>> 31) with h | h
  · have h1 : ((v >>> 31) &&& 0b1) % 256 = 0 := by rw [h]
    simp only [h1, if_true, h]
    rw [set_lr_physid_same, set_lr_hw_same, set_lr_cpuid_same, h3]
    rfl
  · have h1 : ¬ (((v >>> 31) &&& 0b1) % 256 = 0) := by rw [h]; decide
    have h2 : ¬ ((1 : Nat) = 0) := by decide
    simp only [h1, if_false, h, h2]
    rw [set_lr_physid_same, set_lr_hw_same, set_lr_cpuid_same, h4]
    rfl

theorem write_LR_source_other (s : gicv2) (cpu v idx c' i : Nat) (h : c' ≠ cpu ∨ i ≠ idx) :
    (gicv2.vifctrl.write_LR_source s cpu v idx).VIFCTRL.m_lr_state c' i =
      s.VIFCTRL.m_lr_state c' i := by
  unfold gicv2.vifctrl.write_LR_source
  simp only
  split
  · rw [set_lr_physid_other _ _ _ _ _ _ h, set_lr_hw_other _ _ _ _ _ _ h,
      set_lr_cpuid_other _ _ _ _ _ _ h]
  · rw [set_lr_physid_other _ _ _ _ _ _ h, set_lr_hw_other _ _ _ _ _ _ h,
      set_lr_cpuid_other _ _ _ _ _ _ h]

theorem lr_state_field (v : Nat) :
    ((v >>> 28) &&& 0b11) % 256 = (v >>> 28) &&& 3 ∧
    ((v >>> 28) &&& 3) &&& 1 = (v >>> 28) &&& 1 ∧
    ((v >>> 28) &&& 3) &&& 2 = (v >>> 28) &&& 2 ∧
    ((v >>> 28) &&& 3 = 0 → (v >>> 28) &&& 1 = 0 ∧ (v >>> 28) &&& 2 = 0) := by
  have h0 : (v >>> 28) &&& 3 ≤ 3 := Nat.and_le_right
  refine ⟨Nat.mod_eq_of_lt (by omega), ?_, ?_, ?_⟩
  · rw [Nat.and_assoc]; rfl
  · rw [Nat.and_assoc]; rfl
  · intro h
    have e1 : ((v >>> 28) &&& 3) &&& 1 = (v >>> 28) &&& 1 := by rw [Nat.and_assoc]; rfl
    have e2 : ((v >>> 28) &&& 3) &&& 2 = (v >>> 28) &&& 2 := by rw [Nat.and_assoc]; rfl
    rw [h, Nat.zero_and] at e1 e2
    exact ⟨e1.symm, e2.symm⟩

theorem write_LR_flags_same (s : gicv2) (cpu v idx : Nat) :
    (gicv2.vifctrl.write_LR_flags s cpu v idx).VIFCTRL.m_lr_state cpu idx =
      { s.VIFCTRL.m_lr_state cpu idx with
        pending :=
          if (v >>> 28) &&& 1 ≠ 0 then true
          else if (v >>> 28) &&& 3 = 0 then false
          else (s.VIFCTRL.m_lr_state cpu idx).pending,
        active :=
          if (v >>> 28) &&& 2 ≠ 0 then true
          else if (v >>> 28) &&& 3 = 0 then false
          else (s.VIFCTRL.m_lr_state cpu idx).active } := by
  obtain ⟨e0, e1, e2, ez⟩ := lr_state_field v
  unfold gicv2.vifctrl.write_LR_flags
  simp only [e0, e1, e2]
  by_cases hz : (v >>> 28) &&& 3 = 0
  · obtain ⟨z1, z2⟩ := ez hz
    have n1 : ¬ ((v >>> 28) &&& 1 ≠ 0) := by rw [z1]; decide
    have n2 : ¬ ((v >>> 28) &&& 2 ≠ 0) := by rw [z2]; decide
    rw [if_neg n1, if_neg n2, if_pos hz, if_neg n1, if_neg n2, if_pos hz, if_pos hz,
      set_lr_active_same, set_lr_pending_same]
  · rw [if_neg hz, if_neg hz, if_neg hz]
    by_cases h1 : (v >>> 28) &&& 1 ≠ 0 <;> by_cases h2 : (v >>> 28) &&& 2 ≠ 0
    · rw [if_pos h1, if_pos h2, if_pos h1, if_pos h2, set_lr_active_same, set_lr_pending_same]
    · rw [if_pos h1, if_neg h2, if_pos h1, if_neg h2, set_lr_pending_same]
    · rw [if_neg h1, if_pos h2, if_neg h1, if_pos h2, set_lr_active_same]
    · rw [if_neg h1, if_neg h2, if_neg h1, if_neg h2]

theorem write_LR_flags_other (s : gicv2) (cpu v idx c' i : Nat) (h : c' ≠ cpu ∨ i ≠ idx) :
    (gicv2.vifctrl.write_LR_flags s cpu v idx).VIFCTRL.m_lr_state c' i =
      s.VIFCTRL.m_lr_state c' i := by
  unfold gicv2.vifctrl.write_LR_flags
  simp only
  split <;> split <;> split <;>
    simp only [set_lr_active_other _ _ _ _ _ _ h, set_lr_pending_other _ _ _ _ _ _ h]

/-- The slot `vifctrl::write_LR` leaves in `m_lr_state[cpu][idx]`, as a function
of the written value and the slot's previous content. -/
theorem write_LR_slot (s : gicv2) (cpu v idx : Nat) (hcpu : cpu < 256) :
    (gicv2.vifctrl.write_LR s cpu v idx).2.VIFCTRL.m_lr_state cpu idx =
      { pending :=
          if (v >>> 28) &&& 1 ≠ 0 then true
          else if (v >>> 28) &&& 3 = 0 then false
          else (s.VIFCTRL.m_lr_state cpu idx).pending,
        active :=
          if (v >>> 28) &&& 2 ≠ 0 then true
          else if (v >>> 28) &&& 3 = 0 then false
          else (s.VIFCTRL.m_lr_state cpu idx).active,
        hw := (v >>> 31) &&& 1,
        prio := (v >>> 23) &&& 0x1f,
        virtual_id := v &&& 0x1ff,
        physical_id := if (v >>> 31) &&& 1 = 0 then 0 else (v >>> 10) &&& 0x1ff,
        cpu_id := if (v >>> 31) &&& 1 = 0 then (v >>> 10) &&& 7 else 0 } := by
  have e : ((cpu : Int) % 256).toNat = cpu := by omega
  unfold gicv2.vifctrl.write_LR
  simp only [e, update_true_VIFCTRL]
  rw [set_lr_vid_same, set_lr_prio_same, write_LR_flags_same, write_LR_source_same]

theorem write_LR_other (s : gicv2) (cpu v idx c' i : Nat) (hcpu : cpu < 256)
    (h : c' ≠ cpu ∨ i ≠ idx) :
    (gicv2.vifctrl.write_LR s cpu v idx).2.VIFCTRL.m_lr_state c' i =
      s.VIFCTRL.m_lr_state c' i := by
  have e : ((cpu : Int) % 256).toNat = cpu := by omega
  unfold gicv2.vifctrl.write_LR
  simp only [e, update_true_VIFCTRL]
  rw [set_lr_vid_other _ _ _ _ _ _ h, set_lr_prio_other _ _ _ _ _ _ h,
    write_LR_flags_other _ _ _ _ _ _ h, write_LR_source_other _ _ _ _ _ _ h]

/-- The list register `vifctrl::write_LR` leaves in `LR.bank(cpu, idx)`. -/
theorem write_LR_register (s : gicv2) (cpu v idx : Nat) (hcpu : cpu < 256) :
    (gicv2.vifctrl.write_LR s cpu v idx).2.VIFCTRL.LR cpu idx = v := by
  have e : ((cpu : Int) % 256).toNat = cpu := by omega
  unfold gicv2.vifctrl.write_LR gicv2.vifctrl.lr_bank
  simp only [e, update_true_VIFCTRL, Int.toNat_ofNat, Function.update_same]

/-- C25: list-register field decode.  After `vifctrl::write_LR(v, idx)`
executed by processor `cpu`, slot `idx` of `cpu` has priority `v[27:23]`,
virtual id `v[8:0]` and hardware-backed flag `v[31]`; when `v[31]` is 1 its
physical id is `v[18:10]` and its source-processor id is 0; when `v[31]` is 0
its source-processor id is `v[12:10]` and its physical id is 0.  No other slot
of `cpu` and no slot of another processor is modified. -/
theorem C25_list_register_field_decode (s : gicv2) (cpu v idx : Nat)
    (hcpu : cpu < VCML_ARM_GICv2_NCPU) :
    ((gicv2.vifctrl.write_LR s cpu v idx).2.VIFCTRL.m_lr_state cpu idx).prio =
      (v >>> 23) &&& 0x1F ∧
    ((gicv2.vifctrl.write_LR s cpu v idx).2.VIFCTRL.m_lr_state cpu idx).virtual_id =
      v &&& 0x1FF ∧
    ((gicv2.vifctrl.write_LR s cpu v idx).2.VIFCTRL.m_lr_state cpu idx).hw = (v >>> 31) &&& 1 ∧
    ((v >>> 31) &&& 1 = 1 →
      ((gicv2.vifctrl.write_LR s cpu v idx).2.VIFCTRL.m_lr_state cpu idx).physical_id =
        (v >>> 10) &&& 0x1FF ∧
      ((gicv2.vifctrl.write_LR s cpu v idx).2.VIFCTRL.m_lr_state cpu idx).cpu_id = 0) ∧
    ((v >>> 31) &&& 1 = 0 →
      ((gicv2.vifctrl.write_LR s cpu v idx).2.VIFCTRL.m_lr_state cpu idx).cpu_id =
        (v >>> 10) &&& 0x7 ∧
      ((gicv2.vifctrl.write_LR s cpu v idx).2.VIFCTRL.m_lr_state cpu idx).physical_id = 0) ∧
    (∀ c i, c ≠ cpu ∨ i ≠ idx →
      (gicv2.vifctrl.write_LR s cpu v idx).2.VIFCTRL.m_lr_state c i =
        s.VIFCTRL.m_lr_state c i) := by
  have hN : VCML_ARM_GICv2_NCPU = 8 := rfl
  have h256 : cpu < 256 := by omega
  rw [write_LR_slot s cpu v idx h256]
  refine ⟨rfl, rfl, rfl, fun h => ?_, fun h => ?_, fun c i hci => ?_⟩
  · have h0 : ¬ ((v >>> 31) &&& 1 = 0) := by omega
    simp only [if_neg h0]
    exact ⟨trivial, trivial⟩
  · simp only [if_pos h]
    exact ⟨trivial, trivial⟩
  · exact write_LR_other s cpu v idx c i h256 hci

/-! ## Virtual acknowledge and end of interrupt -/

theorem get_lr_lt (s : gicv2) (irq c : Nat) : gicv2.vifctrl.get_lr s irq c < VCML_ARM_GICv2_NLR := by
  unfold gicv2.vifctrl.get_lr
  split
  · rename_i i h
    have := List.mem_of_find?_eq_some h
    exact List.mem_range.mp this
  · decide

theorem get_lr_congr (t s : gicv2) (irq c : Nat)
    (h : t.VIFCTRL.m_lr_state = s.VIFCTRL.m_lr_state) :
    gicv2.vifctrl.get_lr t irq c = gicv2.vifctrl.get_lr s irq c := by
  unfold gicv2.vifctrl.get_lr
  rw [h]

theorem ack_registers_m_lr_state (s : gicv2) (cpu irq : Nat) :
    (gicv2.vcpuif.ack_registers s cpu irq).VIFCTRL.m_lr_state = s.VIFCTRL.m_lr_state := rfl

theorem set_lr_state_VCPUIF (s : gicv2) (lr c : Nat) (v : gicv2.lr) :
    (gicv2.vifctrl.set_lr_state s lr c v).VCPUIF = s.VCPUIF := rfl

theorem set_lr_state_APR (s : gicv2) (lr c : Nat) (v : gicv2.lr) :
    (gicv2.vifctrl.set_lr_state s lr c v).VIFCTRL.APR = s.VIFCTRL.APR := rfl

theorem ack_virtual_slot (s : gicv2) (cpu irq : Nat) :
    (gicv2.vcpuif.ack_virtual s cpu irq).1 = gicv2.vifctrl.get_lr s irq cpu := by
  unfold gicv2.vcpuif.ack_virtual
  simp only
  rw [get_lr_congr _ s irq cpu (ack_registers_m_lr_state s cpu irq)]
  have h : gicv2.vifctrl.get_lr s irq cpu < 64 := get_lr_lt s irq cpu
  exact Nat.mod_eq_of_lt (by omega)

theorem single_bit_drop (k : Nat) (hk : k < 32) :
    (1 <<< k) &&& (((1 <<< k) + (2 ^ 32 - 1)) % 2 ^ 32) = 0 := by
  revert k
  decide

/-- The state `vcpuif::write_EOIR` leaves for an id below the line count, on the
registers and list-register slots of the virtual interface. -/
theorem vcpuif_write_EOIR_fields (pow2_log2 : Nat → Nat) (s : gicv2) (cpu val : Nat)
    (hcpu : cpu < 256) (hrange : val &&& 0x1FF < s.m_irq_num) :
    (gicv2.vcpuif.write_EOIR pow2_log2 s cpu val).1 = val ∧
    (gicv2.vcpuif.write_EOIR pow2_log2 s cpu val).2.VIFCTRL.APR cpu =
      s.VIFCTRL.APR cpu &&& ((s.VIFCTRL.APR cpu + (2 ^ 32 - 1)) % 2 ^ 32) ∧
    (gicv2.vcpuif.write_EOIR pow2_log2 s cpu val).2.VCPUIF.RPR cpu =
      (if s.VIFCTRL.APR cpu &&& ((s.VIFCTRL.APR cpu + (2 ^ 32 - 1)) % 2 ^ 32) ≠ 0 then
        (pow2_log2 (s.VIFCTRL.APR cpu &&& ((s.VIFCTRL.APR cpu + (2 ^ 32 - 1)) % 2 ^ 32)) <<<
          (VCML_ARM_GICv2_VIRT_MIN_BPR + 1)) % 2 ^ 32
      else VCML_ARM_GICv2_IDLE_PRIO) ∧
    (gicv2.vcpuif.write_EOIR pow2_log2 s cpu val).2.VIFCTRL.m_lr_state cpu
        (gicv2.vifctrl.get_lr s (val &&& 0x1FF) cpu) =
      { s.VIFCTRL.m_lr_state cpu (gicv2.vifctrl.get_lr s (val &&& 0x1FF) cpu) with
        active := false } ∧
    (∀ c i, c ≠ cpu ∨ i ≠ gicv2.vifctrl.get_lr s (val &&& 0x1FF) cpu →
      (gicv2.vcpuif.write_EOIR pow2_log2 s cpu val).2.VIFCTRL.m_lr_state c i =
        s.VIFCTRL.m_lr_state c i) := by
  have e : ((cpu : Int) % 256).toNat = cpu := by omega
  have hr : ¬ (val &&& 0x1FF ≥ s.get_irq_num) := by
    unfold gicv2.get_irq_num; omega
  unfold gicv2.vcpuif.write_EOIR
  simp only [e, hr, if_false, update_true_VIFCTRL, update_true_RPR]
  have hV : ∀ (t : gicv2) (b : Bool) (i m : Nat) (c : Prop) [Decidable c],
      (if c then t.set_irq_active i b m else t).VIFCTRL = t.VIFCTRL := by
    intro t b i m c _; split <;> rfl
  have hC : ∀ (t : gicv2) (b : Bool) (i m : Nat) (c : Prop) [Decidable c],
      (if c then t.set_irq_active i b m else t).VCPUIF = t.VCPUIF := by
    intro t b i m c _; split <;> rfl
  have hV2 : ∀ (t u : gicv2) (c : Prop) [Decidable c], u.VIFCTRL = t.VIFCTRL →
      (if c then u else t).VIFCTRL = t.VIFCTRL := by
    intro t u c _ h; split
    · exact h
    · rfl
  have hC2 : ∀ (t u : gicv2) (c : Prop) [Decidable c], u.VCPUIF = t.VCPUIF →
      (if c then u else t).VCPUIF = t.VCPUIF := by
    intro t u c _ h; split
    · exact h
    · rfl
  have hlr : ∀ t : gicv2, t.VIFCTRL.m_lr_state = s.VIFCTRL.m_lr_state →
      gicv2.vifctrl.get_lr t (val &&& 0x1FF) cpu = gicv2.vifctrl.get_lr s (val &&& 0x1FF) cpu :=
    fun t ht => get_lr_congr t s _ _ ht
  refine ⟨trivial, ?_, ?_, ?_, ?_⟩
  · rw [hV2 _ _ _ (hV _ _ _ _ _)]
    unfold gicv2.vifctrl.set_lr_active
    rw [set_lr_state_APR]
    simp only [Function.update_same]
  · rw [hC2 _ _ _ (hC _ _ _ _ _)]
    unfold gicv2.vifctrl.set_lr_active
    rw [set_lr_state_VCPUIF]
    simp only [Function.update_same]
  · rw [hV2 _ _ _ (hV _ _ _ _ _), set_lr_active_same]
  · intro c i h
    rw [hV2 _ _ _ (hV _ _ _ _ _), set_lr_active_other _ _ _ _ _ _ h]

/-- `vifctrl::get_lr` returns slot `i` when `i` carries the id and no slot of
lower index does. -/
theorem get_lr_first (s : gicv2) (irq c i : Nat) (hi : i < VCML_ARM_GICv2_NLR)
    (h : gicv2.vifctrl.lr_carries s c irq i = true)
    (hfirst : ∀ j, j < i → gicv2.vifctrl.lr_carries s c irq j = false) :
    gicv2.vifctrl.get_lr s irq c = i := by
  have e : (List.range VCML_ARM_GICv2_NLR).find? (fun i =>
      decide ((s.VIFCTRL.m_lr_state c i).virtual_id = irq) &&
        ((s.VIFCTRL.m_lr_state c i).active || (s.VIFCTRL.m_lr_state c i).pending)) = some i := by
    rw [List.find?_range_eq_some]
    refine ⟨h, List.mem_range.mpr hi, fun j hj => ?_⟩
    have := hfirst j hj
    unfold gicv2.vifctrl.lr_carries at this
    rw [this]; rfl
  unfold gicv2.vifctrl.get_lr
  rw [e]

/-- C30 (amended): virtual EOI of the only active virtual interrupt.  Let
`APR.bank(cpu)` have a single bit set, let slot `slot` be the one slot of `cpu`
that is active with the virtual id `vid`, let `vid` be below the configured
line count (an id at or above it is ignored) and let no slot of lower index
hold `vid` with its pending flag set.  Then `vcpuif::write_EOIR(vid)` leaves
`APR.bank(cpu)` = 0 and `RPR.bank(cpu)` = 0xFF (the idle priority), and clears
the active flag of `slot` while leaving every other field of that slot and
every other slot unchanged. -/
theorem C30_virtual_EOI_of_only_active (pow2_log2 : Nat → Nat) (s : gicv2)
    (cpu val k slot : Nat)
    (hcpu : cpu < VCML_ARM_GICv2_NCPU)
    (hrange : val &&& 0x1FF < s.m_irq_num)
    (hk : k < 32) (hapr : s.VIFCTRL.APR cpu = 1 <<< k)
    (hslot : slot < VCML_ARM_GICv2_NLR)
    (hact : (s.VIFCTRL.m_lr_state cpu slot).active = true)
    (hvid : (s.VIFCTRL.m_lr_state cpu slot).virtual_id = val &&& 0x1FF)
    (honly : ∀ j, j < VCML_ARM_GICv2_NLR → j ≠ slot →
      ¬ ((s.VIFCTRL.m_lr_state cpu j).active = true ∧
        (s.VIFCTRL.m_lr_state cpu j).virtual_id = val &&& 0x1FF))
    (hpend : ∀ j, j < slot →
      ¬ ((s.VIFCTRL.m_lr_state cpu j).pending = true ∧
        (s.VIFCTRL.m_lr_state cpu j).virtual_id = val &&& 0x1FF)) :
    (gicv2.vcpuif.write_EOIR pow2_log2 s cpu val).2.VIFCTRL.APR cpu = 0 ∧
    (gicv2.vcpuif.write_EOIR pow2_log2 s cpu val).2.VCPUIF.RPR cpu = VCML_ARM_GICv2_IDLE_PRIO ∧
    (gicv2.vcpuif.write_EOIR pow2_log2 s cpu val).2.VIFCTRL.m_lr_state cpu slot =
      { s.VIFCTRL.m_lr_state cpu slot with active := false } ∧
    (∀ c i, c ≠ cpu ∨ i ≠ slot →
      (gicv2.vcpuif.write_EOIR pow2_log2 s cpu val).2.VIFCTRL.m_lr_state c i =
        s.VIFCTRL.m_lr_state c i) := by
  have hN : VCML_ARM_GICv2_NCPU = 8 := rfl
  have hL : VCML_ARM_GICv2_NLR = 64 := rfl
  have hget : gicv2.vifctrl.get_lr s (val &&& 0x1FF) cpu = slot := by
    refine get_lr_first s _ cpu slot hslot ?_ ?_
    · unfold gicv2.vifctrl.lr_carries
      rw [hvid, hact]; simp
    · intro j hj
      have h1 := honly j (by omega) (by omega)
      have h2 := hpend j hj
      unfold gicv2.vifctrl.lr_carries
      by_cases hv : (s.VIFCTRL.m_lr_state cpu j).virtual_id = val &&& 0x1FF
      · have ha : (s.VIFCTRL.m_lr_state cpu j).active = false := by
          cases hx : (s.VIFCTRL.m_lr_state cpu j).active
          · rfl
          · exact absurd ⟨hx, hv⟩ h1
        have hp : (s.VIFCTRL.m_lr_state cpu j).pending = false := by
          cases hx : (s.VIFCTRL.m_lr_state cpu j).pending
          · rfl
          · exact absurd ⟨hx, hv⟩ h2
        rw [ha, hp]; simp
      · simp [hv]
  obtain ⟨_, hA, hR, hS, hO⟩ := vcpuif_write_EOIR_fields pow2_log2 s cpu val (by omega) hrange
  have hz : s.VIFCTRL.APR cpu &&& ((s.VIFCTRL.APR cpu + (2 ^ 32 - 1)) % 2 ^ 32) = 0 := by
    rw [hapr]; exact single_bit_drop k hk
  rw [hz] at hA hR
  rw [hget] at hS hO
  exact ⟨hA, by simpa using hR, hS, hO⟩

/-! ## Instances for the virtual interface -/

/-- C24: the list-register round trip fails on a slot whose pending flag is
already set.  `vifctrl::write_LR` sets the pending flag when state bit 28 is
written as 1 and the active flag when state bit 29 is written as 1, and clears
them only when both bits are written as 0; a write of state "active only" to a
pending slot leaves the pending flag set.  Evaluated for processor 0, list
register 0: after writing 0x11800005 (pending, priority 3, virtual id 5) and
then 0x21800005 (active, same priority and id), `vifctrl::read_LR` returns
0x31800005, whose state field is 3 while that of the written value is 2. -/
theorem C24_write_LR_keeps_stale_pending_flag :
    gicv2.vifctrl.is_lr_pending scenario_virt_pending 0 0 = true ∧
    (gicv2.vifctrl.read_LR (gicv2.vifctrl.write_LR scenario_virt_pending 0 0x21800005 0).2 0 0).1 =
      0x31800005 ∧
    ((0x21800005 : Nat) >>> 28) &&& 3 = 2 ∧
    ((gicv2.vifctrl.read_LR
      (gicv2.vifctrl.write_LR scenario_virt_pending 0 0x21800005 0).2 0 0).1 >>> 28) &&& 3 = 3 := by
  decide

theorem C25_witness :
    0 < VCML_ARM_GICv2_NCPU ∧
    ((gicv2.vifctrl.write_LR scenario_virt 0 0x11800805 0).2.VIFCTRL.m_lr_state 0 0).prio =
      (0x11800805 >>> 23) &&& 0x1F ∧
    ((0x11800805 >>> 31) &&& 1 = 0 →
      ((gicv2.vifctrl.write_LR scenario_virt 0 0x11800805 0).2.VIFCTRL.m_lr_state 0 0).cpu_id =
        (0x11800805 >>> 10) &&& 0x7 ∧
      ((gicv2.vifctrl.write_LR scenario_virt 0 0x11800805 0).2.VIFCTRL.m_lr_state 0 0).physical_id =
        0) :=
  ⟨by decide,
    (C25_list_register_field_decode scenario_virt 0 0x11800805 0 (by decide)).1,
    (C25_list_register_field_decode scenario_virt 0 0x11800805 0 (by decide)).2.2.2.2.1⟩

/-- The statement of C26 for processor 0 in `scenario_virt_three_pending`: slots
0, 1 and 2 are pending with priorities 3, 1 and 1, the mask is 0xF8, and
`HPPIR.bank(0)` holds 6, the virtual id of slot 1, the lower of the two slots
of minimum priority. -/
theorem C26_witness :
    (0 < scenario_virt_three_pending.m_cpu_num ∧
      scenario_virt_three_pending.VIFCTRL.HCR 0 ≠ 0 ∧
      (0 < VCML_ARM_GICv2_NLR ∧
        gicv2.vifctrl.is_lr_pending scenario_virt_three_pending 0 0 = true) ∧
      gicv2.vifctrl.is_lr_pending scenario_virt_three_pending 1 0 = true ∧
      gicv2.vifctrl.is_lr_pending scenario_virt_three_pending 2 0 = true ∧
      gicv2.vifctrl.lr_prio scenario_virt_three_pending 0 0 = 3 ∧
      gicv2.vifctrl.lr_prio scenario_virt_three_pending 0 1 = 1 ∧
      gicv2.vifctrl.lr_prio scenario_virt_three_pending 0 2 = 1 ∧
      gicv2.vifctrl.lr_vid scenario_virt_three_pending 0 1 = 6 ∧
      scenario_virt_three_pending.VCPUIF.PMR 0 = 0xF8 ∧
      (scenario_virt_three_pending.update true).VCPUIF.HPPIR 0 = 6) ∧
    ∃ b, b < VCML_ARM_GICv2_NLR ∧
      gicv2.vifctrl.is_lr_pending scenario_virt_three_pending b 0 = true ∧
      (∀ j, j < VCML_ARM_GICv2_NLR →
        gicv2.vifctrl.is_lr_pending scenario_virt_three_pending j 0 = true →
        gicv2.vifctrl.lr_prio scenario_virt_three_pending 0 b ≤
          gicv2.vifctrl.lr_prio scenario_virt_three_pending 0 j) ∧
      (∀ j, j < b → gicv2.vifctrl.is_lr_pending scenario_virt_three_pending j 0 = true →
        gicv2.vifctrl.lr_prio scenario_virt_three_pending 0 b <
          gicv2.vifctrl.lr_prio scenario_virt_three_pending 0 j) ∧
      (gicv2.vifctrl.lr_prio scenario_virt_three_pending 0 b <
          scenario_virt_three_pending.VCPUIF.PMR 0 →
        (scenario_virt_three_pending.update true).VCPUIF.HPPIR 0 =
          gicv2.vifctrl.lr_vid scenario_virt_three_pending 0 b) ∧
      (¬ gicv2.vifctrl.lr_prio scenario_virt_three_pending 0 b <
          scenario_virt_three_pending.VCPUIF.PMR 0 →
        (scenario_virt_three_pending.update true).VCPUIF.HPPIR 0 =
          VCML_ARM_GICv2_SPURIOUS_IRQ) :=
  ⟨by decide,
    (C26_best_virtual_candidate scenario_virt_three_pending 0 (by decide) (by decide)).2
      ⟨0, by decide⟩⟩

set_option maxRecDepth 100000 in
theorem scenario_virt_wide_mask_none_pending :
    ∀ j, j < VCML_ARM_GICv2_NLR → gicv2.vifctrl.is_lr_pending scenario_virt_wide_mask j 0 = false := by
  decide

/-- C27: the virtual output can be high with no pending slot.  The first part
of the claim holds at the state below: `vifctrl::write_HCR(0)` leaves
`VIRQ_OUT[0]` low and `HPPIR.bank(0)` spurious.  The second part does not:
`gicv2::update(true)` starts its scan from the idle priority 0xFF and raises the
output whenever the best priority is below `PMR` and `RPR`, without testing
that a candidate was found.  Evaluated for processor 0 in
`scenario_virt_wide_mask`, where `PMR.bank(0)` = 0x1FF, `RPR.bank(0)` = 256 (left
by `vcpuif::write_EOIR` for the remaining bitmask 32, a power of two for which
the floating-point expression is exact) and no list register is pending: after
`vifctrl::write_HCR(1)` `VIRQ_OUT[0]` is high and `HPPIR.bank(0)` is the
spurious id. -/
theorem C27_virtual_output_high_without_pending_slot :
    (∀ j, j < VCML_ARM_GICv2_NLR →
      gicv2.vifctrl.is_lr_pending scenario_virt_wide_mask j 0 = false) ∧
    scenario_virt_wide_mask.VCPUIF.PMR 0 = 0x1FF ∧
    scenario_virt_wide_mask.VCPUIF.RPR 0 = 256 ∧
    scenario_virt_wide_mask.VIFCTRL.APR 0 = 32 ∧
    (gicv2.vifctrl.write_HCR scenario_virt_wide_mask 0 0).2.VIRQ_OUT 0 = false ∧
    (gicv2.vifctrl.write_HCR scenario_virt_wide_mask 0 0).2.VCPUIF.HPPIR 0 =
      VCML_ARM_GICv2_SPURIOUS_IRQ ∧
    (gicv2.vifctrl.write_HCR scenario_virt_wide_mask 0 1).2.VIRQ_OUT 0 = true ∧
    (gicv2.vifctrl.write_HCR scenario_virt_wide_mask 0 1).2.VCPUIF.HPPIR 0 =
      VCML_ARM_GICv2_SPURIOUS_IRQ :=
  ⟨scenario_virt_wide_mask_none_pending, by decide⟩

/-- C28: the virtual acknowledge does not return the source processor of the
slot.  `vcpuif::read_IAR` masks the source-processor id with the hexadecimal
constant 0x111 before shifting it to bits 12:10, which keeps only bit 0 of an
id in 0..7; `vifctrl::write_LR` decodes the same field with the mask 0b111 and
`cpuif::read_IACK` uses 0x7.  Evaluated for processor 0: list register 0 is
written with 0x11800805 (pending, priority 3, source processor 2, virtual id
5, not hardware-backed); it is the best virtual candidate (`HPPIR` = 5) and
its slot records source id 2, yet `read_IAR` returns 5, not
5 | (2 << 10) = 2053. -/
theorem C28_read_IAR_drops_source_processor :
    (gicv2.vifctrl.write_LR scenario_virt 0 0x11800805 0).2.VCPUIF.HPPIR 0 = 5 ∧
    gicv2.vifctrl.get_lr_cpuid (gicv2.vifctrl.write_LR scenario_virt 0 0x11800805 0).2 0 0 = 2 ∧
    gicv2.vifctrl.is_lr_hw (gicv2.vifctrl.write_LR scenario_virt 0 0x11800805 0).2 0 0 = false ∧
    (gicv2.vcpuif.read_IAR (gicv2.vifctrl.write_LR scenario_virt 0 0x11800805 0).2 0).1 = 5 ∧
    5 ||| (2 <<< 10) = 2053 := by
  decide

/-- C30, as stated, fails for a virtual id at or above the line count: on a
controller with 35 lines, processor 0 has acknowledged the virtual id 100
(`APR.bank(0)` = 8, one bit; slot 0 active with virtual id 100), and
`vcpuif::write_EOIR(100)` is ignored: it returns 0, `APR.bank(0)` stays 8,
`RPR.bank(0)` stays 24 and slot 0 stays active. -/
theorem C30_counterexample :
    scenario_virt_ack_100.m_irq_num = 35 ∧
    scenario_virt_ack_100.VIFCTRL.APR 0 = 1 <<< 3 ∧
    (scenario_virt_ack_100.VIFCTRL.m_lr_state 0 0).active = true ∧
    (scenario_virt_ack_100.VIFCTRL.m_lr_state 0 0).virtual_id = 100 ∧
    (∀ i, i < VCML_ARM_GICv2_NLR → i ≠ 0 →
      (scenario_virt_ack_100.VIFCTRL.m_lr_state 0 i).active = false) ∧
    (gicv2.vcpuif.write_EOIR id scenario_virt_ack_100 0 100).1 = 0 ∧
    (gicv2.vcpuif.write_EOIR id scenario_virt_ack_100 0 100).2.VIFCTRL.APR 0 = 8 ∧
    (gicv2.vcpuif.write_EOIR id scenario_virt_ack_100 0 100).2.VCPUIF.RPR 0 = 24 ∧
    ((gicv2.vcpuif.write_EOIR id scenario_virt_ack_100 0 100).2.VIFCTRL.m_lr_state 0 0).active =
      true := by
  decide

set_option maxRecDepth 100000 in
theorem scenario_virt_ack_slot_1_only :
    ∀ j, j < VCML_ARM_GICv2_NLR → j ≠ 1 →
      ¬ ((scenario_virt_ack_slot_1.VIFCTRL.m_lr_state 0 j).active = true ∧
        (scenario_virt_ack_slot_1.VIFCTRL.m_lr_state 0 j).virtual_id = 5 &&& 0x1FF) := by
  decide

/-- The amended C30 for processor 0 ending the virtual id 5 in
`scenario_virt_ack_slot_1`, where slot 1 is the only slot carrying the id. -/
theorem C30_witness :
    (0 < VCML_ARM_GICv2_NCPU ∧ 5 &&& 0x1FF < scenario_virt_ack_slot_1.m_irq_num ∧ 3 < 32 ∧
      scenario_virt_ack_slot_1.VIFCTRL.APR 0 = 1 <<< 3 ∧
      1 < VCML_ARM_GICv2_NLR ∧
      (scenario_virt_ack_slot_1.VIFCTRL.m_lr_state 0 1).active = true ∧
      (scenario_virt_ack_slot_1.VIFCTRL.m_lr_state 0 1).virtual_id = 5 &&& 0x1FF ∧
      (scenario_virt_ack_slot_1.VIFCTRL.m_lr_state 0 0).active = false ∧
      (scenario_virt_ack_slot_1.VIFCTRL.m_lr_state 0 0).pending = false) ∧
    ((gicv2.vcpuif.write_EOIR id scenario_virt_ack_slot_1 (0 : Nat) 5).2.VIFCTRL.APR 0 = 0 ∧
      (gicv2.vcpuif.write_EOIR id scenario_virt_ack_slot_1 (0 : Nat) 5).2.VCPUIF.RPR 0 =
        VCML_ARM_GICv2_IDLE_PRIO ∧
      (gicv2.vcpuif.write_EOIR id scenario_virt_ack_slot_1 (0 : Nat) 5).2.VIFCTRL.m_lr_state 0 1 =
        { scenario_virt_ack_slot_1.VIFCTRL.m_lr_state 0 1 with active := false } ∧
      (∀ c i, c ≠ 0 ∨ i ≠ 1 →
        (gicv2.vcpuif.write_EOIR id scenario_virt_ack_slot_1 (0 : Nat) 5).2.VIFCTRL.m_lr_state c i =
          scenario_virt_ack_slot_1.VIFCTRL.m_lr_state c i)) :=
  ⟨by decide,
    C30_virtual_EOI_of_only_active id scenario_virt_ack_slot_1 0 5 3 1 (by decide) (by decide)
      (by decide) (by decide) (by decide) (by decide) (by decide) scenario_virt_ack_slot_1_only
      (by decide)⟩

/-! ## End-to-end scenario: two shared lines -/

/-- The level `cpuif::read_IACK` leaves on `IRQ_OUT[cpu]` after a successful
acknowledge of a line that is not an SGI: the arbitration inside
`set_current_irq` sees the line with its pending bits cleared and the running
priority already lowered to the priority of the line. -/
theorem read_IACK_ok_IRQ_OUT (u : gicv2) (cpu : Nat) (hcpu : cpu < u.m_cpu_num)
    (h1 : u.CPUIF.PEND cpu ≠ VCML_ARM_GICv2_SPURIOUS_IRQ)
    (h2 : u.get_irq_priority cpu (u.CPUIF.PEND cpu) < u.CPUIF.PRIO cpu)
    (hns : is_software_interrupt (u.CPUIF.PEND cpu) = false) :
    (gicv2.cpuif.read_IACK u cpu).2.IRQ_OUT cpu =
      if u.DISTIF.CTLR = 0 ∨ u.CPUIF.CTLR cpu = 0 then false
      else
        decide (((u.set_irq_pending (u.CPUIF.PEND cpu) false
            (gicv2.cpuif.ack_mask u cpu (u.CPUIF.PEND cpu))).best_candidate cpu).1 <
              u.CPUIF.IPMR cpu) &&
          decide (((u.set_irq_pending (u.CPUIF.PEND cpu) false
            (gicv2.cpuif.ack_mask u cpu (u.CPUIF.PEND cpu))).best_candidate cpu).1 <
              u.get_irq_priority cpu (u.CPUIF.PEND cpu)) := by
  rw [read_IACK_ok u cpu h1 h2]
  have hap : gicv2.cpuif.ack_pending u cpu (u.CPUIF.PEND cpu)
      (gicv2.cpuif.ack_mask u cpu (u.CPUIF.PEND cpu)) =
      (u.CPUIF.PEND cpu, u.set_irq_pending (u.CPUIF.PEND cpu) false
        (gicv2.cpuif.ack_mask u cpu (u.CPUIF.PEND cpu))) := by
    unfold gicv2.cpuif.ack_pending
    rw [hns]
    rfl
  rw [hap]
  simp only [gicv2.set_irq_signaled, gicv2.set_irq_active]
  unfold gicv2.cpuif.set_current_irq
  simp only
  refine Eq.trans (update_false_IRQ_OUT _ cpu (by exact hcpu)) ?_
  unfold gicv2.out_value
  simp only [Function.update_same, if_neg h1]
  rfl

theorem is_candidate_congr (s t : gicv2) (cpu j : Nat) (h1 : t.m_irq_num = s.m_irq_num)
    (h2 : t.m_irq_state j = s.m_irq_state j) (h3 : t.DISTIF.SPIT = s.DISTIF.SPIT) :
    t.is_candidate cpu j = s.is_candidate cpu j := by
  unfold gicv2.is_candidate gicv2.is_irq_enabled gicv2.test_pending gicv2.is_irq_active
    gicv2.is_irq_pending gicv2.get_irq_trigger gicv2.get_irq_level gicv2.irq_signaled
  rw [h1, h2, h3]

theorem read_IACK_ok_other_line (u : gicv2) (cpu j : Nat)
    (h1 : u.CPUIF.PEND cpu ≠ VCML_ARM_GICv2_SPURIOUS_IRQ)
    (h2 : u.get_irq_priority cpu (u.CPUIF.PEND cpu) < u.CPUIF.PRIO cpu)
    (hns : is_software_interrupt (u.CPUIF.PEND cpu) = false) (hj : j ≠ u.CPUIF.PEND cpu) :
    (gicv2.cpuif.read_IACK u cpu).2.m_irq_state j = u.m_irq_state j := by
  rw [read_IACK_ok u cpu h1 h2]
  simp only [gicv2.set_irq_signaled, gicv2.set_irq_active, set_current_irq_m_irq_state,
    Function.update_apply, if_neg hj]
  unfold gicv2.cpuif.ack_pending
  rw [hns]
  simp only [Bool.false_eq_true, if_false, gicv2.set_irq_pending, Function.update_apply,
    if_neg hj]

theorem is_candidate_test_pending (s : gicv2) (cpu j : Nat) (h : s.is_candidate cpu j = true) :
    s.test_pending j (1 <<< cpu) = true := by
  unfold gicv2.is_candidate at h
  simp only [Bool.and_eq_true] at h
  exact h.1.1.2

/-- C21: end-to-end scenario 1.  Let `X` and `Y` be distinct lines, `X` a
shared line, both candidates of processor `cpu` (enabled, pending, not active,
targeted at `cpu`) and the only ones, `X` edge-triggered, with priority 0x10
for `X` and 0x20 for `Y`, priority mask 0xFF, distributor and CPU interface
enabled and the running priority idle.  Then after arbitration `IRQ_OUT[cpu]`
is high and `PEND.bank(cpu)` is `X`; `cpuif::read_IACK` by `cpu` returns `X`,
`PRIO.bank(cpu)` becomes 0x10, `IRQ_OUT[cpu]` is low after the acknowledge, and
`Y` still tests pending.  The scenario of the specification is the case
`cpu` = 0. -/
theorem C21_two_shared_lines_scenario (s : gicv2) (cpu X Y : Nat)
    (hcpu : cpu < s.m_cpu_num) (hN : cpu < VCML_ARM_GICv2_NCPU) (hnum : s.m_irq_num ≤ VCML_ARM_GICv2_NIRQ)
    (hX : VCML_ARM_GICv2_PRIV ≤ X) (hXY : X ≠ Y)
    (hen : s.DISTIF.CTLR ≠ 0) (hcen : s.CPUIF.CTLR cpu ≠ 0) (hmask : s.CPUIF.IPMR cpu = 0xFF)
    (hrun : s.CPUIF.PRIO cpu = VCML_ARM_GICv2_IDLE_PRIO)
    (hXc : s.is_candidate cpu X = true) (hYc : s.is_candidate cpu Y = true)
    (hXe : s.get_irq_trigger X = gicv2.trigger_mode.EDGE)
    (hpX : s.get_irq_priority cpu X = 0x10) (hpY : s.get_irq_priority cpu Y = 0x20)
    (hothers : ∀ j, s.is_candidate cpu j = true → j = X ∨ j = Y) :
    (s.update false).IRQ_OUT cpu = true ∧
    (s.update false).CPUIF.PEND cpu = X ∧
    (gicv2.cpuif.read_IACK (s.update false) cpu).1 = X ∧
    gicv2.cpuif.PRIO (gicv2.cpuif.read_IACK (s.update false) cpu).2.CPUIF cpu = 0x10 ∧
    (gicv2.cpuif.read_IACK (s.update false) cpu).2.IRQ_OUT cpu = false ∧
    (gicv2.cpuif.read_IACK (s.update false) cpu).2.test_pending Y (1 <<< cpu) = true := by
  have hI : VCML_ARM_GICv2_IDLE_PRIO = 255 := rfl
  have hP : VCML_ARM_GICv2_PRIV = 32 := rfl
  have hG : VCML_ARM_GICv2_NSGI = 16 := rfl
  have hQ : VCML_ARM_GICv2_NIRQ = 1020 := rfl
  have hS : VCML_ARM_GICv2_SPURIOUS_IRQ = 1023 := rfl
  have hXn : X < s.m_irq_num := is_candidate_lt s cpu X hXc
  have hlo : VCML_ARM_GICv2_PRIV ≤ s.m_irq_num := by omega
  -- the winner of the first arbitration
  have hbest : s.best_candidate cpu = (0x10, X) := by
    rcases best_candidate_spec s cpu hlo hnum with ⟨hall, _⟩ | ⟨hc, hp, _, hmin, _⟩
    · have := hall X hXc
      omega
    · have h1 := hmin X hXc
      rcases hothers _ hc with h | h
      · apply Prod.ext
        · simp only; rw [← hp, h, hpX]
        · exact h
      · rw [h, hpY] at hp
        omega
  have hpend : (s.update false).CPUIF.PEND cpu = X := by
    rw [update_false_PEND s cpu hcpu]
    unfold gicv2.pend_value
    have hd : ¬ (s.DISTIF.CTLR = 0 ∨ s.CPUIF.CTLR cpu = 0) := by
      rw [not_or]; exact ⟨hen, hcen⟩
    rw [if_neg hd, hbest, hmask]
    simp
  have hout : (s.update false).IRQ_OUT cpu = true := by
    rw [update_false_IRQ_OUT s cpu hcpu]
    unfold gicv2.out_value
    have hd : ¬ (s.DISTIF.CTLR = 0 ∨ s.CPUIF.CTLR cpu = 0) := by
      rw [not_or]; exact ⟨hen, hcen⟩
    rw [if_neg hd, hbest, hmask, hrun]
    rfl
  -- the acknowledge
  have hprio_u : ∀ j, (s.update false).get_irq_priority cpu j = s.get_irq_priority cpu j :=
    fun j => update_false_get_irq_priority s cpu j
  have hPRIO_u : gicv2.cpuif.PRIO (s.update false).CPUIF cpu = s.CPUIF.PRIO cpu := by
    rw [update_false_running_prio]
  have h1 : (s.update false).CPUIF.PEND cpu ≠ VCML_ARM_GICv2_SPURIOUS_IRQ := by
    rw [hpend]; omega
  have h2 : (s.update false).get_irq_priority cpu ((s.update false).CPUIF.PEND cpu) <
      gicv2.cpuif.PRIO (s.update false).CPUIF cpu := by
    rw [hpend, hprio_u, hpX, hPRIO_u, hrun]
    decide
  have hns : is_software_interrupt ((s.update false).CPUIF.PEND cpu) = false := by
    rw [hpend]
    unfold is_software_interrupt
    exact decide_eq_false (by omega)
  obtain ⟨_, _, hrunning, _, _, _⟩ := read_IACK_ok_at (s.update false) cpu hN h1 h2
  refine ⟨hout, hpend, ?_, ?_, ?_, ?_⟩
  · rw [read_IACK_ok (s.update false) cpu h1 h2]
    unfold gicv2.cpuif.ack_pending
    rw [hns]
    exact hpend
  · rw [hrunning, hpend, hprio_u, hpX]
  · rw [read_IACK_ok_IRQ_OUT (s.update false) cpu (by rw [update_false_m_cpu_num]; exact hcpu) h1 h2
      hns]
    rw [hpend, hprio_u, hpX]
    split
    · rfl
    · -- no candidate of the state seen by the arbitration beats priority 0x10
      have hge : ¬ (((s.update false).set_irq_pending X false
          (gicv2.cpuif.ack_mask (s.update false) cpu X)).best_candidate cpu).1 < 0x10 := by
        have hm : ((s.update false).set_irq_pending X false
            (gicv2.cpuif.ack_mask (s.update false) cpu X)).m_irq_num = s.m_irq_num := by
          unfold gicv2.set_irq_pending
          simp only [update_false_m_irq_num]
        rcases best_candidate_spec ((s.update false).set_irq_pending X false
            (gicv2.cpuif.ack_mask (s.update false) cpu X)) cpu (by rw [hm]; exact hlo)
            (by rw [hm]; exact hnum) with ⟨_, heq⟩ | ⟨hc, hp, _, _, _⟩
        · rw [heq]
          simp only
          omega
        · rw [← hp]
          generalize (((s.update false).set_irq_pending X false
            (gicv2.cpuif.ack_mask (s.update false) cpu X)).best_candidate cpu).2 = c at hc ⊢
          have hpc : ((s.update false).set_irq_pending X false
              (gicv2.cpuif.ack_mask (s.update false) cpu X)).get_irq_priority cpu c =
              s.get_irq_priority cpu c := by
            rw [← hprio_u c]
            rfl
          rw [hpc]
          by_cases hcX : c = X
          · -- the acknowledged line no longer tests pending
            subst hcX
            exfalso
            have htp := is_candidate_test_pending _ cpu c hc
            unfold gicv2.test_pending gicv2.is_irq_pending gicv2.get_irq_trigger at htp
            unfold gicv2.get_irq_trigger at hXe
            simp only [gicv2.set_irq_pending, update_false_m_irq_state, Function.update_same,
              Bool.false_eq_true, if_false, hXe] at htp
            rw [and_one_shiftLeft_ne_zero, testBit_u8_clear_bits,
              ack_mask_testBit (s.update false) cpu c hN] at htp
            simp at htp
          · have hcs : s.is_candidate cpu c = true := by
              rw [← is_candidate_congr s _ cpu c hm ?_ ?_]
              · exact hc
              · simp only [gicv2.set_irq_pending, update_false_m_irq_state,
                  Function.update_apply, if_neg hcX]
              · simp only [gicv2.set_irq_pending, update_false_DISTIF]
            rcases hothers c hcs with h | h
            · exact absurd h hcX
            · rw [h, hpY]
              omega
      simp only [Bool.and_eq_false_imp, decide_eq_true_eq, decide_eq_false_iff_not]
      intro _
      exact hge
  · have hYs := is_candidate_test_pending s cpu Y hYc
    have hm := read_IACK_ok_other_line (s.update false) cpu Y h1 h2 hns (by rw [hpend]; exact hXY.symm)
    unfold gicv2.test_pending gicv2.is_irq_pending gicv2.get_irq_trigger gicv2.get_irq_level
      gicv2.irq_signaled at hYs ⊢
    rw [hm, update_false_m_irq_state]
    exact hYs

theorem C21_witness :
    (0 < scenario_two_pending.m_cpu_num ∧ scenario_two_pending.is_candidate 0 34 = true ∧
      scenario_two_pending.is_candidate 0 33 = true ∧
      scenario_two_pending.get_irq_priority 0 34 = 0x10 ∧
      scenario_two_pending.get_irq_priority 0 33 = 0x20 ∧
      scenario_two_pending.CPUIF.IPMR 0 = 0xFF ∧
      scenario_two_pending.CPUIF.m_curr_irq 0 = VCML_ARM_GICv2_SPURIOUS_IRQ) ∧
    ((scenario_two_pending.update false).IRQ_OUT 0 = true ∧
      (scenario_two_pending.update false).CPUIF.PEND 0 = 34 ∧
      (gicv2.cpuif.read_IACK (scenario_two_pending.update false) (0 : Nat)).1 = 34 ∧
      gicv2.cpuif.PRIO
        (gicv2.cpuif.read_IACK (scenario_two_pending.update false) (0 : Nat)).2.CPUIF 0 = 0x10 ∧
      (gicv2.cpuif.read_IACK (scenario_two_pending.update false) (0 : Nat)).2.IRQ_OUT 0 = false ∧
      (gicv2.cpuif.read_IACK (scenario_two_pending.update false) (0 : Nat)).2.test_pending 33
        (1 <<< 0) = true) :=
  ⟨by decide,
    C21_two_shared_lines_scenario scenario_two_pending 0 34 33 (by decide) (by decide) (by decide)
      (by decide) (by decide) (by decide) (by decide) (by decide) (by decide) (by decide)
      (by decide) (by decide) (by decide) (by decide)
      (fun j h => (by decide : ∀ j, j < 35 →
        scenario_two_pending.is_candidate 0 j = true → j = 34 ∨ j = 33) j
          (is_candidate_lt scenario_two_pending 0 j h) h)⟩

/-- C23: not every mutation is followed by recomputation.  The active-clear
handlers `distif::write_ICAR` and `distif::write_SCAR` change the active bits,
an input of physical arbitration, and return without calling `update()`, which
every other distributor handler calls.  Evaluated on a single-processor
controller where line 32 is running, active and pending again: after
`write_SCAR` with bit 0 at index 0 the active bit of line 32 is clear and
`PEND.bank(0)` still reads the spurious id, while `update(false)` on the
resulting state computes `PEND.bank(0)` = 32. -/
theorem C23_active_clear_without_recomputation :
    scenario_A_again.is_irq_active 32 (1 <<< 0) = true ∧
    scenario_A_again.is_irq_pending 32 (1 <<< 0) = true ∧
    (gicv2.distif.write_SCAR scenario_A_again 1 0).is_irq_active 32 (1 <<< 0) = false ∧
    (gicv2.distif.write_SCAR scenario_A_again 1 0).CPUIF.PEND 0 = VCML_ARM_GICv2_SPURIOUS_IRQ ∧
    ((gicv2.distif.write_SCAR scenario_A_again 1 0).update false).CPUIF.PEND 0 = 32 := by
  decide

/-! ## Instances for nested virtual interrupts and out-of-order completion -/

/-- C31: the virtual preemption round trip does not restore the running
priority.  `vcpuif::write_EOIR` recomputes `RPR` as
`(u32)(pow(2, log2(apr))) << 3`, the value of the remaining bitmask shifted,
where `vcpuif::read_IAR` stores the priority `p << 3`.  Evaluated for processor
0 with A (priority 3, virtual id 5) and B (priority 1, virtual id 6): after A
is acknowledged `APR` = 8 and `RPR` = 24; after B is acknowledged `APR` = 10
and `RPR` = 8; after B is ended `APR` = 8 again but `RPR` = 64, not 24.  The
remaining bitmask 8 is a power of two, for which the library calls are exact,
so the expression has the value 8. -/
theorem C31_virtual_EOI_does_not_restore_running_priority :
    scenario_virt_ack.VIFCTRL.APR 0 = 8 ∧ scenario_virt_ack.VCPUIF.RPR 0 = 24 ∧
    (gicv2.vcpuif.read_IAR scenario_virt_B_pending 0).1 = 6 ∧
    scenario_virt_nested.VIFCTRL.APR 0 = 10 ∧ scenario_virt_nested.VCPUIF.RPR 0 = 8 ∧
    (gicv2.vcpuif.write_EOIR (fun apr => apr) scenario_virt_nested 0 6).1 = 6 ∧
    (gicv2.vcpuif.write_EOIR (fun apr => apr) scenario_virt_nested 0 6).2.VIFCTRL.APR 0 = 8 ∧
    (gicv2.vcpuif.write_EOIR (fun apr => apr) scenario_virt_nested 0 6).2.VCPUIF.RPR 0 = 64 := by
  decide

/-- C33: the virtual binary point is not clamped on the `VMCR` path.
`vifctrl::write_VMCR` stores the two-bit field `(val >> 21) & 3` in
`BPR.bank(cpu)` as it is, while `vcpuif::write_BPR` returns
`max(val & 7, VCML_ARM_GICv2_VIRT_MIN_BPR)`.  Evaluated for processor 0: after
`write_VMCR(0xF8000001)` the binary point is 0, below the minimum 2;
`write_BPR` gives 2 for 0 and 7 for 0xFFFFFFFF. -/
theorem C33_write_VMCR_stores_binary_point_unclamped :
    scenario_virt.VCPUIF.BPR 0 = 2 ∧
    (gicv2.vifctrl.write_VMCR scenario_virt 0 0xF8000001).2.VCPUIF.BPR 0 = 0 ∧
    VCML_ARM_GICv2_VIRT_MIN_BPR = 2 ∧
    gicv2.vcpuif.write_BPR 0 = 2 ∧ gicv2.vcpuif.write_BPR 0xFFFFFFFF = 7 := by
  decide

/-- C35: ending every acknowledged line can leave one active.  The branch of
`cpuif::write_EOIR` for a line that is not the running one only unlinks the
line from the resume chain; it does not clear the active bit, which the branch
for the running line does.  Evaluated for the nest 32 then 33 on processor 0:
after EOI(32) and then EOI(33) no line is running and line 33 is inactive, but
line 32 is still active, and when it is raised again it is not presented
(`PEND` stays the spurious id) while line 33 raised again is. -/
theorem C35_out_of_order_EOI_leaves_line_active :
    scenario_B_ack.is_irq_active 32 (1 <<< 0) = true ∧
    scenario_B_ack.is_irq_active 33 (1 <<< 0) = true ∧
    scenario_B_ack.CPUIF.m_curr_irq 0 = 33 ∧
    ((gicv2.cpuif.write_EOIR scenario_B_ack 2 0 32).bind
        (fun t => gicv2.cpuif.write_EOIR t 2 0 33)).map
      (fun t => (t.CPUIF.m_curr_irq 0, t.is_irq_active 32 (1 <<< 0),
        t.is_irq_active 33 (1 <<< 0), (scenario_raise t 32).CPUIF.PEND 0,
        (scenario_raise t 33).CPUIF.PEND 0)) =
      some (VCML_ARM_GICv2_SPURIOUS_IRQ, true, false, VCML_ARM_GICv2_SPURIOUS_IRQ, 33) := by
  decide

/-- C36: a pending list register of lower priority preempts.  `gicv2::update`
and the test at the head of `vcpuif::read_IAR` compare the 5-bit priority of
the list register with `RPR`, which `read_IAR` stores as the priority shifted
left by 3.  Evaluated for processor 0 with the default binary point: a list
register of priority 1 is acknowledged (`RPR` = 8); a list register of
priority 2 (virtual id 6) is then written pending; `VIRQ_OUT[0]` is high, also
after a further `update(true)`, and `read_IAR` returns 6, not 1023. -/
theorem C36_lower_priority_list_register_preempts :
    scenario_virt_ack_p1.VCPUIF.BPR 0 = 2 ∧
    (scenario_virt_ack_p1.VIFCTRL.m_lr_state 0 0).active = true ∧
    (scenario_virt_ack_p1.VIFCTRL.m_lr_state 0 0).prio = 1 ∧
    scenario_virt_ack_p1.VCPUIF.RPR 0 = 8 ∧
    ((gicv2.vifctrl.write_LR scenario_virt_ack_p1 0 0x11000006 1).2.VIFCTRL.m_lr_state 0 1).prio =
      2 ∧
    (gicv2.vifctrl.write_LR scenario_virt_ack_p1 0 0x11000006 1).2.VIRQ_OUT 0 = true ∧
    ((gicv2.vifctrl.write_LR scenario_virt_ack_p1 0 0x11000006 1).2.update true).VIRQ_OUT 0 =
      true ∧
    (gicv2.vcpuif.read_IAR (gicv2.vifctrl.write_LR scenario_virt_ack_p1 0 0x11000006 1).2 0).1 =
      6 := by
  decide

set_option maxRecDepth 100000 in
theorem scenario_virt_ack_carries_7 :
    ∀ i, i < VCML_ARM_GICv2_NLR → gicv2.vifctrl.lr_carries scenario_virt_ack 0 7 i = false := by
  decide

/-- C37: a virtual EOI of an unknown virtual id does touch the list registers.
`vifctrl::get_lr` logs the failure and returns 0, and `vcpuif::write_EOIR`
goes on with slot 0: it drops the lowest bit of `APR`, recomputes `RPR` and
clears the active flag of slot 0.  Evaluated for processor 0 with slot 0
active for the virtual id 5 (`APR` = 8) and no slot carrying the id 7: after
`write_EOIR(7)` `APR` is 0, `RPR` is 0xFF and slot 0 is no longer active. -/
theorem C37_virtual_EOI_of_unknown_id_ends_slot_0 :
    (∀ i, i < VCML_ARM_GICv2_NLR → gicv2.vifctrl.lr_carries scenario_virt_ack 0 7 i = false) ∧
    7 < scenario_virt_ack.m_irq_num ∧
    scenario_virt_ack.VIFCTRL.APR 0 = 8 ∧
    (scenario_virt_ack.VIFCTRL.m_lr_state 0 0).active = true ∧
    (scenario_virt_ack.VIFCTRL.m_lr_state 0 0).virtual_id = 5 ∧
    (gicv2.vcpuif.write_EOIR (fun apr => apr) scenario_virt_ack 0 7).2.VIFCTRL.APR 0 = 0 ∧
    (gicv2.vcpuif.write_EOIR (fun apr => apr) scenario_virt_ack 0 7).2.VCPUIF.RPR 0 = 0xFF ∧
    ((gicv2.vcpuif.write_EOIR (fun apr => apr) scenario_virt_ack 0 7).2.VIFCTRL.m_lr_state 0
      0).active = false :=
  ⟨scenario_virt_ack_carries_7, by decide⟩

/-- C38: software set-pending of a shared line uses the target entry of another
line.  `distif::write_SSPR` passes `SPIT[i]` to `set_irq_pending` for the line
`32 + 32*idx + i`, whose own entry is `SPIT[32*idx + i]`, the one
`gicv2::spi_handler` and `gicv2::update` use.  Evaluated with 96 lines, line 64
targeted at processor 1 (`SPIT[32]` = 2) and `SPIT[0]` = 1: `write_SSPR(1, 1)`
sets the pending bit of line 64 for processor 0 and not for processor 1, where
an edge on the input of line 64 sets it for processor 1. -/
theorem C38_write_SSPR_uses_target_of_another_line :
    scenario_wide.DISTIF.SPIT (32 * 1 + 0) = 2 ∧ scenario_wide.DISTIF.SPIT 0 = 1 ∧
    (scenario_wide.m_irq_state 64).pending = 0 ∧
    ((gicv2.distif.write_SSPR scenario_wide 1 1).m_irq_state (32 + 32 * 1 + 0)).pending = 1 ∧
    (gicv2.distif.write_SSPR scenario_wide 1 1).is_irq_pending 64 (1 <<< 1) = false ∧
    (gicv2.distif.write_SSPR scenario_wide 1 1).is_irq_pending 64 (1 <<< 0) = true ∧
    ((scenario_wide.spi_handler 64 true).m_irq_state 64).pending = 2 := by
  decide

/-! ## The virtual machine control register -/

theorem shift_field (v k m : Nat) : ((v >>> k) &&& m) <<< k = v &&& (m <<< k) := by
  apply Nat.eq_of_testBit_eq
  intro j
  rw [Nat.testBit_shiftLeft, Nat.testBit_and, Nat.testBit_and, Nat.testBit_shiftRight,
    Nat.testBit_shiftLeft]
  by_cases h : j ≥ k
  · have e : k + (j - k) = j := by omega
    simp [h, e]
  · simp [h]

theorem and_idem (x m : Nat) : (x &&& m) &&& m = x &&& m := by
  rw [Nat.and_assoc, Nat.and_self]

theorem read_write_VMCR (s : gicv2) (cpu v : Nat) :
    gicv2.vifctrl.read_VMCR (gicv2.vifctrl.write_VMCR s cpu v).2 cpu = v &&& 0xF86001FF := by
  unfold gicv2.vifctrl.read_VMCR gicv2.vifctrl.write_VMCR
  simp only [Int.toNat_ofNat, Function.update_same]
  have hp : (v >>> 27) &&& 0x1f ≤ 0x1f := Nat.and_le_right
  have hb : (v >>> 21) &&& 0x03 ≤ 0x03 := Nat.and_le_right
  have e1 : ((v >>> 27) &&& 0x1f) % 256 = (v >>> 27) &&& 0x1f := Nat.mod_eq_of_lt (by omega)
  have e2 : ((v >>> 21) &&& 0x03) % 256 = (v >>> 21) &&& 0x03 := Nat.mod_eq_of_lt (by omega)
  have e3 : (((v >>> 27) &&& 0x1f) <<< 3) % 2 ^ 32 = ((v >>> 27) &&& 0x1f) <<< 3 := by
    rw [Nat.shiftLeft_eq]
    exact Nat.mod_eq_of_lt (by omega)
  rw [e1, e2, e3, Nat.shiftLeft_shiftRight, and_idem, and_idem, and_idem, e1, e2,
    shift_field, shift_field, ← Nat.and_or_distrib_left, ← Nat.and_or_distrib_left]
  have hM : (0x1f <<< 27 ||| 0x03 <<< 21 ||| 0x1ff : Nat) = 0xF86001FF := by decide
  rw [hM]
  apply Nat.mod_eq_of_lt
  have : v &&& 0xF86001FF ≤ 0xF86001FF := Nat.and_le_right
  omega

/-- C39: virtual-machine-control round trip.  For every processor and every
value `v`, `vifctrl::write_VMCR(v)` followed by `vifctrl::read_VMCR` returns
`v & 0xF86001FF` (the fields in bits 31:27, 22:21 and 8:0), and writing that
value back and reading again returns the same value. -/
theorem C39_VMCR_round_trip (s : gicv2) (cpu v : Nat) :
    gicv2.vifctrl.read_VMCR (gicv2.vifctrl.write_VMCR s cpu v).2 cpu = v &&& 0xF86001FF ∧
    gicv2.vifctrl.read_VMCR
      (gicv2.vifctrl.write_VMCR (gicv2.vifctrl.write_VMCR s cpu v).2 cpu
        (gicv2.vifctrl.read_VMCR (gicv2.vifctrl.write_VMCR s cpu v).2 cpu)).2 cpu =
      gicv2.vifctrl.read_VMCR (gicv2.vifctrl.write_VMCR s cpu v).2 cpu := by
  refine ⟨read_write_VMCR s cpu v, ?_⟩
  rw [read_write_VMCR, read_write_VMCR, and_idem]

/-! ## Virtual end of interrupt and the physical line -/

/-- The line table `vcpuif::write_EOIR` leaves for an id below the line count:
the active bit of the physical line linked to the slot found is cleared for the
processor when the slot is hardware-backed and the linked id passes the range
test; otherwise the table is unchanged. -/
theorem vcpuif_write_EOIR_line_table (pow2_log2 : Nat → Nat) (s : gicv2) (cpu val : Nat)
    (hcpu : cpu < 256) (hrange : val &&& 0x1FF < s.m_irq_num) :
    (gicv2.vcpuif.write_EOIR pow2_log2 s cpu val).2.m_irq_state =
      if (s.VIFCTRL.m_lr_state cpu (gicv2.vifctrl.get_lr s (val &&& 0x1FF) cpu)).hw ≠ 0 ∧
          VCML_ARM_GICv2_NSGI ≤
            (s.VIFCTRL.m_lr_state cpu (gicv2.vifctrl.get_lr s (val &&& 0x1FF) cpu)).physical_id ∧
          (s.VIFCTRL.m_lr_state cpu (gicv2.vifctrl.get_lr s (val &&& 0x1FF) cpu)).physical_id ≤
            VCML_ARM_GICv2_NIRQ then
        (s.set_irq_active
          (s.VIFCTRL.m_lr_state cpu (gicv2.vifctrl.get_lr s (val &&& 0x1FF) cpu)).physical_id
          false (1 <<< cpu)).m_irq_state
      else s.m_irq_state := by
  have e : ((cpu : Int) % 256).toNat = cpu := by omega
  have hr : ¬ (val &&& 0x1FF ≥ s.get_irq_num) := by
    unfold gicv2.get_irq_num; omega
  unfold gicv2.vcpuif.write_EOIR
  simp only [e, hr, if_false, update_true_m_irq_state]
  generalize gicv2.vifctrl.get_lr s (val &&& 0x1FF) cpu = lr
  have hhw : ∀ t : gicv2, gicv2.vifctrl.is_lr_hw (gicv2.vifctrl.set_lr_active t lr cpu false) lr cpu =
      ((t.VIFCTRL.m_lr_state cpu lr).hw != 0) := by
    intro t
    unfold gicv2.vifctrl.is_lr_hw
    rw [set_lr_active_same]
  have hph : ∀ t : gicv2,
      gicv2.vifctrl.get_lr_physid (gicv2.vifctrl.set_lr_active t lr cpu false) lr cpu =
        (t.VIFCTRL.m_lr_state cpu lr).physical_id := by
    intro t
    unfold gicv2.vifctrl.get_lr_physid
    rw [set_lr_active_same]
  rw [hhw, hph]
  simp only
  by_cases h1 : (s.VIFCTRL.m_lr_state cpu lr).hw = 0
  · simp [h1]
    rfl
  · have h1' : ((s.VIFCTRL.m_lr_state cpu lr).hw != 0) = true := by simp [h1]
    rw [if_pos h1']
    by_cases h2 : (s.VIFCTRL.m_lr_state cpu lr).physical_id < VCML_ARM_GICv2_NSGI ∨
        (s.VIFCTRL.m_lr_state cpu lr).physical_id > VCML_ARM_GICv2_NIRQ
    · have h3 : ¬ ((s.VIFCTRL.m_lr_state cpu lr).hw ≠ 0 ∧
          VCML_ARM_GICv2_NSGI ≤ (s.VIFCTRL.m_lr_state cpu lr).physical_id ∧
          (s.VIFCTRL.m_lr_state cpu lr).physical_id ≤ VCML_ARM_GICv2_NIRQ) := by
        intro ⟨_, h4, h5⟩
        rcases h2 with h | h <;> omega
      rw [if_neg (not_not.mpr h2), if_neg h3]
      rfl
    · have h3 : (s.VIFCTRL.m_lr_state cpu lr).hw ≠ 0 ∧
          VCML_ARM_GICv2_NSGI ≤ (s.VIFCTRL.m_lr_state cpu lr).physical_id ∧
          (s.VIFCTRL.m_lr_state cpu lr).physical_id ≤ VCML_ARM_GICv2_NIRQ := by
        rw [not_or] at h2
        exact ⟨h1, by omega, by omega⟩
      rw [if_pos h2, if_pos h3]
      rfl

/-- C32: a virtual EOI can deactivate the physical line of another slot.
`vcpuif::write_EOIR` looks the written id up with `vifctrl::get_lr`, which
returns the first slot carrying the id that is active or pending, and ends
that slot; it does not look for the active one.  Evaluated for processor 0 in
`scenario_virt_duplicate`: slot 1 is active and hardware-backed with physical
id 33, slot 0 holds the same virtual id 5 pending with physical id 34, and the
lines 33 and 34 are both active.  `get_lr` returns slot 0, and after
`write_EOIR(5)` line 33 is still active and slot 1 still active, while line
34, the line of the pending slot, has been deactivated. -/
theorem C32_virtual_EOI_deactivates_line_of_pending_slot :
    5 < scenario_virt_duplicate.m_irq_num ∧
    (scenario_virt_duplicate.VIFCTRL.m_lr_state 0 1).active = true ∧
    (scenario_virt_duplicate.VIFCTRL.m_lr_state 0 1).virtual_id = 5 ∧
    (scenario_virt_duplicate.VIFCTRL.m_lr_state 0 1).hw = 1 ∧
    (scenario_virt_duplicate.VIFCTRL.m_lr_state 0 1).physical_id = 33 ∧
    (scenario_virt_duplicate.VIFCTRL.m_lr_state 0 0).active = false ∧
    (scenario_virt_duplicate.VIFCTRL.m_lr_state 0 0).pending = true ∧
    (scenario_virt_duplicate.VIFCTRL.m_lr_state 0 0).virtual_id = 5 ∧
    (scenario_virt_duplicate.VIFCTRL.m_lr_state 0 0).physical_id = 34 ∧
    scenario_virt_duplicate.is_irq_active 33 (1 <<< 0) = true ∧
    scenario_virt_duplicate.is_irq_active 34 (1 <<< 0) = true ∧
    gicv2.vifctrl.get_lr scenario_virt_duplicate 5 0 = 0 ∧
    (gicv2.vcpuif.write_EOIR (fun apr => apr) scenario_virt_duplicate 0 5).2.is_irq_active 33
      (1 <<< 0) = true ∧
    (gicv2.vcpuif.write_EOIR (fun apr => apr) scenario_virt_duplicate 0 5).2.is_irq_active 34
      (1 <<< 0) = false ∧
    ((gicv2.vcpuif.write_EOIR (fun apr => apr) scenario_virt_duplicate 0 5).2.VIFCTRL.m_lr_state
      0 1).active = true := by
  decide

/-! ## `ctz32` on 32-bit values -/

/-- The binary search of `ctz32` on an even value in arithmetic form: each
mask test is a remainder and each shift a division; `a`, `b`, `c`, `d` are the
value after each of the four stages and `ca`, `cb`, `cc`, `cd` what each stage
adds to the count. -/
theorem ctz32_stages (v a b c d ca cb cc cd : Nat) (hv : v % 2 = 0)
    (ha : a = if v % 2 ^ 16 = 0 then v / 2 ^ 16 else v)
    (hca : ca = if v % 2 ^ 16 = 0 then 16 else 0)
    (hb : b = if a % 2 ^ 8 = 0 then a / 2 ^ 8 else a)
    (hcb : cb = if a % 2 ^ 8 = 0 then 8 else 0)
    (hc : c = if b % 2 ^ 4 = 0 then b / 2 ^ 4 else b)
    (hcc : cc = if b % 2 ^ 4 = 0 then 4 else 0)
    (hd : d = if c % 2 ^ 2 = 0 then c / 2 ^ 2 else c)
    (hcd : cd = if c % 2 ^ 2 = 0 then 2 else 0) :
    ctz32 v = 1 + ca + cb + cc + cd - d % 2 := by
  have e1 : ∀ x : Nat, x &&& 0x00000001 = x % 2 := fun x => Nat.and_pow_two_sub_one_eq_mod x 1
  have e2 : ∀ x : Nat, x &&& 0x00000003 = x % 2 ^ 2 :=
    fun x => Nat.and_pow_two_sub_one_eq_mod x 2
  have e4 : ∀ x : Nat, x &&& 0x0000000F = x % 2 ^ 4 :=
    fun x => Nat.and_pow_two_sub_one_eq_mod x 4
  have e8 : ∀ x : Nat, x &&& 0x000000FF = x % 2 ^ 8 :=
    fun x => Nat.and_pow_two_sub_one_eq_mod x 8
  have e16 : ∀ x : Nat, x &&& 0x0000FFFF = x % 2 ^ 16 :=
    fun x => Nat.and_pow_two_sub_one_eq_mod x 16
  unfold ctz32
  simp only [e1, e2, e4, e8, e16, Nat.shiftRight_eq_div_pow, hv, ne_eq, not_true_eq_false,
    if_false]
  subst ha hca hb hcb hc hcc hd hcd
  split_ifs <;> rfl

/-- One stage of the search, of width `w`: on `2 ^ k * m` with `m` odd and
`k < 2 * w` the stage leaves `2 ^ k2 * m` with `k2 < w`, and adds `k - k2` to the
count. -/
theorem ctz32_stage (w k m x : Nat) (hx : x = 2 ^ k * m) (hm : m % 2 = 1) (hk : k < 2 * w) :
    ∃ k2, k2 < w ∧ (if x % 2 ^ w = 0 then x / 2 ^ w else x) = 2 ^ k2 * m ∧
      (if x % 2 ^ w = 0 then w else 0) + k2 = k := by
  by_cases hw : w ≤ k
  · have e : x = 2 ^ w * (2 ^ (k - w) * m) := by
      rw [hx, ← Nat.mul_assoc, ← Nat.pow_add]; congr 2; omega
    have h0 : x % 2 ^ w = 0 := by rw [e]; exact Nat.mul_mod_right _ _
    refine ⟨k - w, by omega, ?_, ?_⟩
    · rw [if_pos h0, e, Nat.mul_div_cancel_left _ (Nat.two_pow_pos w)]
    · rw [if_pos h0]; omega
  · have hlt : k < w := by omega
    have h0 : x % 2 ^ w ≠ 0 := by
      intro h
      have hd : 2 ^ w ∣ 2 ^ k * m := by rw [← hx]; exact Nat.dvd_of_mod_eq_zero h
      have e : 2 ^ w = 2 ^ k * 2 ^ (w - k) := by rw [← Nat.pow_add]; congr 1; omega
      rw [e] at hd
      have hd2 : 2 ^ (w - k) ∣ m := Nat.dvd_of_mul_dvd_mul_left (Nat.two_pow_pos k) hd
      have h2 : 2 ∣ 2 ^ (w - k) := dvd_pow_self 2 (by omega)
      have h3 : 2 ∣ m := Nat.dvd_trans h2 hd2
      omega
    exact ⟨k, hlt, by rw [if_neg h0, hx], by rw [if_neg h0]; omega⟩

/-- On `2 ^ k * m` with `m` odd and `k ≤ 31` the search returns `k`. -/
theorem ctz32_pow_mul_odd (v k m : Nat) (hk : k ≤ 31) (hm : m % 2 = 1)
    (hv : v = 2 ^ k * m) : ctz32 v = k := by
  by_cases hk0 : k = 0
  · subst hk0
    have h1 : v % 2 = 1 := by rw [hv]; simpa using hm
    have e1 : v &&& 0x00000001 = v % 2 := Nat.and_pow_two_sub_one_eq_mod v 1
    unfold ctz32
    rw [e1, h1]; rfl
  · have hev : v % 2 = 0 := by
      have e : v = 2 * (2 ^ (k - 1) * m) := by
        rw [hv, ← Nat.mul_assoc, ← Nat.pow_succ']; congr 2; omega
      rw [e]; exact Nat.mul_mod_right _ _
    obtain ⟨ka, hka, ea, ca⟩ := ctz32_stage 16 k m v hv hm (by omega)
    obtain ⟨kb, hkb, eb, cb⟩ := ctz32_stage 8 ka m _ ea hm (by omega)
    obtain ⟨kc, hkc, ec, cc⟩ := ctz32_stage 4 kb m _ eb hm (by omega)
    obtain ⟨kd, hkd, ed, cd⟩ := ctz32_stage 2 kc m _ ec hm (by omega)
    rw [ctz32_stages v _ _ _ _ _ _ _ _ hev rfl rfl rfl rfl rfl rfl rfl rfl, ed]
    have hkd2 : kd = 0 ∨ kd = 1 := by omega
    rcases hkd2 with h | h
    · subst h
      have : 2 ^ 0 * m % 2 = 1 := by simpa using hm
      rw [this]; omega
    · subst h
      have : 2 ^ 1 * m % 2 = 0 := by omega
      rw [this]; omega

/-- C40. `ctz32` counts trailing zeros.  For every non-zero 32-bit value `v`
the result `k = ctz32 v` is at most 31, `v` is divisible by `2 ^ k` and not by
`2 ^ (k + 1)`, and `k` is the index of the lowest set bit of `v` (bit `k` is
set, every lower bit is clear); for `v = 0` the function returns 31. -/
theorem C40_ctz32_counts_trailing_zeros (v : Nat) (h32 : v < 2 ^ 32) :
    (v ≠ 0 →
      ctz32 v ≤ 31 ∧ 2 ^ ctz32 v ∣ v ∧ ¬ 2 ^ (ctz32 v + 1) ∣ v ∧
      v.testBit (ctz32 v) = true ∧ ∀ j, j < ctz32 v → v.testBit j = false) ∧
    ctz32 0 = 31 := by
  refine ⟨fun h0 => ?_, by decide⟩
  obtain ⟨k, m, hodd, hv⟩ := Nat.exists_eq_two_pow_mul_odd h0
  have hm : m % 2 = 1 := Nat.odd_iff.mp hodd
  have hmpos : 0 < m := by omega
  have hk : k ≤ 31 := by
    by_contra hlt
    have h1 : 2 ^ 32 ≤ 2 ^ k := Nat.pow_le_pow_right (by decide) (by omega)
    have h2 : 2 ^ k ≤ 2 ^ k * m := Nat.le_mul_of_pos_right _ hmpos
    omega
  have hc : ctz32 v = k := ctz32_pow_mul_odd v k m hk hm hv
  rw [hc]
  have hdiv : v / 2 ^ k = m := by rw [hv, Nat.mul_div_cancel_left _ (Nat.two_pow_pos k)]
  refine ⟨hk, ⟨m, hv⟩, ?_, ?_, ?_⟩
  · rintro ⟨q, hq⟩
    have e : 2 ^ k * m = 2 ^ k * (2 * q) := by rw [← hv, hq, Nat.pow_succ, Nat.mul_assoc]
    have e2 : m = 2 * q := Nat.eq_of_mul_eq_mul_left (Nat.two_pow_pos k) e
    omega
  · rw [Nat.testBit_to_div_mod, hdiv, hm]; rfl
  · intro j hj
    have e : v = 2 ^ j * (2 * (2 ^ (k - j - 1) * m)) := by
      rw [hv, ← Nat.mul_assoc, ← Nat.mul_assoc, ← Nat.pow_succ, ← Nat.pow_add]
      congr 2; omega
    rw [Nat.testBit_to_div_mod, e, Nat.mul_div_cancel_left _ (Nat.two_pow_pos j),
      Nat.mul_mod_right]
    rfl

/-- The statement of C40 at the value 40, whose lowest set bit is bit 3. -/
theorem C40_witness :
    (40 < 2 ^ 32 ∧ ctz32 40 = 3) ∧
    ((40 ≠ 0 →
      ctz32 40 ≤ 31 ∧ 2 ^ ctz32 40 ∣ 40 ∧ ¬ 2 ^ (ctz32 40 + 1) ∣ 40 ∧
      (40 : Nat).testBit (ctz32 40) = true ∧ ∀ j, j < ctz32 40 → (40 : Nat).testBit j = false) ∧
    ctz32 0 = 31) :=
  ⟨by decide, C40_ctz32_counts_trailing_zeros 40 (by decide)⟩

/-! ## Termination of the out-of-order EOI walk -/

theorem is_chain_nil (prev : Nat → Nat) (head : Nat) :
    gicv2.cpuif.is_chain prev head [] ↔ head = VCML_ARM_GICv2_SPURIOUS_IRQ := Iff.rfl

theorem is_chain_cons (prev : Nat → Nat) (head c : Nat) (l : List Nat) :
    gicv2.cpuif.is_chain prev head (c :: l) ↔
      head = c ∧ c ≠ VCML_ARM_GICv2_SPURIOUS_IRQ ∧ gicv2.cpuif.is_chain prev (prev c) l :=
  Iff.rfl

/-- A chain only depends on the resume-to entries of its own lines. -/
theorem is_chain_congr (prev prev2 : Nat → Nat) :
    ∀ (l : List Nat) (head : Nat), (∀ c, c ∈ l → prev2 c = prev c) →
      gicv2.cpuif.is_chain prev head l → gicv2.cpuif.is_chain prev2 head l := by
  intro l
  induction l with
  | nil => intro head _ h; exact h
  | cons c l ih =>
    intro head hag h
    rw [is_chain_cons] at h ⊢
    refine ⟨h.1, h.2.1, ?_⟩
    rw [hag c (List.mem_cons_self _ _)]
    exact ih _ (fun d hd => hag d (List.mem_cons_of_mem _ hd)) h.2.2

/-- The lines of a chain are the iterates of the resume-to map. -/
theorem is_chain_iterate (prev : Nat → Nat) :
    ∀ (l : List Nat) (head : Nat), gicv2.cpuif.is_chain prev head l →
      prev^[l.length] head = VCML_ARM_GICv2_SPURIOUS_IRQ ∧
      ∀ k, k < l.length → l.get? k = some (prev^[k] head) := by
  intro l
  induction l with
  | nil => intro head h; exact ⟨h, fun k hk => absurd hk (Nat.not_lt_zero k)⟩
  | cons c l ih =>
    intro head h
    rw [is_chain_cons] at h
    obtain ⟨h1, _, h3⟩ := h
    subst h1
    obtain ⟨e1, e2⟩ := ih _ h3
    refine ⟨by rw [List.length_cons, Function.iterate_succ_apply]; exact e1, ?_⟩
    intro k hk
    cases k with
    | zero => rfl
    | succ k =>
      rw [List.get?_cons_succ, Function.iterate_succ_apply]
      exact e2 k (by simpa using hk)

theorem is_chain_mem_ne (prev : Nat → Nat) :
    ∀ (l : List Nat) (head : Nat), gicv2.cpuif.is_chain prev head l →
      ∀ c, c ∈ l → c ≠ VCML_ARM_GICv2_SPURIOUS_IRQ := by
  intro l
  induction l with
  | nil => intro head _ c hc; cases hc
  | cons d l ih =>
    intro head h c hc
    rw [is_chain_cons] at h
    rcases List.mem_cons.mp hc with e | e
    · rw [e]; exact h.2.1
    · exact ih _ h.2.2 c e

/-- The `while` loop of `cpuif::write_EOIR` on a chain without repetition ends
within one evaluation of its condition per line of the chain; it leaves a
chain from the same head whose lines are a sublist of the old ones, and
changes no entry of another processor. -/
theorem eoi_walk_chain (cpu irq : Nat) (prev : Nat → Nat → Nat) :
    ∀ (l : List Nat) (c fuel : Nat),
      gicv2.cpuif.is_chain (fun i => prev i cpu) c (c :: l) → (c :: l).Nodup →
      l.length + 1 ≤ fuel →
      ∃ p l2, gicv2.cpuif.eoi_walk cpu irq fuel prev c = some p ∧
        gicv2.cpuif.is_chain (fun i => p i cpu) c (c :: l2) ∧ l2.Sublist l ∧
        (∀ j, j ∉ c :: l → p j = prev j) ∧
        (∀ j c2, c2 ≠ cpu → p j c2 = prev j c2) := by
  intro l
  induction l with
  | nil =>
    intro c fuel h _ hf
    obtain ⟨f, rfl⟩ : ∃ f, fuel = f + 1 := ⟨fuel - 1, by omega⟩
    rw [is_chain_cons, is_chain_nil] at h
    refine ⟨prev, [], ?_, ?_, List.Sublist.refl _, fun _ _ => rfl, fun _ _ _ => rfl⟩
    · unfold gicv2.cpuif.eoi_walk
      have e : prev c cpu = VCML_ARM_GICv2_SPURIOUS_IRQ := h.2.2
      simp only [e, ne_eq, not_true_eq_false, if_false]
    · rw [is_chain_cons, is_chain_nil]; exact h
  | cons d l ih =>
    intro c fuel h hnd hf
    obtain ⟨f, rfl⟩ : ∃ f, fuel = f + 1 := ⟨fuel - 1, by omega⟩
    rw [is_chain_cons] at h
    obtain ⟨_, hc, h3⟩ := h
    have h3c := h3
    rw [is_chain_cons] at h3
    obtain ⟨hd, hdne, h4⟩ := h3
    have hd2 : prev c cpu = d := hd
    have h3d : gicv2.cpuif.is_chain (fun i => prev i cpu) d (d :: l) := by
      rw [← hd2]; rw [← hd2] at h3c; exact h3c
    have hcl : c ∉ d :: l := (List.nodup_cons.mp hnd).1
    have hnd2 : (d :: l).Nodup := (List.nodup_cons.mp hnd).2
    have hne : prev c cpu ≠ VCML_ARM_GICv2_SPURIOUS_IRQ := by rw [hd2]; exact hdne
    by_cases hirq : d = irq
    · refine ⟨Function.update prev c (Function.update (prev c) cpu (prev irq cpu)), l, ?_, ?_,
        List.sublist_cons_self d l, ?_, ?_⟩
      · unfold gicv2.cpuif.eoi_walk
        have e : prev c cpu = irq := by rw [hd2]; exact hirq
        rw [if_pos hne, if_pos e]
      · rw [is_chain_cons]
        refine ⟨rfl, hc, ?_⟩
        show gicv2.cpuif.is_chain _
          (Function.update prev c (Function.update (prev c) cpu (prev irq cpu)) c cpu) l
        rw [Function.update_same, Function.update_same, ← hirq]
        refine is_chain_congr (fun i => prev i cpu) _ l _ ?_ h4
        intro x hx
        have hxc : x ≠ c := by
          rintro rfl
          exact hcl (List.mem_cons_of_mem _ hx)
        simp only [Function.update_noteq hxc]
      · intro j hj
        have hjc : j ≠ c := fun e => hj (by rw [e]; exact List.mem_cons_self _ _)
        exact Function.update_noteq hjc _ _
      · intro j c2 hc2
        by_cases hjc : j = c
        · subst hjc
          simp only [Function.update_same, Function.update_noteq hc2]
        · simp only [Function.update_noteq hjc]
    · obtain ⟨p, l2, hw, hch, hsub, hfr, hcol⟩ := ih d f h3d hnd2 (by simpa using hf)
      refine ⟨p, d :: l2, ?_, ?_, List.Sublist.cons₂ d hsub, ?_, hcol⟩
      · unfold gicv2.cpuif.eoi_walk
        have e : ¬ prev c cpu = irq := by rw [hd2]; exact hirq
        rw [if_pos hne, if_neg e, hd2]
        exact hw
      · rw [is_chain_cons]
        refine ⟨rfl, hc, ?_⟩
        show gicv2.cpuif.is_chain (fun i => p i cpu) (p c cpu) (d :: l2)
        rw [hfr c hcl, hd2]; exact hch
      · intro j hj
        exact hfr j (fun h => hj (List.mem_cons_of_mem _ h))

theorem read_IACK_cpu_or_zero (s : gicv2) (current_cpu : Int) :
    gicv2.cpuif.read_IACK s current_cpu = gicv2.cpuif.read_IACK s (cpu_or_zero current_cpu : Nat) := by
  unfold gicv2.cpuif.read_IACK
  rw [cpu_or_zero_natCast]

theorem write_EOIR_cpu_or_zero (s : gicv2) (fuel : Nat) (current_cpu : Int) (val : Nat) :
    gicv2.cpuif.write_EOIR s fuel current_cpu val =
      gicv2.cpuif.write_EOIR s fuel (cpu_or_zero current_cpu : Nat) val := by
  unfold gicv2.cpuif.write_EOIR
  rw [cpu_or_zero_natCast]

/-- A refused acknowledge leaves the state as it is. -/
theorem read_IACK_refused (s : gicv2) (cpu : Nat)
    (h : s.CPUIF.PEND cpu = VCML_ARM_GICv2_SPURIOUS_IRQ ∨
      s.get_irq_priority cpu (s.CPUIF.PEND cpu) ≥ s.CPUIF.PRIO cpu) :
    (gicv2.cpuif.read_IACK s cpu).2 = s := by
  unfold gicv2.cpuif.read_IACK
  rw [cpu_or_zero_natCast]
  simp only [h, if_true]

/-- More fuel does not change the result of a walk that ended. -/
theorem eoi_walk_mono (cpu irq : Nat) (prev : Nat → Nat → Nat) :
    ∀ (fuel iter : Nat) (p : Nat → Nat → Nat),
      gicv2.cpuif.eoi_walk cpu irq fuel prev iter = some p →
      ∀ fuel2, fuel ≤ fuel2 → gicv2.cpuif.eoi_walk cpu irq fuel2 prev iter = some p := by
  intro fuel
  induction fuel with
  | zero => intro iter p h; simp [gicv2.cpuif.eoi_walk] at h
  | succ f ih =>
    intro iter p h fuel2 hf
    obtain ⟨g, rfl⟩ : ∃ g, fuel2 = g + 1 := ⟨fuel2 - 1, by omega⟩
    unfold gicv2.cpuif.eoi_walk at h ⊢
    by_cases h1 : prev iter cpu ≠ VCML_ARM_GICv2_SPURIOUS_IRQ
    · rw [if_pos h1] at h ⊢
      by_cases h2 : prev iter cpu = irq
      · rw [if_pos h2] at h ⊢; exact h
      · rw [if_neg h2] at h ⊢; exact ih _ p h g (by omega)
    · rw [if_neg h1] at h ⊢; exact h

/-- The invariant only reads the bookkeeping and the priorities. -/
theorem chain_inv_frame (prio : Nat → Nat → Nat) (s t : gicv2)
    (hinv : gicv2.cpuif.chain_inv prio s)
    (h1 : t.CPUIF.m_curr_irq = s.CPUIF.m_curr_irq) (h2 : t.CPUIF.m_prev_irq = s.CPUIF.m_prev_irq)
    (h3 : gicv2.cpuif.PRIO t.CPUIF = s.CPUIF.PRIO)
    (h4 : ∀ c j, t.get_irq_priority c j = s.get_irq_priority c j) :
    gicv2.cpuif.chain_inv prio t := by
  refine ⟨fun c j => by rw [h4]; exact hinv.1 c j, fun cpu => ?_⟩
  obtain ⟨l, hl, hp, hb⟩ := hinv.2 cpu
  exact ⟨l, by rw [h1, h2]; exact hl, hp, by rw [h3]; exact hb⟩

/-- An acknowledge keeps the invariant: the acknowledged line has a priority
value below the running priority, hence below that of every line of the chain,
and becomes the new head. -/
theorem chain_inv_ack (prio : Nat → Nat → Nat) (s : gicv2) (cpu0 : Nat)
    (hinv : gicv2.cpuif.chain_inv prio s) :
    gicv2.cpuif.chain_inv prio (gicv2.cpuif.read_IACK s cpu0).2 := by
  by_cases h : s.CPUIF.PEND cpu0 = VCML_ARM_GICv2_SPURIOUS_IRQ ∨
      s.get_irq_priority cpu0 (s.CPUIF.PEND cpu0) ≥ s.CPUIF.PRIO cpu0
  · rw [read_IACK_refused s cpu0 h]; exact hinv
  · rw [not_or] at h
    obtain ⟨h1, h2⟩ := h
    have h2 : s.get_irq_priority cpu0 (s.CPUIF.PEND cpu0) < s.CPUIF.PRIO cpu0 := by omega
    obtain ⟨e1, e2, e3, _, e5, _⟩ := read_IACK_ok_fields s cpu0 h1 h2
    refine ⟨fun c j => by rw [e5]; exact hinv.1 c j, fun cpu => ?_⟩
    obtain ⟨l, hl, hp, hb⟩ := hinv.2 cpu
    rw [e1, e2, e3]
    by_cases hcpu : cpu = cpu0
    · subst hcpu
      have hlow : ∀ x, x ∈ l → prio cpu (s.CPUIF.PEND cpu) < prio cpu x := by
        intro x hx
        have := hb x hx
        rw [← hinv.1 cpu (s.CPUIF.PEND cpu)]
        omega
      refine ⟨s.CPUIF.PEND cpu :: l, ?_, List.pairwise_cons.mpr ⟨hlow, hp⟩, ?_⟩
      · rw [is_chain_cons]
        refine ⟨Function.update_same _ _ _, h1, ?_⟩
        show gicv2.cpuif.is_chain _
          (Function.update s.CPUIF.m_prev_irq (s.CPUIF.PEND cpu)
            (Function.update (s.CPUIF.m_prev_irq (s.CPUIF.PEND cpu)) cpu (s.CPUIF.m_curr_irq cpu))
            (s.CPUIF.PEND cpu) cpu) l
        rw [Function.update_same, Function.update_same]
        refine is_chain_congr (fun i => s.CPUIF.m_prev_irq i cpu) _ l _ ?_ hl
        intro x hx
        have hne : x ≠ s.CPUIF.PEND cpu := by
          rintro rfl
          exact absurd (hlow _ hx) (Nat.lt_irrefl _)
        simp only [Function.update_noteq hne]
      · intro c hc
        rw [Function.update_same, hinv.1]
        rcases List.mem_cons.mp hc with e | e
        · rw [e]
        · exact Nat.le_of_lt (hlow c e)
    · refine ⟨l, ?_, hp, ?_⟩
      · rw [Function.update_noteq hcpu]
        refine is_chain_congr (fun i => s.CPUIF.m_prev_irq i cpu) _ l _ ?_ hl
        intro x _
        by_cases hx : x = s.CPUIF.PEND cpu0
        · subst hx
          simp only [Function.update_same, Function.update_noteq hcpu]
        · simp only [Function.update_noteq hx]
      · rw [Function.update_noteq hcpu]; exact hb

/-- An end of interrupt keeps the invariant: ending the running line drops
the head of the chain, ending another line of the chain splices it out, and
anything else changes nothing. -/
theorem chain_inv_eoi (prio : Nat → Nat → Nat) (s t : gicv2) (fuel cpu0 val : Nat)
    (hinv : gicv2.cpuif.chain_inv prio s)
    (hstep : gicv2.cpuif.write_EOIR s fuel cpu0 val = some t) :
    gicv2.cpuif.chain_inv prio t := by
  unfold gicv2.cpuif.write_EOIR at hstep
  rw [cpu_or_zero_natCast] at hstep
  by_cases hcur : s.CPUIF.m_curr_irq cpu0 = VCML_ARM_GICv2_SPURIOUS_IRQ
  · rw [if_pos hcur] at hstep
    rw [← Option.some.inj hstep]; exact hinv
  rw [if_neg hcur] at hstep
  by_cases hge : val &&& 0x3FF ≥ s.get_irq_num
  · simp only [hge, if_true] at hstep
    rw [← Option.some.inj hstep]; exact hinv
  simp only [hge, if_false] at hstep
  by_cases heq : val &&& 0x3FF = s.CPUIF.m_curr_irq cpu0
  · simp only [heq, if_true] at hstep
    have ht := Option.some.inj hstep
    have k1 : t.CPUIF.m_curr_irq = Function.update s.CPUIF.m_curr_irq cpu0
        (s.CPUIF.m_prev_irq (s.CPUIF.m_curr_irq cpu0) cpu0) := by
      rw [← ht]; simp only [gicv2.set_irq_active, set_current_irq_m_curr_irq]
    have k2 : t.CPUIF.m_prev_irq = s.CPUIF.m_prev_irq := by
      rw [← ht]; simp only [gicv2.set_irq_active, set_current_irq_m_prev_irq]
    have k3 : gicv2.cpuif.PRIO t.CPUIF = Function.update s.CPUIF.PRIO cpu0
        (if s.CPUIF.m_prev_irq (s.CPUIF.m_curr_irq cpu0) cpu0 = VCML_ARM_GICv2_SPURIOUS_IRQ
          then 0x100
          else s.get_irq_priority cpu0 (s.CPUIF.m_prev_irq (s.CPUIF.m_curr_irq cpu0) cpu0)) := by
      rw [← ht]; simp only [gicv2.set_irq_active, set_current_irq_running_prio]
    have k4 : ∀ c j, t.get_irq_priority c j = s.get_irq_priority c j := by
      intro c j
      rw [← ht]
      exact set_current_irq_get_irq_priority s cpu0 _ c j
    refine ⟨fun c j => by rw [k4]; exact hinv.1 c j, fun cpu => ?_⟩
    obtain ⟨l, hl, hp, hb⟩ := hinv.2 cpu
    rw [k1, k2, k3]
    by_cases hcpu : cpu = cpu0
    · subst hcpu
      cases l with
      | nil => exact absurd hl hcur
      | cons c rest =>
        rw [is_chain_cons] at hl
        obtain ⟨hc, _, hrest⟩ := hl
        rw [Function.update_same, Function.update_same, hc]
        refine ⟨rest, hrest, (List.pairwise_cons.mp hp).2, ?_⟩
        cases rest with
        | nil => intro x hx; cases hx
        | cons d r =>
          rw [is_chain_cons] at hrest
          have hd : s.CPUIF.m_prev_irq c cpu = d := hrest.1
          rw [hd, if_neg hrest.2.1, hinv.1]
          intro x hx
          rcases List.mem_cons.mp hx with e | e
          · rw [e]
          · exact Nat.le_of_lt ((List.pairwise_cons.mp (List.pairwise_cons.mp hp).2).1 x e)
    · rw [Function.update_noteq hcpu, Function.update_noteq hcpu]
      exact ⟨l, hl, hp, hb⟩
  · simp only [heq, if_false] at hstep
    obtain ⟨p, hp1, hp2⟩ := Option.map_eq_some'.mp hstep
    have k1 : t.CPUIF.m_curr_irq = s.CPUIF.m_curr_irq := by rw [← hp2]
    have k2 : t.CPUIF.m_prev_irq = p := by rw [← hp2]
    have k3 : gicv2.cpuif.PRIO t.CPUIF = s.CPUIF.PRIO := by rw [← hp2]
    have k4 : ∀ c j, t.get_irq_priority c j = s.get_irq_priority c j := by
      intro c j; rw [← hp2]; rfl
    refine ⟨fun c j => by rw [k4]; exact hinv.1 c j, fun cpu => ?_⟩
    obtain ⟨l, hl, hp, hb⟩ := hinv.2 cpu
    rw [k1, k2, k3]
    by_cases hcpu : cpu = cpu0
    · subst hcpu
      cases l with
      | nil => exact absurd hl hcur
      | cons c rest =>
        have hc : s.CPUIF.m_curr_irq cpu = c := ((is_chain_cons _ _ _ _).mp hl).1
        rw [hc] at hl hp1 ⊢
        have hnd : (c :: rest).Nodup := hp.imp (fun h e => by rw [e] at h; exact Nat.lt_irrefl _ h)
        obtain ⟨p2, l2, hw, hch, hsub, _, _⟩ :=
          eoi_walk_chain cpu (val &&& 0x3FF) s.CPUIF.m_prev_irq rest c
            (max fuel (rest.length + 1)) hl hnd (Nat.le_max_right _ _)
        have hpp : p2 = p := by
          have := eoi_walk_mono cpu (val &&& 0x3FF) s.CPUIF.m_prev_irq fuel c p hp1
            (max fuel (rest.length + 1)) (Nat.le_max_left _ _)
          rw [hw] at this
          exact Option.some.inj this
        subst hpp
        have hsub2 : (c :: l2).Sublist (c :: rest) := List.Sublist.cons₂ c hsub
        exact ⟨c :: l2, hch, hp.sublist hsub2, fun x hx => hb x (hsub2.subset hx)⟩
    · refine ⟨l, ?_, hp, hb⟩
      refine is_chain_congr (fun i => s.CPUIF.m_prev_irq i cpu) _ l _ ?_ hl
      intro x _
      by_cases hnil : ∃ c rest, gicv2.cpuif.is_chain (fun i => s.CPUIF.m_prev_irq i cpu0)
          (s.CPUIF.m_curr_irq cpu0) (c :: rest) ∧
          (c :: rest).Pairwise (fun a b => prio cpu0 a < prio cpu0 b)
      · obtain ⟨c, rest, hl0, hp0⟩ := hnil
        have hc : s.CPUIF.m_curr_irq cpu0 = c := ((is_chain_cons _ _ _ _).mp hl0).1
        rw [hc] at hl0 hp1
        have hnd : (c :: rest).Nodup := hp0.imp (fun h e => by rw [e] at h; exact Nat.lt_irrefl _ h)
        obtain ⟨p2, l2, hw, _, _, _, hcol⟩ :=
          eoi_walk_chain cpu0 (val &&& 0x3FF) s.CPUIF.m_prev_irq rest c
            (max fuel (rest.length + 1)) hl0 hnd (Nat.le_max_right _ _)
        have hpp : p2 = p := by
          have := eoi_walk_mono cpu0 (val &&& 0x3FF) s.CPUIF.m_prev_irq fuel c p hp1
            (max fuel (rest.length + 1)) (Nat.le_max_left _ _)
          rw [hw] at this
          exact Option.some.inj this
        subst hpp
        exact hcol x cpu hcpu
      · exfalso
        obtain ⟨l0, hl0, hp0, _⟩ := hinv.2 cpu0
        cases l0 with
        | nil => exact hcur hl0
        | cons c rest => exact hnil ⟨c, rest, hl0, hp0⟩

/-- Every state reached from a state without running lines satisfies the
invariant for the priorities of the start state. -/
theorem reachable_chain_inv (s0 s : gicv2)
    (hreset : ∀ cpu, s0.CPUIF.m_curr_irq cpu = VCML_ARM_GICv2_SPURIOUS_IRQ)
    (hreach : gicv2.cpuif.reachable s0 s) :
    gicv2.cpuif.chain_inv s0.get_irq_priority s := by
  induction hreach with
  | start =>
    exact ⟨fun _ _ => rfl, fun cpu => ⟨[], hreset cpu, List.Pairwise.nil, fun _ h => by cases h⟩⟩
  | ack s current_cpu _ ih =>
    rw [read_IACK_cpu_or_zero]
    exact chain_inv_ack _ s _ ih
  | eoi s t fuel current_cpu val _ hstep ih =>
    rw [write_EOIR_cpu_or_zero] at hstep
    exact chain_inv_eoi _ s t fuel _ val ih hstep
  | other s t _ h1 h2 h3 h4 ih => exact chain_inv_frame _ s t ih h1 h2 h3 h4

/-- Raising a line is one of the other events of `gicv2.cpuif.reachable`. -/
theorem reachable_raise (s0 s : gicv2) (irq : Nat) (h : gicv2.cpuif.reachable s0 s) :
    gicv2.cpuif.reachable s0 (scenario_raise s irq) := by
  refine gicv2.cpuif.reachable.other s _ h ?_ ?_ ?_ ?_
  · unfold scenario_raise; simp only [update_false_m_curr_irq]; rfl
  · unfold scenario_raise; simp only [update_false_m_prev_irq]; rfl
  · unfold scenario_raise; simp only [update_false_running_prio]; rfl
  · intro c j
    exact (chain_frame_set_pending_update s c irq true 1).2.2.2.2.1 j

/-- C34: the out-of-order EOI walk terminates.  Let `s0` be a state in which no
processor has a running line (as after reset), and `s` any state reached from
it by calls of `cpuif::read_IACK` and `cpuif::write_EOIR` of any processor with
any value, interleaved with events that leave the acknowledge bookkeeping and
the line priorities alone.  Then for every processor `cpu` the resume chain
`m_curr_irq[cpu]`, `m_prev_irq[m_curr_irq[cpu]][cpu]`, ... reaches the spurious
id after some number `n` of steps and not before, the priority values of its
lines strictly increase along it, no line occurs twice, and
`cpuif::write_EOIR` returns for every written value once its loop condition
may be evaluated `n` times. -/
theorem C34_EOI_walk_terminates (s0 s : gicv2)
    (hreset : ∀ cpu, s0.CPUIF.m_curr_irq cpu = VCML_ARM_GICv2_SPURIOUS_IRQ)
    (hreach : gicv2.cpuif.reachable s0 s) (cpu : Nat) :
    ∃ n,
      gicv2.cpuif.chain_at s cpu n = VCML_ARM_GICv2_SPURIOUS_IRQ ∧
      (∀ k, k < n → gicv2.cpuif.chain_at s cpu k ≠ VCML_ARM_GICv2_SPURIOUS_IRQ) ∧
      (∀ i j, i < j → j < n →
        s.get_irq_priority cpu (gicv2.cpuif.chain_at s cpu i) <
          s.get_irq_priority cpu (gicv2.cpuif.chain_at s cpu j)) ∧
      (∀ i j, i < j → j < n → gicv2.cpuif.chain_at s cpu i ≠ gicv2.cpuif.chain_at s cpu j) ∧
      ∀ fuel val, n ≤ fuel → ∃ t, gicv2.cpuif.write_EOIR s fuel cpu val = some t := by
  have hinv := reachable_chain_inv s0 s hreset hreach
  obtain ⟨l, hl, hp, _⟩ := hinv.2 cpu
  obtain ⟨e1, e2⟩ := is_chain_iterate _ l _ hl
  have hmem : ∀ k, k < l.length → gicv2.cpuif.chain_at s cpu k ∈ l :=
    fun k hk => List.get?_mem (e2 k hk)
  have hlt : ∀ i j, i < j → j < l.length →
      s.get_irq_priority cpu (gicv2.cpuif.chain_at s cpu i) <
        s.get_irq_priority cpu (gicv2.cpuif.chain_at s cpu j) := by
    intro i j hij hj
    have hi : i < l.length := by omega
    have gi : l.get ⟨i, hi⟩ = gicv2.cpuif.chain_at s cpu i :=
      Option.some.inj ((List.get?_eq_get hi).symm.trans (e2 i hi))
    have gj : l.get ⟨j, hj⟩ = gicv2.cpuif.chain_at s cpu j :=
      Option.some.inj ((List.get?_eq_get hj).symm.trans (e2 j hj))
    have := List.pairwise_iff_get.mp hp ⟨i, hi⟩ ⟨j, hj⟩ hij
    rw [gi, gj] at this
    rw [hinv.1, hinv.1]
    exact this
  refine ⟨l.length, e1, fun k hk => is_chain_mem_ne _ l _ hl _ (hmem k hk), hlt, ?_, ?_⟩
  · intro i j hij hj e
    have := hlt i j hij hj
    rw [e] at this
    exact Nat.lt_irrefl _ this
  · intro fuel val hf
    unfold gicv2.cpuif.write_EOIR
    rw [cpu_or_zero_natCast]
    by_cases hcur : s.CPUIF.m_curr_irq cpu = VCML_ARM_GICv2_SPURIOUS_IRQ
    · rw [if_pos hcur]; exact ⟨s, rfl⟩
    rw [if_neg hcur]
    by_cases hge : val &&& 0x3FF ≥ s.get_irq_num
    · simp only [hge, if_true]; exact ⟨s, rfl⟩
    simp only [hge, if_false]
    by_cases heq : val &&& 0x3FF = s.CPUIF.m_curr_irq cpu
    · simp only [heq, if_true]; exact ⟨_, rfl⟩
    simp only [heq, if_false]
    cases l with
    | nil => exact absurd hl hcur
    | cons c rest =>
      have hc : s.CPUIF.m_curr_irq cpu = c := ((is_chain_cons _ _ _ _).mp hl).1
      rw [hc] at hl ⊢
      have hnd : (c :: rest).Nodup :=
        hp.imp (fun h e => by rw [e] at h; exact Nat.lt_irrefl _ h)
      obtain ⟨p, _, hw, _⟩ :=
        eoi_walk_chain cpu (val &&& 0x3FF) s.CPUIF.m_prev_irq rest c fuel hl hnd hf
      rw [hw]
      exact ⟨_, rfl⟩

/-- The statement of C34 for processor 0 in `scenario_B_ack`, reached from
`scenario_base` by raising line 32, acknowledging it, raising line 33 and
acknowledging it: the chain is 33, 32, spurious. -/
theorem C34_witness :
    ((∀ cpu, scenario_base.CPUIF.m_curr_irq cpu = VCML_ARM_GICv2_SPURIOUS_IRQ) ∧
      gicv2.cpuif.reachable scenario_base scenario_B_ack ∧
      gicv2.cpuif.chain_at scenario_B_ack 0 0 = 33 ∧
      gicv2.cpuif.chain_at scenario_B_ack 0 1 = 32 ∧
      gicv2.cpuif.chain_at scenario_B_ack 0 2 = VCML_ARM_GICv2_SPURIOUS_IRQ) ∧
    ∃ n,
      gicv2.cpuif.chain_at scenario_B_ack 0 n = VCML_ARM_GICv2_SPURIOUS_IRQ ∧
      (∀ k, k < n → gicv2.cpuif.chain_at scenario_B_ack 0 k ≠ VCML_ARM_GICv2_SPURIOUS_IRQ) ∧
      (∀ i j, i < j → j < n →
        scenario_B_ack.get_irq_priority 0 (gicv2.cpuif.chain_at scenario_B_ack 0 i) <
          scenario_B_ack.get_irq_priority 0 (gicv2.cpuif.chain_at scenario_B_ack 0 j)) ∧
      (∀ i j, i < j → j < n →
        gicv2.cpuif.chain_at scenario_B_ack 0 i ≠ gicv2.cpuif.chain_at scenario_B_ack 0 j) ∧
      ∀ fuel val, n ≤ fuel →
        ∃ t, gicv2.cpuif.write_EOIR scenario_B_ack fuel (0 : Nat) val = some t :=
  ⟨⟨fun _ => rfl,
      gicv2.cpuif.reachable.ack _ 0
        (reachable_raise _ _ 33
          (gicv2.cpuif.reachable.ack _ 0
            (reachable_raise _ _ 32 gicv2.cpuif.reachable.start))),
      by decide, by decide, by decide⟩,
    C34_EOI_walk_terminates scenario_base scenario_B_ack (fun _ => rfl)
      (gicv2.cpuif.reachable.ack _ 0
        (reachable_raise _ _ 33
          (gicv2.cpuif.reachable.ack _ 0
            (reachable_raise _ _ 32 gicv2.cpuif.reachable.start)))) 0⟩

end vcml.arm
